import Mathlib

/-!
# ovs-p4rt: table-entry builders and transaction orchestrators

A shallow embedding of `ovs-p4rt/ovs_p4rt.cc`, followed by the channel creation
of the gNMI client `clients/sgnmi_cli/sgnmi_cli.cc` (namespace `sgnmi_cli`).

* Byte strings (`std::string` used as a byte buffer) are lists of naturals
  below 256.
* The protobuf messages `p4::config::v1::P4Info` and `p4::v1::TableEntry` are
  plain structures carrying the fields the program touches.
* The two compile-time profiles (`DPDK_TARGET`, `ES2K_TARGET`) are a value of
  type `Target`; a function that exists under one profile only takes no
  `Target` argument.
* Macros and enumerators declared in headers outside the source tree
  (`p4_name_mapping.h`, `openvswitch/ovs-p4rt.h`) are fields of `Env`.
* The host is little-endian (x86-64 and AArch64 Linux), which fixes `htons`
  and the layout of `in6_addr`.
-/

namespace ovs_p4rt

/-! ## Machine integers -/

/-- Conversion of an integer to `uint8_t`. -/
def toU8 (x : Int) : Nat := (x % 256).toNat

/-- Conversion of an integer to `uint16_t`. -/
def toU16 (x : Int) : Nat := (x % 65536).toNat

/-- Conversion of an integer to `uint32_t`. -/
def toU32 (x : Int) : Nat := (x % 4294967296).toNat

/-- Conversion of a `uint32_t` to `int` (two's complement). -/
def toInt32 (n : Nat) : Int :=
  if n % 4294967296 < 2147483648 then ((n % 4294967296 : Nat) : Int)
  else ((n % 4294967296 : Nat) : Int) - 4294967296

/-- The function `htons` on a little-endian host: swap the two bytes. -/
def htons (x : Nat) : Nat := (x % 65536 % 256) * 256 + x % 65536 / 256

/-- Socket address family `AF_INET` (Linux). -/
def AF_INET : Nat := 2

/-- Socket address family `AF_INET6` (Linux). -/
def AF_INET6 : Nat := 10

/-! ## Names and constants from headers outside the tree -/

/-- The macros of `p4_name_mapping.h` that the program uses. -/
inductive Name where
  | ACTION_DECAP_OUTER_HDR
  | ACTION_DECAP_OUTER_HDR_AND_PUSH_VLAN
  | ACTION_DECAP_OUTER_HDR_AND_PUSH_VLAN_PARAM_TUNNEL_ID
  | ACTION_DECAP_OUTER_HDR_PARAM_TUNNEL_ID
  | ACTION_DECAP_OUTER_IPV4
  | ACTION_DECAP_OUTER_IPV4_PARAM_TUNNEL_ID
  | ACTION_L2_FWD_AND_BYPASS_BRIDGE_PARAM_PORT
  | ACTION_L2_FWD_PARAM_PORT
  | ACTION_POP_VLAN_SET_TUNNEL_UNDERLAY_V4_PARAM_TUNNEL_ID
  | ACTION_POP_VLAN_SET_TUNNEL_UNDERLAY_V6_PARAM_TUNNEL_ID
  | ACTION_REMOVE_VLAN_AND_FWD_PARAM_PORT_ID
  | ACTION_REMOVE_VLAN_AND_FWD_PARAM_VLAN_PTR
  | ACTION_SET_BRIDGE_ID_PARAM_BRIDGE_ID
  | ACTION_SET_SRC_PORT
  | ACTION_SET_TUNNEL_PARAM_DST_ADDR
  | ACTION_SET_TUNNEL_PARAM_TUNNEL_ID
  | ACTION_SET_TUNNEL_UNDERLAY_V4_PARAM_TUNNEL_ID
  | ACTION_SET_TUNNEL_UNDERLAY_V6_PARAM_TUNNEL_ID
  | ACTION_SET_TUNNEL_V4_PARAM_DST_ADDR
  | ACTION_SET_TUNNEL_V6_PARAM_IPV6_1
  | ACTION_SET_TUNNEL_V6_PARAM_IPV6_2
  | ACTION_SET_TUNNEL_V6_PARAM_IPV6_3
  | ACTION_SET_TUNNEL_V6_PARAM_IPV6_4
  | ACTION_VLAN_PUSH_PARAM_DEI
  | ACTION_VLAN_PUSH_PARAM_PCP
  | ACTION_VLAN_PUSH_PARAM_VLAN_ID
  | ACTION_VXLAN_DECAP_AND_PUSH_VLAN
  | ACTION_VXLAN_DECAP_AND_PUSH_VLAN_PARAM_DEI
  | ACTION_VXLAN_DECAP_AND_PUSH_VLAN_PARAM_PCP
  | ACTION_VXLAN_DECAP_AND_PUSH_VLAN_PARAM_VLAN_ID
  | ACTION_VXLAN_DECAP_OUTER_HDR
  | ACTION_VXLAN_ENCAP
  | ACTION_VXLAN_ENCAP_PARAM_DST_ADDR
  | ACTION_VXLAN_ENCAP_PARAM_DST_PORT
  | ACTION_VXLAN_ENCAP_PARAM_SRC_ADDR
  | ACTION_VXLAN_ENCAP_PARAM_SRC_PORT
  | ACTION_VXLAN_ENCAP_PARAM_VNI
  | ACTION_VXLAN_ENCAP_V6
  | ACTION_VXLAN_ENCAP_V6_PARAM_DST_ADDR
  | ACTION_VXLAN_ENCAP_V6_PARAM_DST_PORT
  | ACTION_VXLAN_ENCAP_V6_PARAM_SRC_ADDR
  | ACTION_VXLAN_ENCAP_V6_PARAM_SRC_PORT
  | ACTION_VXLAN_ENCAP_V6_PARAM_VNI
  | ACTION_VXLAN_ENCAP_V6_VLAN_POP
  | ACTION_VXLAN_ENCAP_V6_VLAN_POP_PARAM_DST_ADDR
  | ACTION_VXLAN_ENCAP_V6_VLAN_POP_PARAM_DST_PORT
  | ACTION_VXLAN_ENCAP_V6_VLAN_POP_PARAM_SRC_ADDR
  | ACTION_VXLAN_ENCAP_V6_VLAN_POP_PARAM_SRC_PORT
  | ACTION_VXLAN_ENCAP_V6_VLAN_POP_PARAM_VNI
  | ACTION_VXLAN_ENCAP_VLAN_POP
  | ACTION_VXLAN_ENCAP_VLAN_POP_PARAM_DST_ADDR
  | ACTION_VXLAN_ENCAP_VLAN_POP_PARAM_DST_PORT
  | ACTION_VXLAN_ENCAP_VLAN_POP_PARAM_SRC_ADDR
  | ACTION_VXLAN_ENCAP_VLAN_POP_PARAM_SRC_PORT
  | ACTION_VXLAN_ENCAP_VLAN_POP_PARAM_VNI
  | IPV4_TUNNEL_TERM_TABLE
  | IPV4_TUNNEL_TERM_TABLE_KEY_BRIDGE_ID
  | IPV4_TUNNEL_TERM_TABLE_KEY_IPV4_DST
  | IPV4_TUNNEL_TERM_TABLE_KEY_IPV4_SRC
  | IPV4_TUNNEL_TERM_TABLE_KEY_TUNNEL_TYPE
  | IPV4_TUNNEL_TERM_TABLE_KEY_VNI
  | IPV6_TUNNEL_TERM_TABLE
  | IPV6_TUNNEL_TERM_TABLE_KEY_BRIDGE_ID
  | IPV6_TUNNEL_TERM_TABLE_KEY_IPV6_SRC
  | IPV6_TUNNEL_TERM_TABLE_KEY_VNI
  | L2_FWD_RX_TABLE
  | L2_FWD_RX_TABLE_ACTION_L2_FWD
  | L2_FWD_RX_TABLE_KEY_BRIDGE_ID
  | L2_FWD_RX_TABLE_KEY_DST_MAC
  | L2_FWD_RX_TABLE_KEY_SMAC_LEARNED
  | L2_FWD_RX_WITH_TUNNEL_TABLE
  | L2_FWD_SMAC_TABLE
  | L2_FWD_SMAC_TABLE_ACTION_SMAC_LEARN
  | L2_FWD_SMAC_TABLE_KEY_SA
  | L2_FWD_TX_TABLE
  | L2_FWD_TX_TABLE_ACTION_L2_FWD
  | L2_FWD_TX_TABLE_ACTION_POP_VLAN_SET_TUNNEL_UNDERLAY_V4
  | L2_FWD_TX_TABLE_ACTION_POP_VLAN_SET_TUNNEL_UNDERLAY_V6
  | L2_FWD_TX_TABLE_ACTION_REMOVE_VLAN_AND_FWD
  | L2_FWD_TX_TABLE_ACTION_SET_TUNNEL
  | L2_FWD_TX_TABLE_ACTION_SET_TUNNEL_UNDERLAY_V4
  | L2_FWD_TX_TABLE_ACTION_SET_TUNNEL_UNDERLAY_V6
  | L2_FWD_TX_TABLE_KEY_BRIDGE_ID
  | L2_FWD_TX_TABLE_KEY_DST_MAC
  | L2_FWD_TX_TABLE_KEY_SMAC_LEARNED
  | L2_TO_TUNNEL_V4_ACTION_SET_TUNNEL_V4
  | L2_TO_TUNNEL_V4_KEY_DA
  | L2_TO_TUNNEL_V4_TABLE
  | L2_TO_TUNNEL_V6_ACTION_SET_TUNNEL_V6
  | L2_TO_TUNNEL_V6_KEY_DA
  | L2_TO_TUNNEL_V6_TABLE
  | RX_IPV4_TUNNEL_SOURCE_PORT_TABLE
  | RX_IPV4_TUNNEL_SOURCE_PORT_TABLE_ACTION_SET_SRC_PORT
  | RX_IPV4_TUNNEL_SOURCE_PORT_TABLE_KEY_IPV4_SRC
  | RX_IPV4_TUNNEL_SOURCE_PORT_TABLE_KEY_VNI
  | RX_IPV6_TUNNEL_SOURCE_PORT_TABLE
  | RX_IPV6_TUNNEL_SOURCE_PORT_TABLE_ACTION_SET_SRC_PORT
  | RX_IPV6_TUNNEL_SOURCE_PORT_TABLE_KEY_IPV6_SRC
  | RX_IPV6_TUNNEL_SOURCE_PORT_TABLE_KEY_VNI
  | SOURCE_PORT_TO_BRIDGE_MAP_TABLE
  | SOURCE_PORT_TO_BRIDGE_MAP_TABLE_ACTION_SET_BRIDGE_ID
  | SOURCE_PORT_TO_BRIDGE_MAP_TABLE_KEY_SRC_PORT
  | SOURCE_PORT_TO_BRIDGE_MAP_TABLE_KEY_VID
  | TX_ACC_VSI_TABLE
  | TX_ACC_VSI_TABLE_ACTION_L2_FWD_AND_BYPASS_BRIDGE
  | TX_ACC_VSI_TABLE_KEY_VSI
  | VLAN_POP_MOD_ACTION_VLAN_POP
  | VLAN_POP_MOD_KEY_MOD_BLOB_PTR
  | VLAN_POP_MOD_TABLE
  | VLAN_PUSH_MOD_ACTION_VLAN_PUSH
  | VLAN_PUSH_MOD_KEY_MOD_BLOB_PTR
  | VLAN_PUSH_MOD_TABLE
  | VXLAN_DECAP_AND_VLAN_PUSH_MOD_TABLE
  | VXLAN_DECAP_AND_VLAN_PUSH_MOD_TABLE_KEY_MOD_BLOB_PTR
  | VXLAN_DECAP_MOD_TABLE
  | VXLAN_DECAP_MOD_TABLE_KEY_MOD_BLOB_PTR
  | VXLAN_ENCAP_MOD_TABLE
  | VXLAN_ENCAP_MOD_TABLE_KEY_VENDORMETA_MOD_DATA_PTR
  | VXLAN_ENCAP_V6_MOD_TABLE
  | VXLAN_ENCAP_V6_MOD_TABLE_KEY_VENDORMETA_MOD_DATA_PTR
  | VXLAN_ENCAP_V6_VLAN_POP_MOD_TABLE
  | VXLAN_ENCAP_V6_VLAN_POP_MOD_TABLE_KEY_VENDORMETA_MOD_DATA_PTR
  | VXLAN_ENCAP_VLAN_POP_MOD_TABLE
  | VXLAN_ENCAP_VLAN_POP_MOD_TABLE_KEY_VENDORMETA_MOD_DATA_PTR
  deriving DecidableEq, Repr

/-- The compile-time profile. -/
inductive Target where
  | DPDK
  | ES2K
  deriving DecidableEq, Repr

/-- Declarations the program takes from headers that are not in the tree, and
the one implementation-defined choice of the platform that the program
depends on.

* `nm` gives each macro of `p4_name_mapping.h` its string;
* the `P4_PORT_VLAN_*` enumerators come from `openvswitch/ovs-p4rt.h`;
* `char_is_signed` says whether plain `char` is a signed type (it is on
  x86-64 Linux, it is not on AArch64 Linux). -/
structure Env where
  nm : Name → String
  P4_PORT_VLAN_NATIVE_TAGGED : Nat
  P4_PORT_VLAN_NATIVE_UNTAGGED : Nat
  ES2K_VPORT_ID_OFFSET : Nat
  TUNNEL_TYPE_VXLAN : Nat
  char_is_signed : Bool

/-! ## Pipeline schema (`p4::config::v1::P4Info`) -/

/-- Message `p4.config.v1.Preamble`: a `uint32` id and a name. -/
structure Preamble where
  id : Nat
  name : String
  deriving DecidableEq, Repr

/-- Message `p4.config.v1.MatchField`. -/
structure P4MatchField where
  id : Nat
  name : String
  deriving DecidableEq, Repr

/-- Message `p4.config.v1.Table`. -/
structure P4Table where
  preamble : Preamble
  match_fields : List P4MatchField
  deriving DecidableEq, Repr

/-- Message `p4.config.v1.Action.Param`. -/
structure P4Param where
  id : Nat
  name : String
  deriving DecidableEq, Repr

/-- Message `p4.config.v1.Action`. -/
structure P4Action where
  preamble : Preamble
  params : List P4Param
  deriving DecidableEq, Repr

/-- Message `p4.config.v1.P4Info`. -/
structure P4Info where
  tables : List P4Table
  actions : List P4Action
  deriving DecidableEq, Repr

/-! ## Table entries (`p4::v1::TableEntry`) -/

/-- A byte string. -/
abbrev Bytes := List Nat

/-- The oneof `field_match_type` of `p4.v1.FieldMatch`. -/
inductive FieldMatchType where
  | unset
  | exact (value : Bytes)
  | ternary (value : Bytes) (mask : Bytes)
  deriving DecidableEq, Repr

/-- Message `p4.v1.FieldMatch`. -/
structure FieldMatch where
  field_id : Nat
  field_match_type : FieldMatchType
  deriving DecidableEq, Repr

/-- Message `p4.v1.Action.Param`. -/
structure Param where
  param_id : Nat
  value : Bytes
  deriving DecidableEq, Repr

/-- Message `p4.v1.Action`. -/
structure Action where
  action_id : Nat
  params : List Param
  deriving DecidableEq, Repr

/-- Message `p4.v1.TableEntry`; `action = none` means the `action` field is
not set. -/
structure TableEntry where
  table_id : Nat
  match_ : List FieldMatch
  action : Option Action
  priority : Int
  deriving DecidableEq, Repr

/-- A default-constructed `TableEntry`. -/
def TableEntry.fresh : TableEntry := ⟨0, [], none, 0⟩

/-- Setter `set_table_id`, with the conversion of its `int` argument. -/
def set_table_id (e : TableEntry) (id : Int) : TableEntry :=
  { e with table_id := toU32 id }

/-- Setter `set_priority`. -/
def set_priority (e : TableEntry) (p : Int) : TableEntry :=
  { e with priority := p }

/-- One `add_match()` with `set_field_id` and `mutable_exact()->set_value`. -/
def add_exact (e : TableEntry) (field_id : Int) (value : Bytes) : TableEntry :=
  { e with match_ := e.match_ ++ [⟨toU32 field_id, FieldMatchType.exact value⟩] }

/-- One `add_match()` with `set_field_id`, `mutable_ternary()->set_value` and
`mutable_ternary()->set_mask`. -/
def add_ternary (e : TableEntry) (field_id : Int) (value mask : Bytes) : TableEntry :=
  { e with match_ := e.match_ ++ [⟨toU32 field_id, FieldMatchType.ternary value mask⟩] }

/-- The action message reached by `mutable_action()->mutable_action()`:
the one present, or a new empty one. -/
def the_action (e : TableEntry) : Action :=
  match e.action with
  | some a => a
  | none => ⟨0, []⟩

/-- The calls `table_entry->mutable_action()->mutable_action()`: the action
field is set from here on. -/
def mutable_action (e : TableEntry) : TableEntry :=
  { e with action := some (the_action e) }

/-- Setter `action->set_action_id`. -/
def set_action_id (e : TableEntry) (id : Int) : TableEntry :=
  { e with action := some { the_action e with action_id := toU32 id } }

/-- One `action->add_params()` with `set_param_id` and `set_value`. -/
def add_param (e : TableEntry) (param_id : Int) (value : Bytes) : TableEntry :=
  { e with action := some { the_action e with
      params := (the_action e).params ++ [⟨toU32 param_id, value⟩] } }

/-! ## Event records (`openvswitch/ovs-p4rt.h`) -/

/-- The type `struct in_addr`. -/
structure in_addr where
  s_addr : Nat

/-- The type `struct in6_addr`, as its sixteen bytes in memory order. -/
structure in6_addr where
  u6_addr8 : Fin 16 → Nat

/-- Member `__u6_addr32[k]` of `in6_addr` on a little-endian host. -/
def in6_addr.u6_addr32 (a : in6_addr) (k : Fin 4) : Nat :=
  a.u6_addr8 ⟨4 * k.val, by omega⟩ % 256
    + 256 * (a.u6_addr8 ⟨4 * k.val + 1, by omega⟩ % 256)
    + 65536 * (a.u6_addr8 ⟨4 * k.val + 2, by omega⟩ % 256)
    + 16777216 * (a.u6_addr8 ⟨4 * k.val + 3, by omega⟩ % 256)

/-- The member `ip` of `struct p4_ipaddr`. The two members are kept apart;
nothing here relies on their sharing storage. -/
structure ip_addr where
  v4addr : in_addr
  v6addr : in6_addr

/-- The type `struct p4_ipaddr`. -/
structure p4_ipaddr where
  family : Nat
  ip : ip_addr

/-- The type `struct port_vlan_info`. -/
structure port_vlan_info where
  port_vlan_mode : Nat
  port_vlan : Int

/-- The type `struct tunnel_info`. -/
structure tunnel_info where
  src_port : Nat
  local_ip : p4_ipaddr
  remote_ip : p4_ipaddr
  dst_port : Nat
  vni : Nat
  vlan_info : port_vlan_info
  bridge_id : Nat

/-- The type `struct vlan_info`. -/
structure vlan_info where
  vlan_id : Nat

/-- The type `struct mac_learning_info`. -/
structure mac_learning_info where
  is_tunnel : Bool
  is_vlan : Bool
  mac_addr : Fin 6 → Nat
  bridge_id : Nat
  src_port : Nat
  vlan_info : port_vlan_info
  tnl_info : tunnel_info
  vln_info : ovs_p4rt.vlan_info

/-- The type `struct src_port_info`. -/
structure src_port_info where
  bridge_id : Nat
  vlan_id : Nat
  src_port : Nat

/-! ## Value codec -/

/-- The function `EncodeByteValue`: the first `arg_count` variadic arguments,
each converted to `uint8_t`. Every call in the program passes exactly
`arg_count` arguments; reading past them is undefined in C and the model
stops there. -/
def EncodeByteValue : Nat → List Int → Bytes
  | 0, _ => []
  | _ + 1, [] => []
  | n + 1, a :: rest => toU8 a :: EncodeByteValue n rest

/-- The function `CanonicalizeIp`. -/
def CanonicalizeIp (ipv4addr : Nat) : Bytes :=
  EncodeByteValue 4 [((ipv4addr &&& 0xff : Nat) : Int),
    (((ipv4addr >>> 8) &&& 0xff : Nat) : Int),
    (((ipv4addr >>> 16) &&& 0xff : Nat) : Int),
    (((ipv4addr >>> 24) &&& 0xff : Nat) : Int)]

/-- The function `CanonicalizeIpv6`. -/
def CanonicalizeIpv6 (ipv6addr : in6_addr) : Bytes :=
  EncodeByteValue 16 [(ipv6addr.u6_addr8 0 : Int), (ipv6addr.u6_addr8 1 : Int),
    (ipv6addr.u6_addr8 2 : Int), (ipv6addr.u6_addr8 3 : Int),
    (ipv6addr.u6_addr8 4 : Int), (ipv6addr.u6_addr8 5 : Int),
    (ipv6addr.u6_addr8 6 : Int), (ipv6addr.u6_addr8 7 : Int),
    (ipv6addr.u6_addr8 8 : Int), (ipv6addr.u6_addr8 9 : Int),
    (ipv6addr.u6_addr8 10 : Int), (ipv6addr.u6_addr8 11 : Int),
    (ipv6addr.u6_addr8 12 : Int), (ipv6addr.u6_addr8 13 : Int),
    (ipv6addr.u6_addr8 14 : Int), (ipv6addr.u6_addr8 15 : Int)]

/-- The function `CanonicalizeMac`. -/
def CanonicalizeMac (mac : Fin 6 → Nat) : Bytes :=
  EncodeByteValue 6 [((mac 0 &&& 0xff : Nat) : Int), ((mac 1 &&& 0xff : Nat) : Int),
    ((mac 2 &&& 0xff : Nat) : Int), ((mac 3 &&& 0xff : Nat) : Int),
    ((mac 4 &&& 0xff : Nat) : Int), ((mac 5 &&& 0xff : Nat) : Int)]

/-! ## Schema resolver -/

/-- The function `GetTableId`: the loop over `p4info.tables()`. -/
def GetTableId.loop (t_name : String) : List P4Table → Int
  | [] => -1
  | table :: rest =>
    if table.preamble.name = t_name then toInt32 table.preamble.id
    else GetTableId.loop t_name rest

/-- The function `GetTableId`. -/
def GetTableId (p4info : P4Info) (t_name : String) : Int :=
  GetTableId.loop t_name p4info.tables

/-- The function `GetActionId`: the loop over `p4info.actions()`. -/
def GetActionId.loop (a_name : String) : List P4Action → Int
  | [] => -1
  | action :: rest =>
    if action.preamble.name = a_name then toInt32 action.preamble.id
    else GetActionId.loop a_name rest

/-- The function `GetActionId`. -/
def GetActionId (p4info : P4Info) (a_name : String) : Int :=
  GetActionId.loop a_name p4info.actions

/-- The inner loop of `GetParamId` over `action.params()`: the id returned,
or `none` when the loop runs to its end. -/
def GetParamId.inner (param_name : String) : List P4Param → Option Int
  | [] => none
  | param :: rest =>
    if param.name = param_name then some (toInt32 param.id)
    else GetParamId.inner param_name rest

/-- The outer loop of `GetParamId` over `p4info.actions()`. -/
def GetParamId.loop (a_name param_name : String) : List P4Action → Int
  | [] => -1
  | action :: rest =>
    if action.preamble.name ≠ a_name then GetParamId.loop a_name param_name rest
    else
      match GetParamId.inner param_name action.params with
      | some id => id
      | none => GetParamId.loop a_name param_name rest

/-- The function `GetParamId`. -/
def GetParamId (p4info : P4Info) (a_name param_name : String) : Int :=
  GetParamId.loop a_name param_name p4info.actions

/-- The inner loop of `GetMatchFieldId` over `table.match_fields()`. -/
def GetMatchFieldId.inner (mf_name : String) : List P4MatchField → Option Int
  | [] => none
  | mf :: rest =>
    if mf.name = mf_name then some (toInt32 mf.id)
    else GetMatchFieldId.inner mf_name rest

/-- The outer loop of `GetMatchFieldId` over `p4info.tables()`. -/
def GetMatchFieldId.loop (t_name mf_name : String) : List P4Table → Int
  | [] => -1
  | table :: rest =>
    if table.preamble.name ≠ t_name then GetMatchFieldId.loop t_name mf_name rest
    else
      match GetMatchFieldId.inner mf_name table.match_fields with
      | some id => id
      | none => GetMatchFieldId.loop t_name mf_name rest

/-- The function `GetMatchFieldId`. -/
def GetMatchFieldId (p4info : P4Info) (t_name mf_name : String) : Int :=
  GetMatchFieldId.loop t_name mf_name p4info.tables

/-! ## Entry builders -/

/-- The function `PrepareFdbSmacTableEntry` (ES2K). -/
def PrepareFdbSmacTableEntry (env : Env) (table_entry : TableEntry)
    (learn_info : mac_learning_info) (p4info : P4Info) (insert_entry : Bool) : TableEntry :=
  let e := set_table_id table_entry (GetTableId p4info (env.nm .L2_FWD_SMAC_TABLE))
  let e := set_priority e 1
  let e := add_ternary e
    (GetMatchFieldId p4info (env.nm .L2_FWD_SMAC_TABLE) (env.nm .L2_FWD_SMAC_TABLE_KEY_SA))
    (CanonicalizeMac learn_info.mac_addr)
    (EncodeByteValue 6 [0xff, 0xff, 0xff, 0xff, 0xff, 0xff])
  if insert_entry then
    set_action_id (mutable_action e)
      (GetActionId p4info (env.nm .L2_FWD_SMAC_TABLE_ACTION_SMAC_LEARN))
  else e

/-- The function `PrepareFdbTxVlanTableEntry`. -/
def PrepareFdbTxVlanTableEntry (env : Env) (t : Target) (table_entry : TableEntry)
    (learn_info : mac_learning_info) (p4info : P4Info) (insert_entry : Bool) : TableEntry :=
  let e := set_table_id table_entry (GetTableId p4info (env.nm .L2_FWD_TX_TABLE))
  let e := add_exact e
    (GetMatchFieldId p4info (env.nm .L2_FWD_TX_TABLE) (env.nm .L2_FWD_TX_TABLE_KEY_DST_MAC))
    (CanonicalizeMac learn_info.mac_addr)
  match t with
  | Target.ES2K =>
    let e := add_exact e
      (GetMatchFieldId p4info (env.nm .L2_FWD_TX_TABLE) (env.nm .L2_FWD_TX_TABLE_KEY_BRIDGE_ID))
      (EncodeByteValue 1 [(learn_info.bridge_id : Int)])
    let e := add_exact e
      (GetMatchFieldId p4info (env.nm .L2_FWD_TX_TABLE)
        (env.nm .L2_FWD_TX_TABLE_KEY_SMAC_LEARNED))
      (EncodeByteValue 1 [1])
    if insert_entry then
      let e := mutable_action e
      if learn_info.vlan_info.port_vlan_mode = env.P4_PORT_VLAN_NATIVE_UNTAGGED then
        let e := set_action_id e
          (GetActionId p4info (env.nm .L2_FWD_TX_TABLE_ACTION_REMOVE_VLAN_AND_FWD))
        let e := add_param e
          (GetParamId p4info (env.nm .L2_FWD_TX_TABLE_ACTION_REMOVE_VLAN_AND_FWD)
            (env.nm .ACTION_REMOVE_VLAN_AND_FWD_PARAM_PORT_ID))
          (EncodeByteValue 1 [(learn_info.src_port : Int)])
        add_param e
          (GetParamId p4info (env.nm .L2_FWD_TX_TABLE_ACTION_REMOVE_VLAN_AND_FWD)
            (env.nm .ACTION_REMOVE_VLAN_AND_FWD_PARAM_VLAN_PTR))
          (EncodeByteValue 1 [learn_info.vlan_info.port_vlan])
      else
        let e := set_action_id e (GetActionId p4info (env.nm .L2_FWD_TX_TABLE_ACTION_L2_FWD))
        add_param e
          (GetParamId p4info (env.nm .L2_FWD_TX_TABLE_ACTION_L2_FWD)
            (env.nm .ACTION_L2_FWD_PARAM_PORT))
          (EncodeByteValue 1 [(learn_info.src_port : Int)])
    else e
  | Target.DPDK =>
    if insert_entry then
      let e := mutable_action e
      let e := set_action_id e (GetActionId p4info (env.nm .L2_FWD_TX_TABLE_ACTION_L2_FWD))
      add_param e
        (GetParamId p4info (env.nm .L2_FWD_TX_TABLE_ACTION_L2_FWD)
          (env.nm .ACTION_L2_FWD_PARAM_PORT))
        (EncodeByteValue 1 [(toU32 ((learn_info.vln_info.vlan_id : Int) - 1) : Int)])
    else e

/-- The function `PrepareFdbRxVlanTableEntry` (one definition per profile). -/
def PrepareFdbRxVlanTableEntry (env : Env) (t : Target) (table_entry : TableEntry)
    (learn_info : mac_learning_info) (p4info : P4Info) (insert_entry : Bool) : TableEntry :=
  match t with
  | Target.ES2K =>
    let e := set_table_id table_entry (GetTableId p4info (env.nm .L2_FWD_RX_TABLE))
    let e := add_exact e
      (GetMatchFieldId p4info (env.nm .L2_FWD_RX_TABLE) (env.nm .L2_FWD_RX_TABLE_KEY_DST_MAC))
      (CanonicalizeMac learn_info.mac_addr)
    let e := add_exact e
      (GetMatchFieldId p4info (env.nm .L2_FWD_RX_TABLE) (env.nm .L2_FWD_RX_TABLE_KEY_BRIDGE_ID))
      (EncodeByteValue 1 [(learn_info.bridge_id : Int)])
    let e := add_exact e
      (GetMatchFieldId p4info (env.nm .L2_FWD_RX_TABLE)
        (env.nm .L2_FWD_RX_TABLE_KEY_SMAC_LEARNED))
      (EncodeByteValue 1 [1])
    if insert_entry then
      let e := mutable_action e
      let e := set_action_id e (GetActionId p4info (env.nm .L2_FWD_TX_TABLE_ACTION_L2_FWD))
      add_param e
        (GetParamId p4info (env.nm .L2_FWD_RX_TABLE_ACTION_L2_FWD)
          (env.nm .ACTION_L2_FWD_PARAM_PORT))
        (EncodeByteValue 1 [(learn_info.src_port : Int)])
    else e
  | Target.DPDK =>
    let e := set_table_id table_entry
      (GetTableId p4info (env.nm .L2_FWD_RX_WITH_TUNNEL_TABLE))
    let e := add_exact e
      (GetMatchFieldId p4info (env.nm .L2_FWD_RX_WITH_TUNNEL_TABLE)
        (env.nm .L2_FWD_TX_TABLE_KEY_DST_MAC))
      (CanonicalizeMac learn_info.mac_addr)
    if insert_entry then
      let e := mutable_action e
      let e := set_action_id e (GetActionId p4info (env.nm .L2_FWD_TX_TABLE_ACTION_L2_FWD))
      add_param e
        (GetParamId p4info (env.nm .L2_FWD_RX_TABLE_ACTION_L2_FWD)
          (env.nm .ACTION_L2_FWD_PARAM_PORT))
        (EncodeByteValue 1 [(toU32 ((learn_info.vln_info.vlan_id : Int) - 1) : Int)])
    else e

/-- The function `PrepareFdbTableEntryforV4Tunnel`. -/
def PrepareFdbTableEntryforV4Tunnel (env : Env) (t : Target) (table_entry : TableEntry)
    (learn_info : mac_learning_info) (p4info : P4Info) (insert_entry : Bool) : TableEntry :=
  let e := set_table_id table_entry (GetTableId p4info (env.nm .L2_FWD_TX_TABLE))
  let e := add_exact e
    (GetMatchFieldId p4info (env.nm .L2_FWD_TX_TABLE) (env.nm .L2_FWD_TX_TABLE_KEY_DST_MAC))
    (CanonicalizeMac learn_info.mac_addr)
  match t with
  | Target.DPDK =>
    if insert_entry then
      let e := mutable_action e
      let e := set_action_id e
        (GetActionId p4info (env.nm .L2_FWD_TX_TABLE_ACTION_SET_TUNNEL))
      let e := add_param e
        (GetParamId p4info (env.nm .L2_FWD_TX_TABLE_ACTION_SET_TUNNEL)
          (env.nm .ACTION_SET_TUNNEL_PARAM_TUNNEL_ID))
        (EncodeByteValue 1 [(learn_info.tnl_info.vni : Int)])
      add_param e
        (GetParamId p4info (env.nm .L2_FWD_TX_TABLE_ACTION_SET_TUNNEL)
          (env.nm .ACTION_SET_TUNNEL_PARAM_DST_ADDR))
        (CanonicalizeIp learn_info.tnl_info.remote_ip.ip.v4addr.s_addr)
    else e
  | Target.ES2K =>
    let e := add_exact e
      (GetMatchFieldId p4info (env.nm .L2_FWD_TX_TABLE) (env.nm .L2_FWD_TX_TABLE_KEY_BRIDGE_ID))
      (EncodeByteValue 1 [(learn_info.bridge_id : Int)])
    let e := add_exact e
      (GetMatchFieldId p4info (env.nm .L2_FWD_TX_TABLE)
        (env.nm .L2_FWD_TX_TABLE_KEY_SMAC_LEARNED))
      (EncodeByteValue 1 [1])
    if insert_entry then
      let e := mutable_action e
      if learn_info.tnl_info.local_ip.family = AF_INET ∧
          learn_info.tnl_info.remote_ip.family = AF_INET then
        if learn_info.vlan_info.port_vlan_mode = env.P4_PORT_VLAN_NATIVE_UNTAGGED then
          let e := set_action_id e (GetActionId p4info
            (env.nm .L2_FWD_TX_TABLE_ACTION_POP_VLAN_SET_TUNNEL_UNDERLAY_V4))
          add_param e
            (GetParamId p4info (env.nm .L2_FWD_TX_TABLE_ACTION_POP_VLAN_SET_TUNNEL_UNDERLAY_V4)
              (env.nm .ACTION_POP_VLAN_SET_TUNNEL_UNDERLAY_V4_PARAM_TUNNEL_ID))
            (EncodeByteValue 1 [(learn_info.tnl_info.vni : Int)])
        else
          let e := set_action_id e (GetActionId p4info
            (env.nm .L2_FWD_TX_TABLE_ACTION_SET_TUNNEL_UNDERLAY_V4))
          add_param e
            (GetParamId p4info (env.nm .L2_FWD_TX_TABLE_ACTION_SET_TUNNEL_UNDERLAY_V4)
              (env.nm .ACTION_SET_TUNNEL_UNDERLAY_V4_PARAM_TUNNEL_ID))
            (EncodeByteValue 1 [(learn_info.tnl_info.vni : Int)])
      else if learn_info.tnl_info.local_ip.family = AF_INET6 ∧
          learn_info.tnl_info.remote_ip.family = AF_INET6 then
        if learn_info.vlan_info.port_vlan_mode = env.P4_PORT_VLAN_NATIVE_UNTAGGED then
          let e := set_action_id e (GetActionId p4info
            (env.nm .L2_FWD_TX_TABLE_ACTION_POP_VLAN_SET_TUNNEL_UNDERLAY_V6))
          add_param e
            (GetParamId p4info (env.nm .L2_FWD_TX_TABLE_ACTION_POP_VLAN_SET_TUNNEL_UNDERLAY_V6)
              (env.nm .ACTION_POP_VLAN_SET_TUNNEL_UNDERLAY_V6_PARAM_TUNNEL_ID))
            (EncodeByteValue 1 [(learn_info.tnl_info.vni : Int)])
        else
          let e := set_action_id e (GetActionId p4info
            (env.nm .L2_FWD_TX_TABLE_ACTION_SET_TUNNEL_UNDERLAY_V6))
          add_param e
            (GetParamId p4info (env.nm .L2_FWD_TX_TABLE_ACTION_SET_TUNNEL_UNDERLAY_V6)
              (env.nm .ACTION_SET_TUNNEL_UNDERLAY_V6_PARAM_TUNNEL_ID))
            (EncodeByteValue 1 [(learn_info.tnl_info.vni : Int)])
      else e
    else e

/-- The function `PrepareL2ToTunnelV4` (ES2K). -/
def PrepareL2ToTunnelV4 (env : Env) (table_entry : TableEntry)
    (learn_info : mac_learning_info) (p4info : P4Info) (insert_entry : Bool) : TableEntry :=
  let e := set_table_id table_entry (GetTableId p4info (env.nm .L2_TO_TUNNEL_V4_TABLE))
  let e := add_exact e
    (GetMatchFieldId p4info (env.nm .L2_TO_TUNNEL_V4_TABLE) (env.nm .L2_TO_TUNNEL_V4_KEY_DA))
    (CanonicalizeMac learn_info.mac_addr)
  if insert_entry then
    let e := mutable_action e
    let e := set_action_id e
      (GetActionId p4info (env.nm .L2_TO_TUNNEL_V4_ACTION_SET_TUNNEL_V4))
    add_param e
      (GetParamId p4info (env.nm .L2_TO_TUNNEL_V4_ACTION_SET_TUNNEL_V4)
        (env.nm .ACTION_SET_TUNNEL_V4_PARAM_DST_ADDR))
      (CanonicalizeIp learn_info.tnl_info.remote_ip.ip.v4addr.s_addr)
  else e

/-- The function `PrepareL2ToTunnelV6` (ES2K). -/
def PrepareL2ToTunnelV6 (env : Env) (table_entry : TableEntry)
    (learn_info : mac_learning_info) (p4info : P4Info) (insert_entry : Bool) : TableEntry :=
  let e := set_table_id table_entry (GetTableId p4info (env.nm .L2_TO_TUNNEL_V6_TABLE))
  let e := add_exact e
    (GetMatchFieldId p4info (env.nm .L2_TO_TUNNEL_V6_TABLE) (env.nm .L2_TO_TUNNEL_V6_KEY_DA))
    (CanonicalizeMac learn_info.mac_addr)
  if insert_entry then
    let e := mutable_action e
    let e := set_action_id e
      (GetActionId p4info (env.nm .L2_TO_TUNNEL_V6_ACTION_SET_TUNNEL_V6))
    let e := add_param e
      (GetParamId p4info (env.nm .L2_TO_TUNNEL_V6_ACTION_SET_TUNNEL_V6)
        (env.nm .ACTION_SET_TUNNEL_V6_PARAM_IPV6_1))
      (CanonicalizeIp (learn_info.tnl_info.remote_ip.ip.v6addr.u6_addr32 0))
    let e := add_param e
      (GetParamId p4info (env.nm .L2_TO_TUNNEL_V6_ACTION_SET_TUNNEL_V6)
        (env.nm .ACTION_SET_TUNNEL_V6_PARAM_IPV6_2))
      (CanonicalizeIp (learn_info.tnl_info.remote_ip.ip.v6addr.u6_addr32 1))
    let e := add_param e
      (GetParamId p4info (env.nm .L2_TO_TUNNEL_V6_ACTION_SET_TUNNEL_V6)
        (env.nm .ACTION_SET_TUNNEL_V6_PARAM_IPV6_3))
      (CanonicalizeIp (learn_info.tnl_info.remote_ip.ip.v6addr.u6_addr32 0))
    add_param e
      (GetParamId p4info (env.nm .L2_TO_TUNNEL_V6_ACTION_SET_TUNNEL_V6)
        (env.nm .ACTION_SET_TUNNEL_V6_PARAM_IPV6_4))
      (CanonicalizeIp (learn_info.tnl_info.remote_ip.ip.v6addr.u6_addr32 0))
  else e

/-- The function `PrepareEncapTableEntry`. -/
def PrepareEncapTableEntry (env : Env) (t : Target) (table_entry : TableEntry)
    (tunnel_info : tunnel_info) (p4info : P4Info) (insert_entry : Bool) : TableEntry :=
  let e := set_table_id table_entry (GetTableId p4info (env.nm .VXLAN_ENCAP_MOD_TABLE))
  let e := add_exact e
    (GetMatchFieldId p4info (env.nm .VXLAN_ENCAP_MOD_TABLE)
      (env.nm .VXLAN_ENCAP_MOD_TABLE_KEY_VENDORMETA_MOD_DATA_PTR))
    (EncodeByteValue 1 [(tunnel_info.vni : Int)])
  if insert_entry then
    let e := mutable_action e
    let e := set_action_id e (GetActionId p4info (env.nm .ACTION_VXLAN_ENCAP))
    let e := add_param e
      (GetParamId p4info (env.nm .ACTION_VXLAN_ENCAP) (env.nm .ACTION_VXLAN_ENCAP_PARAM_SRC_ADDR))
      (CanonicalizeIp tunnel_info.local_ip.ip.v4addr.s_addr)
    let e := add_param e
      (GetParamId p4info (env.nm .ACTION_VXLAN_ENCAP) (env.nm .ACTION_VXLAN_ENCAP_PARAM_DST_ADDR))
      (CanonicalizeIp tunnel_info.remote_ip.ip.v4addr.s_addr)
    let e := match t with
      | Target.ES2K =>
        let dst_port := htons tunnel_info.dst_port
        add_param e
          (GetParamId p4info (env.nm .ACTION_VXLAN_ENCAP) (env.nm .ACTION_VXLAN_ENCAP_PARAM_SRC_PORT))
          (EncodeByteValue 2 [((((dst_port * 2) >>> 8) &&& 0xff : Nat) : Int),
            (((dst_port * 2) &&& 0xff : Nat) : Int)])
      | Target.DPDK => e
    let dst_port := htons tunnel_info.dst_port
    let e := add_param e
      (GetParamId p4info (env.nm .ACTION_VXLAN_ENCAP) (env.nm .ACTION_VXLAN_ENCAP_PARAM_DST_PORT))
      (EncodeByteValue 2 [(((dst_port >>> 8) &&& 0xff : Nat) : Int),
        ((dst_port &&& 0xff : Nat) : Int)])
    add_param e
      (GetParamId p4info (env.nm .ACTION_VXLAN_ENCAP) (env.nm .ACTION_VXLAN_ENCAP_PARAM_VNI))
      (EncodeByteValue 1 [(tunnel_info.vni : Int)])
  else e

/-- The function `PrepareV6EncapTableEntry` (ES2K). -/
def PrepareV6EncapTableEntry (env : Env) (table_entry : TableEntry)
    (tunnel_info : tunnel_info) (p4info : P4Info) (insert_entry : Bool) : TableEntry :=
  let e := set_table_id table_entry (GetTableId p4info (env.nm .VXLAN_ENCAP_V6_MOD_TABLE))
  let e := add_exact e
    (GetMatchFieldId p4info (env.nm .VXLAN_ENCAP_V6_MOD_TABLE)
      (env.nm .VXLAN_ENCAP_V6_MOD_TABLE_KEY_VENDORMETA_MOD_DATA_PTR))
    (EncodeByteValue 1 [(tunnel_info.vni : Int)])
  if insert_entry then
    let e := mutable_action e
    let e := set_action_id e (GetActionId p4info (env.nm .ACTION_VXLAN_ENCAP_V6))
    let e := add_param e
      (GetParamId p4info (env.nm .ACTION_VXLAN_ENCAP_V6) (env.nm .ACTION_VXLAN_ENCAP_V6_PARAM_SRC_ADDR))
      (CanonicalizeIpv6 tunnel_info.local_ip.ip.v6addr)
    let e := add_param e
      (GetParamId p4info (env.nm .ACTION_VXLAN_ENCAP_V6) (env.nm .ACTION_VXLAN_ENCAP_V6_PARAM_DST_ADDR))
      (CanonicalizeIpv6 tunnel_info.remote_ip.ip.v6addr)
    let e :=
      let dst_port := htons tunnel_info.dst_port
      add_param e
        (GetParamId p4info (env.nm .ACTION_VXLAN_ENCAP_V6) (env.nm .ACTION_VXLAN_ENCAP_V6_PARAM_SRC_PORT))
        (EncodeByteValue 2 [((((dst_port * 2) >>> 8) &&& 0xff : Nat) : Int),
          (((dst_port * 2) &&& 0xff : Nat) : Int)])
    let dst_port := htons tunnel_info.dst_port
    let e := add_param e
      (GetParamId p4info (env.nm .ACTION_VXLAN_ENCAP_V6) (env.nm .ACTION_VXLAN_ENCAP_V6_PARAM_DST_PORT))
      (EncodeByteValue 2 [(((dst_port >>> 8) &&& 0xff : Nat) : Int),
        ((dst_port &&& 0xff : Nat) : Int)])
    add_param e
      (GetParamId p4info (env.nm .ACTION_VXLAN_ENCAP_V6) (env.nm .ACTION_VXLAN_ENCAP_V6_PARAM_VNI))
      (EncodeByteValue 1 [(tunnel_info.vni : Int)])
  else e

/-- The function `PrepareEncapAndVlanPopTableEntry` (ES2K). -/
def PrepareEncapAndVlanPopTableEntry (env : Env) (table_entry : TableEntry)
    (tunnel_info : tunnel_info) (p4info : P4Info) (insert_entry : Bool) : TableEntry :=
  let e := set_table_id table_entry (GetTableId p4info (env.nm .VXLAN_ENCAP_VLAN_POP_MOD_TABLE))
  let e := add_exact e
    (GetMatchFieldId p4info (env.nm .VXLAN_ENCAP_VLAN_POP_MOD_TABLE)
      (env.nm .VXLAN_ENCAP_VLAN_POP_MOD_TABLE_KEY_VENDORMETA_MOD_DATA_PTR))
    (EncodeByteValue 1 [(tunnel_info.vni : Int)])
  if insert_entry then
    let e := mutable_action e
    let e := set_action_id e (GetActionId p4info (env.nm .ACTION_VXLAN_ENCAP_VLAN_POP))
    let e := add_param e
      (GetParamId p4info (env.nm .ACTION_VXLAN_ENCAP_VLAN_POP) (env.nm .ACTION_VXLAN_ENCAP_VLAN_POP_PARAM_SRC_ADDR))
      (CanonicalizeIp tunnel_info.local_ip.ip.v4addr.s_addr)
    let e := add_param e
      (GetParamId p4info (env.nm .ACTION_VXLAN_ENCAP_VLAN_POP) (env.nm .ACTION_VXLAN_ENCAP_VLAN_POP_PARAM_DST_ADDR))
      (CanonicalizeIp tunnel_info.remote_ip.ip.v4addr.s_addr)
    let e :=
      let dst_port := htons tunnel_info.dst_port
      add_param e
        (GetParamId p4info (env.nm .ACTION_VXLAN_ENCAP_VLAN_POP) (env.nm .ACTION_VXLAN_ENCAP_VLAN_POP_PARAM_SRC_PORT))
        (EncodeByteValue 2 [((((dst_port * 2) >>> 8) &&& 0xff : Nat) : Int),
          (((dst_port * 2) &&& 0xff : Nat) : Int)])
    let dst_port := htons tunnel_info.dst_port
    let e := add_param e
      (GetParamId p4info (env.nm .ACTION_VXLAN_ENCAP_VLAN_POP) (env.nm .ACTION_VXLAN_ENCAP_VLAN_POP_PARAM_DST_PORT))
      (EncodeByteValue 2 [(((dst_port >>> 8) &&& 0xff : Nat) : Int),
        ((dst_port &&& 0xff : Nat) : Int)])
    add_param e
      (GetParamId p4info (env.nm .ACTION_VXLAN_ENCAP_VLAN_POP) (env.nm .ACTION_VXLAN_ENCAP_VLAN_POP_PARAM_VNI))
      (EncodeByteValue 1 [(tunnel_info.vni : Int)])
  else e

/-- The function `PrepareV6EncapAndVlanPopTableEntry` (ES2K). -/
def PrepareV6EncapAndVlanPopTableEntry (env : Env) (table_entry : TableEntry)
    (tunnel_info : tunnel_info) (p4info : P4Info) (insert_entry : Bool) : TableEntry :=
  let e := set_table_id table_entry (GetTableId p4info (env.nm .VXLAN_ENCAP_V6_VLAN_POP_MOD_TABLE))
  let e := add_exact e
    (GetMatchFieldId p4info (env.nm .VXLAN_ENCAP_V6_VLAN_POP_MOD_TABLE)
      (env.nm .VXLAN_ENCAP_V6_VLAN_POP_MOD_TABLE_KEY_VENDORMETA_MOD_DATA_PTR))
    (EncodeByteValue 1 [(tunnel_info.vni : Int)])
  if insert_entry then
    let e := mutable_action e
    let e := set_action_id e (GetActionId p4info (env.nm .ACTION_VXLAN_ENCAP_V6_VLAN_POP))
    let e := add_param e
      (GetParamId p4info (env.nm .ACTION_VXLAN_ENCAP_V6_VLAN_POP) (env.nm .ACTION_VXLAN_ENCAP_V6_VLAN_POP_PARAM_SRC_ADDR))
      (CanonicalizeIpv6 tunnel_info.local_ip.ip.v6addr)
    let e := add_param e
      (GetParamId p4info (env.nm .ACTION_VXLAN_ENCAP_V6_VLAN_POP) (env.nm .ACTION_VXLAN_ENCAP_V6_VLAN_POP_PARAM_DST_ADDR))
      (CanonicalizeIpv6 tunnel_info.remote_ip.ip.v6addr)
    let e :=
      let dst_port := htons tunnel_info.dst_port
      add_param e
        (GetParamId p4info (env.nm .ACTION_VXLAN_ENCAP_V6_VLAN_POP) (env.nm .ACTION_VXLAN_ENCAP_V6_VLAN_POP_PARAM_SRC_PORT))
        (EncodeByteValue 2 [((((dst_port * 2) >>> 8) &&& 0xff : Nat) : Int),
          (((dst_port * 2) &&& 0xff : Nat) : Int)])
    let dst_port := htons tunnel_info.dst_port
    let e := add_param e
      (GetParamId p4info (env.nm .ACTION_VXLAN_ENCAP_V6_VLAN_POP) (env.nm .ACTION_VXLAN_ENCAP_V6_VLAN_POP_PARAM_DST_PORT))
      (EncodeByteValue 2 [(((dst_port >>> 8) &&& 0xff : Nat) : Int),
        ((dst_port &&& 0xff : Nat) : Int)])
    add_param e
      (GetParamId p4info (env.nm .ACTION_VXLAN_ENCAP_V6_VLAN_POP) (env.nm .ACTION_VXLAN_ENCAP_V6_VLAN_POP_PARAM_VNI))
      (EncodeByteValue 1 [(tunnel_info.vni : Int)])
  else e

/-- The function `PrepareRxTunnelTableEntry` (ES2K). -/
def PrepareRxTunnelTableEntry (env : Env) (table_entry : TableEntry)
    (tunnel_info : tunnel_info) (p4info : P4Info) (insert_entry : Bool) : TableEntry :=
  let e := set_table_id table_entry
    (GetTableId p4info (env.nm .RX_IPV4_TUNNEL_SOURCE_PORT_TABLE))
  let e := add_exact e
    (GetMatchFieldId p4info (env.nm .RX_IPV4_TUNNEL_SOURCE_PORT_TABLE)
      (env.nm .RX_IPV4_TUNNEL_SOURCE_PORT_TABLE_KEY_VNI))
    (EncodeByteValue 1 [(tunnel_info.vni : Int)])
  let e := add_exact e
    (GetMatchFieldId p4info (env.nm .RX_IPV4_TUNNEL_SOURCE_PORT_TABLE)
      (env.nm .RX_IPV4_TUNNEL_SOURCE_PORT_TABLE_KEY_IPV4_SRC))
    (CanonicalizeIp tunnel_info.remote_ip.ip.v4addr.s_addr)
  if insert_entry then
    let e := mutable_action e
    let e := set_action_id e
      (GetActionId p4info (env.nm .RX_IPV4_TUNNEL_SOURCE_PORT_TABLE_ACTION_SET_SRC_PORT))
    add_param e
      (GetParamId p4info (env.nm .RX_IPV4_TUNNEL_SOURCE_PORT_TABLE_ACTION_SET_SRC_PORT)
        (env.nm .ACTION_SET_SRC_PORT))
      (EncodeByteValue 2 [(((tunnel_info.src_port >>> 8) &&& 0xff : Nat) : Int),
        ((tunnel_info.src_port &&& 0xff : Nat) : Int)])
  else e

/-- The function `PrepareV6RxTunnelTableEntry` (ES2K). -/
def PrepareV6RxTunnelTableEntry (env : Env) (table_entry : TableEntry)
    (tunnel_info : tunnel_info) (p4info : P4Info) (insert_entry : Bool) : TableEntry :=
  let e := set_table_id table_entry
    (GetTableId p4info (env.nm .RX_IPV6_TUNNEL_SOURCE_PORT_TABLE))
  let e := add_exact e
    (GetMatchFieldId p4info (env.nm .RX_IPV6_TUNNEL_SOURCE_PORT_TABLE)
      (env.nm .RX_IPV6_TUNNEL_SOURCE_PORT_TABLE_KEY_VNI))
    (EncodeByteValue 1 [(tunnel_info.vni : Int)])
  let e := add_exact e
    (GetMatchFieldId p4info (env.nm .RX_IPV6_TUNNEL_SOURCE_PORT_TABLE)
      (env.nm .RX_IPV6_TUNNEL_SOURCE_PORT_TABLE_KEY_IPV6_SRC))
    (CanonicalizeIpv6 tunnel_info.remote_ip.ip.v6addr)
  if insert_entry then
    let e := mutable_action e
    let e := set_action_id e
      (GetActionId p4info (env.nm .RX_IPV6_TUNNEL_SOURCE_PORT_TABLE_ACTION_SET_SRC_PORT))
    add_param e
      (GetParamId p4info (env.nm .RX_IPV6_TUNNEL_SOURCE_PORT_TABLE_ACTION_SET_SRC_PORT)
        (env.nm .ACTION_SET_SRC_PORT))
      (EncodeByteValue 1 [(tunnel_info.src_port : Int)])
  else e

/-- The function `PrepareTunnelTermTableEntry`. -/
def PrepareTunnelTermTableEntry (env : Env) (t : Target) (table_entry : TableEntry)
    (tunnel_info : tunnel_info) (p4info : P4Info) (insert_entry : Bool) : TableEntry :=
  let e := add_exact table_entry
    (GetMatchFieldId p4info (env.nm .IPV4_TUNNEL_TERM_TABLE)
      (env.nm .IPV4_TUNNEL_TERM_TABLE_KEY_IPV4_SRC))
    (CanonicalizeIp tunnel_info.remote_ip.ip.v4addr.s_addr)
  match t with
  | Target.ES2K =>
    let e := set_table_id e (GetTableId p4info (env.nm .IPV4_TUNNEL_TERM_TABLE))
    let e := add_exact e
      (GetMatchFieldId p4info (env.nm .IPV4_TUNNEL_TERM_TABLE)
        (env.nm .IPV4_TUNNEL_TERM_TABLE_KEY_BRIDGE_ID))
      (EncodeByteValue 1 [(tunnel_info.bridge_id : Int)])
    let e := add_exact e
      (GetMatchFieldId p4info (env.nm .IPV4_TUNNEL_TERM_TABLE)
        (env.nm .IPV4_TUNNEL_TERM_TABLE_KEY_VNI))
      (EncodeByteValue 1 [(tunnel_info.vni : Int)])
    if insert_entry then
      let e := mutable_action e
      if tunnel_info.vlan_info.port_vlan_mode = env.P4_PORT_VLAN_NATIVE_UNTAGGED then
        let e := set_action_id e
          (GetActionId p4info (env.nm .ACTION_DECAP_OUTER_HDR_AND_PUSH_VLAN))
        add_param e
          (GetParamId p4info (env.nm .ACTION_DECAP_OUTER_HDR_AND_PUSH_VLAN)
            (env.nm .ACTION_DECAP_OUTER_HDR_AND_PUSH_VLAN_PARAM_TUNNEL_ID))
          (EncodeByteValue 1 [(tunnel_info.vni : Int)])
      else
        let e := set_action_id e (GetActionId p4info (env.nm .ACTION_DECAP_OUTER_HDR))
        add_param e
          (GetParamId p4info (env.nm .ACTION_DECAP_OUTER_HDR)
            (env.nm .ACTION_DECAP_OUTER_HDR_PARAM_TUNNEL_ID))
          (EncodeByteValue 1 [(tunnel_info.vni : Int)])
    else e
  | Target.DPDK =>
    let e := set_table_id e (GetTableId p4info (env.nm .IPV4_TUNNEL_TERM_TABLE))
    let e := add_exact e
      (GetMatchFieldId p4info (env.nm .IPV4_TUNNEL_TERM_TABLE)
        (env.nm .IPV4_TUNNEL_TERM_TABLE_KEY_TUNNEL_TYPE))
      (EncodeByteValue 1 [(env.TUNNEL_TYPE_VXLAN : Int)])
    let e := add_exact e
      (GetMatchFieldId p4info (env.nm .IPV4_TUNNEL_TERM_TABLE)
        (env.nm .IPV4_TUNNEL_TERM_TABLE_KEY_IPV4_DST))
      (CanonicalizeIp tunnel_info.local_ip.ip.v4addr.s_addr)
    if insert_entry then
      let e := mutable_action e
      let e := set_action_id e (GetActionId p4info (env.nm .ACTION_DECAP_OUTER_IPV4))
      add_param e
        (GetParamId p4info (env.nm .ACTION_DECAP_OUTER_IPV4)
          (env.nm .ACTION_DECAP_OUTER_IPV4_PARAM_TUNNEL_ID))
        (EncodeByteValue 1 [(tunnel_info.vni : Int)])
    else e

/-- The function `PrepareV6TunnelTermTableEntry` (ES2K). -/
def PrepareV6TunnelTermTableEntry (env : Env) (table_entry : TableEntry)
    (tunnel_info : tunnel_info) (p4info : P4Info) (insert_entry : Bool) : TableEntry :=
  let e := set_table_id table_entry (GetTableId p4info (env.nm .IPV6_TUNNEL_TERM_TABLE))
  let e := add_exact e
    (GetMatchFieldId p4info (env.nm .IPV6_TUNNEL_TERM_TABLE)
      (env.nm .IPV6_TUNNEL_TERM_TABLE_KEY_BRIDGE_ID))
    (EncodeByteValue 1 [(tunnel_info.bridge_id : Int)])
  let e := add_exact e
    (GetMatchFieldId p4info (env.nm .IPV6_TUNNEL_TERM_TABLE)
      (env.nm .IPV6_TUNNEL_TERM_TABLE_KEY_IPV6_SRC))
    (CanonicalizeIpv6 tunnel_info.remote_ip.ip.v6addr)
  let e := add_exact e
    (GetMatchFieldId p4info (env.nm .IPV6_TUNNEL_TERM_TABLE)
      (env.nm .IPV6_TUNNEL_TERM_TABLE_KEY_VNI))
    (EncodeByteValue 1 [(tunnel_info.vni : Int)])
  if insert_entry then
    let e := mutable_action e
    if tunnel_info.vlan_info.port_vlan_mode = env.P4_PORT_VLAN_NATIVE_UNTAGGED then
      let e := set_action_id e
        (GetActionId p4info (env.nm .ACTION_DECAP_OUTER_HDR_AND_PUSH_VLAN))
      add_param e
        (GetParamId p4info (env.nm .ACTION_DECAP_OUTER_HDR_AND_PUSH_VLAN)
          (env.nm .ACTION_DECAP_OUTER_HDR_AND_PUSH_VLAN_PARAM_TUNNEL_ID))
        (EncodeByteValue 1 [(tunnel_info.vni : Int)])
    else
      let e := set_action_id e (GetActionId p4info (env.nm .ACTION_DECAP_OUTER_HDR))
      add_param e
        (GetParamId p4info (env.nm .ACTION_DECAP_OUTER_HDR)
          (env.nm .ACTION_DECAP_OUTER_HDR_PARAM_TUNNEL_ID))
        (EncodeByteValue 1 [(tunnel_info.vni : Int)])
  else e

/-- The function `PrepareDecapModTableEntry` (ES2K). -/
def PrepareDecapModTableEntry (env : Env) (table_entry : TableEntry)
    (tunnel_info : tunnel_info) (p4info : P4Info) (insert_entry : Bool) : TableEntry :=
  let e := set_table_id table_entry (GetTableId p4info (env.nm .VXLAN_DECAP_MOD_TABLE))
  let e := add_exact e
    (GetMatchFieldId p4info (env.nm .VXLAN_DECAP_MOD_TABLE)
      (env.nm .VXLAN_DECAP_MOD_TABLE_KEY_MOD_BLOB_PTR))
    (EncodeByteValue 1 [(tunnel_info.vni : Int)])
  if insert_entry then
    let e := mutable_action e
    set_action_id e (GetActionId p4info (env.nm .ACTION_VXLAN_DECAP_OUTER_HDR))
  else e

/-- The function `PrepareDecapModAndVlanPushTableEntry` (ES2K). -/
def PrepareDecapModAndVlanPushTableEntry (env : Env) (table_entry : TableEntry)
    (tunnel_info : tunnel_info) (p4info : P4Info) (insert_entry : Bool) : TableEntry :=
  let e := set_table_id table_entry
    (GetTableId p4info (env.nm .VXLAN_DECAP_AND_VLAN_PUSH_MOD_TABLE))
  let e := add_exact e
    (GetMatchFieldId p4info (env.nm .VXLAN_DECAP_AND_VLAN_PUSH_MOD_TABLE)
      (env.nm .VXLAN_DECAP_AND_VLAN_PUSH_MOD_TABLE_KEY_MOD_BLOB_PTR))
    (EncodeByteValue 1 [(tunnel_info.vni : Int)])
  if insert_entry then
    let e := mutable_action e
    let e := set_action_id e
      (GetActionId p4info (env.nm .ACTION_VXLAN_DECAP_AND_PUSH_VLAN))
    let e := add_param e
      (GetParamId p4info (env.nm .ACTION_VXLAN_DECAP_AND_PUSH_VLAN)
        (env.nm .ACTION_VXLAN_DECAP_AND_PUSH_VLAN_PARAM_PCP))
      (EncodeByteValue 1 [1])
    let e := add_param e
      (GetParamId p4info (env.nm .ACTION_VXLAN_DECAP_AND_PUSH_VLAN)
        (env.nm .ACTION_VXLAN_DECAP_AND_PUSH_VLAN_PARAM_DEI))
      (EncodeByteValue 1 [0])
    add_param e
      (GetParamId p4info (env.nm .ACTION_VXLAN_DECAP_AND_PUSH_VLAN)
        (env.nm .ACTION_VXLAN_DECAP_AND_PUSH_VLAN_PARAM_VLAN_ID))
      (EncodeByteValue 1 [tunnel_info.vlan_info.port_vlan])
  else e

/-- The function `PrepareVlanPushTableEntry` (ES2K). -/
def PrepareVlanPushTableEntry (env : Env) (table_entry : TableEntry)
    (vlan_id : Nat) (p4info : P4Info) (insert_entry : Bool) : TableEntry :=
  let e := set_table_id table_entry (GetTableId p4info (env.nm .VLAN_PUSH_MOD_TABLE))
  let e := add_exact e
    (GetMatchFieldId p4info (env.nm .VLAN_PUSH_MOD_TABLE)
      (env.nm .VLAN_PUSH_MOD_KEY_MOD_BLOB_PTR))
    (EncodeByteValue 1 [(vlan_id : Int)])
  if insert_entry then
    let e := mutable_action e
    let e := set_action_id e (GetActionId p4info (env.nm .VLAN_PUSH_MOD_ACTION_VLAN_PUSH))
    let e := add_param e
      (GetParamId p4info (env.nm .VLAN_PUSH_MOD_ACTION_VLAN_PUSH)
        (env.nm .ACTION_VLAN_PUSH_PARAM_PCP))
      (EncodeByteValue 1 [1])
    let e := add_param e
      (GetParamId p4info (env.nm .VLAN_PUSH_MOD_ACTION_VLAN_PUSH)
        (env.nm .ACTION_VLAN_PUSH_PARAM_DEI))
      (EncodeByteValue 1 [0])
    add_param e
      (GetParamId p4info (env.nm .VLAN_PUSH_MOD_ACTION_VLAN_PUSH)
        (env.nm .ACTION_VLAN_PUSH_PARAM_VLAN_ID))
      (EncodeByteValue 1 [(vlan_id : Int)])
  else e

/-- The function `PrepareVlanPopTableEntry` (ES2K). -/
def PrepareVlanPopTableEntry (env : Env) (table_entry : TableEntry)
    (vlan_id : Nat) (p4info : P4Info) (insert_entry : Bool) : TableEntry :=
  let e := set_table_id table_entry (GetTableId p4info (env.nm .VLAN_POP_MOD_TABLE))
  let e := add_exact e
    (GetMatchFieldId p4info (env.nm .VLAN_POP_MOD_TABLE)
      (env.nm .VLAN_POP_MOD_KEY_MOD_BLOB_PTR))
    (EncodeByteValue 1 [(vlan_id : Int)])
  if insert_entry then
    let e := mutable_action e
    set_action_id e (GetActionId p4info (env.nm .VLAN_POP_MOD_ACTION_VLAN_POP))
  else e

/-- The function `PrepareSrcPortTableEntry` (ES2K). -/
def PrepareSrcPortTableEntry (env : Env) (table_entry : TableEntry)
    (sp : src_port_info) (p4info : P4Info) (insert_entry : Bool) : TableEntry :=
  let e := set_table_id table_entry
    (GetTableId p4info (env.nm .SOURCE_PORT_TO_BRIDGE_MAP_TABLE))
  let e := set_priority e 1
  let e := add_ternary e
    (GetMatchFieldId p4info (env.nm .SOURCE_PORT_TO_BRIDGE_MAP_TABLE)
      (env.nm .SOURCE_PORT_TO_BRIDGE_MAP_TABLE_KEY_SRC_PORT))
    (EncodeByteValue 2 [(((sp.src_port >>> 8) &&& 0xff : Nat) : Int),
      ((sp.src_port &&& 0xff : Nat) : Int)])
    (EncodeByteValue 2 [0xff, 0xff])
  let e := add_ternary e
    (GetMatchFieldId p4info (env.nm .SOURCE_PORT_TO_BRIDGE_MAP_TABLE)
      (env.nm .SOURCE_PORT_TO_BRIDGE_MAP_TABLE_KEY_VID))
    (EncodeByteValue 2 [(((sp.vlan_id >>> 8) &&& 0x0f : Nat) : Int),
      ((sp.vlan_id &&& 0xff : Nat) : Int)])
    (EncodeByteValue 2 [0x0f, 0xff])
  if insert_entry then
    let e := mutable_action e
    let e := set_action_id e
      (GetActionId p4info (env.nm .SOURCE_PORT_TO_BRIDGE_MAP_TABLE_ACTION_SET_BRIDGE_ID))
    add_param e
      (GetParamId p4info (env.nm .SOURCE_PORT_TO_BRIDGE_MAP_TABLE_ACTION_SET_BRIDGE_ID)
        (env.nm .ACTION_SET_BRIDGE_ID_PARAM_BRIDGE_ID))
      (EncodeByteValue 1 [(sp.bridge_id : Int)])
  else e

/-- The function `PrepareTxAccVsiTableEntry` (ES2K); the subtraction is in
`uint32_t`. -/
def PrepareTxAccVsiTableEntry (env : Env) (table_entry : TableEntry) (sp : Nat)
    (p4info : P4Info) : TableEntry :=
  let e := set_table_id table_entry (GetTableId p4info (env.nm .TX_ACC_VSI_TABLE))
  add_exact e
    (GetMatchFieldId p4info (env.nm .TX_ACC_VSI_TABLE) (env.nm .TX_ACC_VSI_TABLE_KEY_VSI))
    (EncodeByteValue 1 [(toU32 ((sp : Int) - (env.ES2K_VPORT_ID_OFFSET : Int)) : Int)])

/-! ## Transport collaborator

The session object and the functions that send requests live in
`ovs_p4rt_session.cc`, which is not part of the tree. They are a parameter of
the model: an arbitrary state type `σ` for the remote side and one function
per call, each returning its result and the next state. Every request that
is sent is also appended to a log kept in the session, so that statements
about which requests an operation issues can be made. -/

/-- The type `absl::Status`, reduced to its code (0 is OK). -/
structure Status where
  code : Nat
  deriving DecidableEq, Repr

/-- The method `absl::Status::ok`. -/
def Status.ok (s : Status) : Bool := s.code == 0

/-- The field `type` of `p4.v1.Update`. -/
inductive UpdateType where
  | INSERT
  | DELETE
  deriving DecidableEq, Repr

/-- Modelled from the spec: the write request handed out by
`SetupTableEntryToInsert` or `SetupTableEntryToDelete` (section 6,
NewWriteTransaction: one table-entry slot, the delete variant marks the
request as a removal). -/
structure WriteRequest where
  type : UpdateType
  table_entry : TableEntry
  deriving DecidableEq, Repr

/-- Modelled from the spec: the read request handed out by
`SetupTableEntryToRead` (section 6, NewReadTransaction: one table-entry
slot). -/
structure ReadRequest where
  table_entry : TableEntry
  deriving DecidableEq, Repr

/-- Message `p4.v1.ReadResponse`: the table entries of its entities, in
order. -/
structure ReadResponse where
  entities : List TableEntry
  deriving DecidableEq, Repr

/-- A request as seen by the transport. -/
inductive Request where
  | write (r : WriteRequest)
  | read (r : ReadRequest)
  deriving DecidableEq, Repr

/-- Modelled from the spec: the transport collaborator of section 6
(`OvsP4rtSession::Create`, `GetForwardingPipelineConfig`, `SendWriteRequest`,
`SendReadRequest`). A failed `StatusOr` is `none`. -/
structure Transport (σ : Type) where
  Create : σ → Status × σ
  GetForwardingPipelineConfig : σ → Status × P4Info × σ
  SendWriteRequest : σ → WriteRequest → Status × σ
  SendReadRequest : σ → ReadRequest → Option ReadResponse × σ

/-- A session: the state of the remote side and the requests sent so far,
oldest first. -/
structure OvsP4rtSession (σ : Type) where
  dev : σ
  log : List Request

/-- The write requests of a log, in order. -/
def writes : List Request → List WriteRequest
  | [] => []
  | Request.write r :: rest => r :: writes rest
  | Request.read _ :: rest => writes rest

/-- The read requests of a log, in order. -/
def reads : List Request → List ReadRequest
  | [] => []
  | Request.write _ :: rest => reads rest
  | Request.read r :: rest => r :: reads rest

/-- The update type chosen by `SetupTableEntryToInsert` /
`SetupTableEntryToDelete`. -/
def SetupType (insert_entry : Bool) : UpdateType :=
  if insert_entry then UpdateType.INSERT else UpdateType.DELETE

/-- The call `ovs_p4rt::SendWriteRequest(session, write_request)`. -/
def SendWriteRequest {σ : Type} (tr : Transport σ) (session : OvsP4rtSession σ)
    (write_request : WriteRequest) : Status × OvsP4rtSession σ :=
  ((tr.SendWriteRequest session.dev write_request).1,
    ⟨(tr.SendWriteRequest session.dev write_request).2,
      session.log ++ [Request.write write_request]⟩)

/-- The call `ovs_p4rt::SendReadRequest(session, read_request)`. -/
def SendReadRequest {σ : Type} (tr : Transport σ) (session : OvsP4rtSession σ)
    (read_request : ReadRequest) : Option ReadResponse × OvsP4rtSession σ :=
  ((tr.SendReadRequest session.dev read_request).1,
    ⟨(tr.SendReadRequest session.dev read_request).2,
      session.log ++ [Request.read read_request]⟩)

/-- The call `ovs_p4rt::GetForwardingPipelineConfig(session, &p4info)`. -/
def GetForwardingPipelineConfig {σ : Type} (tr : Transport σ)
    (session : OvsP4rtSession σ) : Status × P4Info × OvsP4rtSession σ :=
  ((tr.GetForwardingPipelineConfig session.dev).1,
    (tr.GetForwardingPipelineConfig session.dev).2.1,
    ⟨(tr.GetForwardingPipelineConfig session.dev).2.2, session.log⟩)

/-- The call `OvsP4rtSession::Create`, from the state `d` of the remote
side. -/
def OvsP4rtSession.Create {σ : Type} (tr : Transport σ) (d : σ) :
    Status × OvsP4rtSession σ :=
  ((tr.Create d).1, ⟨(tr.Create d).2, []⟩)

/-! ## Single-entry operations -/

section
variable {σ : Type}

/-- The function `ConfigFdbSmacTableEntry` (ES2K). -/
def ConfigFdbSmacTableEntry (env : Env) (tr : Transport σ) (session : OvsP4rtSession σ)
    (learn_info : mac_learning_info) (p4info : P4Info) (insert_entry : Bool) :
    Status × OvsP4rtSession σ :=
  SendWriteRequest tr session ⟨SetupType insert_entry,
    PrepareFdbSmacTableEntry env TableEntry.fresh learn_info p4info insert_entry⟩

/-- The function `ConfigL2TunnelTableEntry` (ES2K). -/
def ConfigL2TunnelTableEntry (env : Env) (tr : Transport σ) (session : OvsP4rtSession σ)
    (learn_info : mac_learning_info) (p4info : P4Info) (insert_entry : Bool) :
    Status × OvsP4rtSession σ :=
  SendWriteRequest tr session ⟨SetupType insert_entry,
    if learn_info.tnl_info.local_ip.family = AF_INET6 ∧
        learn_info.tnl_info.remote_ip.family = AF_INET6 then
      PrepareL2ToTunnelV6 env TableEntry.fresh learn_info p4info insert_entry
    else
      PrepareL2ToTunnelV4 env TableEntry.fresh learn_info p4info insert_entry⟩

/-- The function `ConfigFdbTxVlanTableEntry`. -/
def ConfigFdbTxVlanTableEntry (env : Env) (t : Target) (tr : Transport σ)
    (session : OvsP4rtSession σ) (learn_info : mac_learning_info) (p4info : P4Info)
    (insert_entry : Bool) : Status × OvsP4rtSession σ :=
  SendWriteRequest tr session ⟨SetupType insert_entry,
    PrepareFdbTxVlanTableEntry env t TableEntry.fresh learn_info p4info insert_entry⟩

/-- The function `ConfigFdbRxVlanTableEntry`. -/
def ConfigFdbRxVlanTableEntry (env : Env) (t : Target) (tr : Transport σ)
    (session : OvsP4rtSession σ) (learn_info : mac_learning_info) (p4info : P4Info)
    (insert_entry : Bool) : Status × OvsP4rtSession σ :=
  SendWriteRequest tr session ⟨SetupType insert_entry,
    PrepareFdbRxVlanTableEntry env t TableEntry.fresh learn_info p4info insert_entry⟩

/-- The function `ConfigFdbTunnelTableEntry`. -/
def ConfigFdbTunnelTableEntry (env : Env) (t : Target) (tr : Transport σ)
    (session : OvsP4rtSession σ) (learn_info : mac_learning_info) (p4info : P4Info)
    (insert_entry : Bool) : Status × OvsP4rtSession σ :=
  SendWriteRequest tr session ⟨SetupType insert_entry,
    PrepareFdbTableEntryforV4Tunnel env t TableEntry.fresh learn_info p4info insert_entry⟩

/-- The table entry that `ConfigEncapTableEntry` hands to the transport. -/
def ConfigEncapTableEntry.entry (env : Env) (t : Target) (tunnel_info : tunnel_info)
    (p4info : P4Info) (insert_entry : Bool) : TableEntry :=
  match t with
  | Target.DPDK =>
    PrepareEncapTableEntry env Target.DPDK TableEntry.fresh tunnel_info p4info insert_entry
  | Target.ES2K =>
    if tunnel_info.local_ip.family = AF_INET ∧ tunnel_info.remote_ip.family = AF_INET then
      if tunnel_info.vlan_info.port_vlan_mode = env.P4_PORT_VLAN_NATIVE_UNTAGGED then
        PrepareEncapAndVlanPopTableEntry env TableEntry.fresh tunnel_info p4info insert_entry
      else
        PrepareEncapTableEntry env Target.ES2K TableEntry.fresh tunnel_info p4info
          insert_entry
    else if tunnel_info.local_ip.family = AF_INET6 ∧
        tunnel_info.remote_ip.family = AF_INET6 then
      if tunnel_info.vlan_info.port_vlan_mode = env.P4_PORT_VLAN_NATIVE_UNTAGGED then
        PrepareV6EncapAndVlanPopTableEntry env TableEntry.fresh tunnel_info p4info
          insert_entry
      else
        PrepareV6EncapTableEntry env TableEntry.fresh tunnel_info p4info insert_entry
    else TableEntry.fresh

/-- The function `ConfigEncapTableEntry`. -/
def ConfigEncapTableEntry (env : Env) (t : Target) (tr : Transport σ)
    (session : OvsP4rtSession σ) (tunnel_info : tunnel_info) (p4info : P4Info)
    (insert_entry : Bool) : Status × OvsP4rtSession σ :=
  SendWriteRequest tr session ⟨SetupType insert_entry,
    ConfigEncapTableEntry.entry env t tunnel_info p4info insert_entry⟩

/-- The table entry that `ConfigDecapTableEntry` hands to the transport. -/
def ConfigDecapTableEntry.entry (env : Env) (tunnel_info : tunnel_info)
    (p4info : P4Info) (insert_entry : Bool) : TableEntry :=
  if tunnel_info.vlan_info.port_vlan_mode = env.P4_PORT_VLAN_NATIVE_TAGGED then
    PrepareDecapModTableEntry env TableEntry.fresh tunnel_info p4info insert_entry
  else
    PrepareDecapModAndVlanPushTableEntry env TableEntry.fresh tunnel_info p4info insert_entry

/-- The function `ConfigDecapTableEntry` (ES2K). -/
def ConfigDecapTableEntry (env : Env) (tr : Transport σ) (session : OvsP4rtSession σ)
    (tunnel_info : tunnel_info) (p4info : P4Info) (insert_entry : Bool) :
    Status × OvsP4rtSession σ :=
  SendWriteRequest tr session ⟨SetupType insert_entry,
    ConfigDecapTableEntry.entry env tunnel_info p4info insert_entry⟩

/-- The function `ConfigVlanPushTableEntry` (ES2K). -/
def ConfigVlanPushTableEntry (env : Env) (tr : Transport σ) (session : OvsP4rtSession σ)
    (vlan_id : Nat) (p4info : P4Info) (insert_entry : Bool) : Status × OvsP4rtSession σ :=
  SendWriteRequest tr session ⟨SetupType insert_entry,
    PrepareVlanPushTableEntry env TableEntry.fresh vlan_id p4info insert_entry⟩

/-- The function `GetVlanPushTableEntry` (ES2K). -/
def GetVlanPushTableEntry (env : Env) (tr : Transport σ) (session : OvsP4rtSession σ)
    (vlan_id : Nat) (p4info : P4Info) : Option ReadResponse × OvsP4rtSession σ :=
  SendReadRequest tr session
    ⟨PrepareVlanPushTableEntry env TableEntry.fresh vlan_id p4info false⟩

/-- The function `ConfigVlanPopTableEntry` (ES2K). -/
def ConfigVlanPopTableEntry (env : Env) (tr : Transport σ) (session : OvsP4rtSession σ)
    (vlan_id : Nat) (p4info : P4Info) (insert_entry : Bool) : Status × OvsP4rtSession σ :=
  SendWriteRequest tr session ⟨SetupType insert_entry,
    PrepareVlanPopTableEntry env TableEntry.fresh vlan_id p4info insert_entry⟩

/-- The function `GetL2ToTunnelV4TableEntry` (ES2K). -/
def GetL2ToTunnelV4TableEntry (env : Env) (tr : Transport σ) (session : OvsP4rtSession σ)
    (learn_info : mac_learning_info) (p4info : P4Info) :
    Option ReadResponse × OvsP4rtSession σ :=
  SendReadRequest tr session
    ⟨PrepareL2ToTunnelV4 env TableEntry.fresh learn_info p4info false⟩

/-- The function `GetL2ToTunnelV6TableEntry` (ES2K). -/
def GetL2ToTunnelV6TableEntry (env : Env) (tr : Transport σ) (session : OvsP4rtSession σ)
    (learn_info : mac_learning_info) (p4info : P4Info) :
    Option ReadResponse × OvsP4rtSession σ :=
  SendReadRequest tr session
    ⟨PrepareL2ToTunnelV6 env TableEntry.fresh learn_info p4info false⟩

/-- The function `GetFdbTunnelTableEntry` (ES2K). -/
def GetFdbTunnelTableEntry (env : Env) (tr : Transport σ) (session : OvsP4rtSession σ)
    (learn_info : mac_learning_info) (p4info : P4Info) :
    Option ReadResponse × OvsP4rtSession σ :=
  SendReadRequest tr session
    ⟨PrepareFdbTableEntryforV4Tunnel env Target.ES2K TableEntry.fresh learn_info p4info
      false⟩

/-- The function `GetFdbVlanTableEntry` (ES2K). -/
def GetFdbVlanTableEntry (env : Env) (tr : Transport σ) (session : OvsP4rtSession σ)
    (learn_info : mac_learning_info) (p4info : P4Info) :
    Option ReadResponse × OvsP4rtSession σ :=
  SendReadRequest tr session
    ⟨PrepareFdbTxVlanTableEntry env Target.ES2K TableEntry.fresh learn_info p4info false⟩

/-- The function `GetTxAccVsiTableEntry` (ES2K). -/
def GetTxAccVsiTableEntry (env : Env) (tr : Transport σ) (session : OvsP4rtSession σ)
    (sp : Nat) (p4info : P4Info) : Option ReadResponse × OvsP4rtSession σ :=
  SendReadRequest tr session ⟨PrepareTxAccVsiTableEntry env TableEntry.fresh sp p4info⟩

/-- The function `ConfigureVsiSrcPortTableEntry` (ES2K). -/
def ConfigureVsiSrcPortTableEntry (env : Env) (tr : Transport σ)
    (session : OvsP4rtSession σ) (sp : src_port_info) (p4info : P4Info)
    (insert_entry : Bool) : Status × OvsP4rtSession σ :=
  SendWriteRequest tr session ⟨SetupType insert_entry,
    PrepareSrcPortTableEntry env TableEntry.fresh sp p4info insert_entry⟩

/-- The table entry that `ConfigRxTunnelSrcPortTableEntry` hands to the
transport. -/
def ConfigRxTunnelSrcPortTableEntry.entry (env : Env) (tunnel_info : tunnel_info)
    (p4info : P4Info) (insert_entry : Bool) : TableEntry :=
  if tunnel_info.local_ip.family = AF_INET ∧ tunnel_info.remote_ip.family = AF_INET then
    PrepareRxTunnelTableEntry env TableEntry.fresh tunnel_info p4info insert_entry
  else if tunnel_info.local_ip.family = AF_INET6 ∧
      tunnel_info.remote_ip.family = AF_INET6 then
    PrepareV6RxTunnelTableEntry env TableEntry.fresh tunnel_info p4info insert_entry
  else TableEntry.fresh

/-- The function `ConfigRxTunnelSrcPortTableEntry` (ES2K). -/
def ConfigRxTunnelSrcPortTableEntry (env : Env) (tr : Transport σ)
    (session : OvsP4rtSession σ) (tunnel_info : tunnel_info) (p4info : P4Info)
    (insert_entry : Bool) : Status × OvsP4rtSession σ :=
  SendWriteRequest tr session ⟨SetupType insert_entry,
    ConfigRxTunnelSrcPortTableEntry.entry env tunnel_info p4info insert_entry⟩

/-- The table entry that `ConfigTunnelTermTableEntry` hands to the
transport. -/
def ConfigTunnelTermTableEntry.entry (env : Env) (t : Target) (tunnel_info : tunnel_info)
    (p4info : P4Info) (insert_entry : Bool) : TableEntry :=
  match t with
  | Target.DPDK =>
    PrepareTunnelTermTableEntry env Target.DPDK TableEntry.fresh tunnel_info p4info
      insert_entry
  | Target.ES2K =>
    if tunnel_info.local_ip.family = AF_INET ∧ tunnel_info.remote_ip.family = AF_INET then
      PrepareTunnelTermTableEntry env Target.ES2K TableEntry.fresh tunnel_info p4info
        insert_entry
    else if tunnel_info.local_ip.family = AF_INET6 ∧
        tunnel_info.remote_ip.family = AF_INET6 then
      PrepareV6TunnelTermTableEntry env TableEntry.fresh tunnel_info p4info insert_entry
    else TableEntry.fresh

/-- The function `ConfigTunnelTermTableEntry`. -/
def ConfigTunnelTermTableEntry (env : Env) (t : Target) (tr : Transport σ)
    (session : OvsP4rtSession σ) (tunnel_info : tunnel_info) (p4info : P4Info)
    (insert_entry : Bool) : Status × OvsP4rtSession σ :=
  SendWriteRequest tr session ⟨SetupType insert_entry,
    ConfigTunnelTermTableEntry.entry env t tunnel_info p4info insert_entry⟩

end

/-! ## Recovery of the port from a read response -/

/-- Conversion `int(c)` of a `char` holding the byte `b`. -/
def char_to_int (env : Env) (b : Nat) : Int :=
  if env.char_is_signed ∧ 128 ≤ b % 256 then ((b % 256 : Nat) : Int) - 256
  else ((b % 256 : Nat) : Int)

/-- The expression `s[pos]` on a `std::string`: the byte at `pos`, the
terminating zero at `pos = size`, and `none` (undefined behaviour) past
it. -/
def string_at (s : Bytes) (pos : Nat) : Option Nat :=
  if pos < s.length then s[pos]?
  else if pos = s.length then some 0
  else none

/-- One round `host_sp = host_sp << 8 | int(s2[param_bytes])` in `uint32_t`. -/
def host_sp_step (env : Env) (s2 : Bytes) (host_sp : Nat) (param_bytes : Nat) :
    Option Nat :=
  match string_at s2 param_bytes with
  | none => none
  | some c => some (((host_sp <<< 8) % 4294967296) ||| toU32 (char_to_int env c))

/-- The loop `for (param_bytes = 0; param_bytes < 4; param_bytes++)`. -/
def host_sp_bytes (env : Env) (s2 : Bytes) (host_sp : Nat) : Option Nat :=
  (host_sp_step env s2 host_sp 0).bind fun h0 =>
  (host_sp_step env s2 h0 1).bind fun h1 =>
  (host_sp_step env s2 h1 2).bind fun h2 =>
  host_sp_step env s2 h2 3

/-- The loop over `action->params()`, left at the first parameter whose id
equals `param_id` (compared in `uint32_t`). -/
def host_sp_params (env : Env) (param_id : Int) (host_sp : Nat) : List Param → Option Nat
  | [] => some host_sp
  | param :: rest =>
    if toU32 param_id = param.param_id then host_sp_bytes env param.value host_sp
    else host_sp_params env param_id host_sp rest

/-- The loop over `read_response.entities()`. -/
def host_sp_entities (env : Env) (param_id : Int) : Nat → List TableEntry → Option Nat
  | host_sp, [] => some host_sp
  | host_sp, table_entry_1 :: rest =>
    match host_sp_params env param_id host_sp (the_action table_entry_1).params with
    | none => none
    | some h => host_sp_entities env param_id h rest

/-- The value of `host_sp` after the recovery loop of `ConfigFdbTableEntry`
and `ConfigSrcPortTableEntry`. -/
def host_sp_of (env : Env) (p4info : P4Info) (read_response : ReadResponse) : Option Nat :=
  host_sp_entities env
    (GetParamId p4info (env.nm .TX_ACC_VSI_TABLE_ACTION_L2_FWD_AND_BYPASS_BRIDGE)
      (env.nm .ACTION_L2_FWD_AND_BYPASS_BRIDGE_PARAM_PORT))
    0 read_response.entities

/-! ## Functions with C interfaces

Each takes the state `d` of the remote side at the time of the call and
returns the session as it is when the function returns: the next state and
the log of requests sent. Where the function can run into undefined
behaviour the result is an `Option`, `none` standing for that. -/

section
variable {σ : Type}

/-- The reads of `ConfigFdbTableEntry` (ES2K) under `if (!insert_entry)`, with
their effect on `learn_info.is_tunnel`. -/
def ConfigFdbTableEntry.classify (env : Env) (tr : Transport σ)
    (session : OvsP4rtSession σ) (learn_info : mac_learning_info) (p4info : P4Info)
    (insert_entry : Bool) : mac_learning_info × OvsP4rtSession σ :=
  if insert_entry then (learn_info, session)
  else
    let r4 := GetL2ToTunnelV4TableEntry env tr session learn_info p4info
    let learn_info := if r4.1.isSome then { learn_info with is_tunnel := true } else learn_info
    let r6 := GetL2ToTunnelV6TableEntry env tr r4.2 learn_info p4info
    let learn_info := if r6.1.isSome then { learn_info with is_tunnel := true } else learn_info
    (learn_info, r6.2)

/-- The three writes of the tunnel branch of `ConfigFdbTableEntry` (ES2K). -/
def ConfigFdbTableEntry.tunnel_writes (env : Env) (tr : Transport σ)
    (session : OvsP4rtSession σ) (learn_info : mac_learning_info) (p4info : P4Info)
    (insert_entry : Bool) : OvsP4rtSession σ :=
  let w1 := ConfigFdbTunnelTableEntry env Target.ES2K tr session learn_info p4info insert_entry
  let w2 := ConfigL2TunnelTableEntry env tr w1.2 learn_info p4info insert_entry
  let w3 := ConfigFdbSmacTableEntry env tr w2.2 learn_info p4info insert_entry
  w3.2

/-- The three writes of the other branch of `ConfigFdbTableEntry` (ES2K). -/
def ConfigFdbTableEntry.vlan_writes (env : Env) (tr : Transport σ)
    (session : OvsP4rtSession σ) (learn_info : mac_learning_info) (p4info : P4Info)
    (insert_entry : Bool) : OvsP4rtSession σ :=
  let w1 := ConfigFdbTxVlanTableEntry env Target.ES2K tr session learn_info p4info insert_entry
  let w2 := ConfigFdbRxVlanTableEntry env Target.ES2K tr w1.2 learn_info p4info insert_entry
  let w3 := ConfigFdbSmacTableEntry env tr w2.2 learn_info p4info insert_entry
  w3.2

/-- The statement `if (learn_info.is_tunnel) ... else ...` of
`ConfigFdbTableEntry` (ES2K). -/
def ConfigFdbTableEntry.program (env : Env) (tr : Transport σ)
    (session : OvsP4rtSession σ) (learn_info : mac_learning_info) (p4info : P4Info)
    (insert_entry : Bool) : Option (OvsP4rtSession σ) :=
  if learn_info.is_tunnel then
    if insert_entry then
      let r := GetFdbTunnelTableEntry env tr session learn_info p4info
      if r.1.isSome then some r.2
      else some (ConfigFdbTableEntry.tunnel_writes env tr r.2 learn_info p4info insert_entry)
    else some (ConfigFdbTableEntry.tunnel_writes env tr session learn_info p4info insert_entry)
  else
    if insert_entry then
      let r := GetFdbVlanTableEntry env tr session learn_info p4info
      if r.1.isSome then some r.2
      else
        let m := GetTxAccVsiTableEntry env tr r.2 learn_info.src_port p4info
        match m.1 with
        | none => some m.2
        | some read_response =>
          match host_sp_of env p4info read_response with
          | none => none
          | some host_sp =>
            some (ConfigFdbTableEntry.vlan_writes env tr m.2
              { learn_info with src_port := host_sp } p4info insert_entry)
    else some (ConfigFdbTableEntry.vlan_writes env tr session learn_info p4info insert_entry)

/-- The function `ConfigFdbTableEntry`, ES2K definition. -/
def ConfigFdbTableEntry.es2k (env : Env) (tr : Transport σ) (d : σ)
    (learn_info : mac_learning_info) (insert_entry : Bool) : Option (OvsP4rtSession σ) :=
  let c := OvsP4rtSession.Create tr d
  if ¬ c.1.ok then some c.2
  else
    let g := GetForwardingPipelineConfig tr c.2
    if ¬ g.1.ok then some g.2.2
    else
      let k := ConfigFdbTableEntry.classify env tr g.2.2 learn_info g.2.1 insert_entry
      ConfigFdbTableEntry.program env tr k.2 k.1 g.2.1 insert_entry

/-- The function `ConfigFdbTableEntry`, DPDK definition. -/
def ConfigFdbTableEntry.dpdk (env : Env) (tr : Transport σ) (d : σ)
    (learn_info : mac_learning_info) (insert_entry : Bool) : OvsP4rtSession σ :=
  let c := OvsP4rtSession.Create tr d
  if ¬ c.1.ok then c.2
  else
    let g := GetForwardingPipelineConfig tr c.2
    if ¬ g.1.ok then g.2.2
    else if learn_info.is_tunnel then
      (ConfigFdbTunnelTableEntry env Target.DPDK tr g.2.2 learn_info g.2.1 insert_entry).2
    else if learn_info.is_vlan then
      let w1 := ConfigFdbTxVlanTableEntry env Target.DPDK tr g.2.2 learn_info g.2.1
        insert_entry
      if ¬ w1.1.ok then w1.2
      else (ConfigFdbRxVlanTableEntry env Target.DPDK tr w1.2 learn_info g.2.1 insert_entry).2
    else g.2.2

/-- The function `ConfigFdbTableEntry`. -/
def ConfigFdbTableEntry (env : Env) (t : Target) (tr : Transport σ) (d : σ)
    (learn_info : mac_learning_info) (insert_entry : Bool) : Option (OvsP4rtSession σ) :=
  match t with
  | Target.ES2K => ConfigFdbTableEntry.es2k env tr d learn_info insert_entry
  | Target.DPDK => some (ConfigFdbTableEntry.dpdk env tr d learn_info insert_entry)

/-- The function `ConfigIpTunnelTermTableEntry`. -/
def ConfigIpTunnelTermTableEntry (env : Env) (t : Target) (tr : Transport σ) (d : σ)
    (tunnel_info : tunnel_info) (insert_entry : Bool) : OvsP4rtSession σ :=
  match t with
  | Target.DPDK => ⟨d, []⟩
  | Target.ES2K =>
    let c := OvsP4rtSession.Create tr d
    if ¬ c.1.ok then c.2
    else
      let g := GetForwardingPipelineConfig tr c.2
      if ¬ g.1.ok then g.2.2
      else
        (ConfigTunnelTermTableEntry env Target.ES2K tr g.2.2 tunnel_info g.2.1
          insert_entry).2

/-- The function `ConfigRxTunnelSrcTableEntry`. -/
def ConfigRxTunnelSrcTableEntry (env : Env) (t : Target) (tr : Transport σ) (d : σ)
    (tunnel_info : tunnel_info) (insert_entry : Bool) : OvsP4rtSession σ :=
  match t with
  | Target.DPDK => ⟨d, []⟩
  | Target.ES2K =>
    let c := OvsP4rtSession.Create tr d
    if ¬ c.1.ok then c.2
    else
      let g := GetForwardingPipelineConfig tr c.2
      if ¬ g.1.ok then g.2.2
      else (ConfigRxTunnelSrcPortTableEntry env tr g.2.2 tunnel_info g.2.1 insert_entry).2

/-- The function `ConfigTunnelSrcPortTableEntry`. -/
def ConfigTunnelSrcPortTableEntry (env : Env) (t : Target) (tr : Transport σ) (d : σ)
    (tnl_sp : src_port_info) (insert_entry : Bool) : OvsP4rtSession σ :=
  match t with
  | Target.DPDK => ⟨d, []⟩
  | Target.ES2K =>
    let c := OvsP4rtSession.Create tr d
    if ¬ c.1.ok then c.2
    else
      let g := GetForwardingPipelineConfig tr c.2
      if ¬ g.1.ok then g.2.2
      else
        (SendWriteRequest tr g.2.2 ⟨SetupType insert_entry,
          PrepareSrcPortTableEntry env TableEntry.fresh tnl_sp g.2.1 insert_entry⟩).2

/-- The function `ConfigSrcPortTableEntry`. -/
def ConfigSrcPortTableEntry (env : Env) (t : Target) (tr : Transport σ) (d : σ)
    (vsi_sp : src_port_info) (insert_entry : Bool) : Option (OvsP4rtSession σ) :=
  match t with
  | Target.DPDK => some ⟨d, []⟩
  | Target.ES2K =>
    let c := OvsP4rtSession.Create tr d
    if ¬ c.1.ok then some c.2
    else
      let g := GetForwardingPipelineConfig tr c.2
      if ¬ g.1.ok then some g.2.2
      else
        let m := GetTxAccVsiTableEntry env tr g.2.2 vsi_sp.src_port g.2.1
        match m.1 with
        | none => some m.2
        | some read_response =>
          match host_sp_of env g.2.1 read_response with
          | none => none
          | some host_sp =>
            some (ConfigureVsiSrcPortTableEntry env tr m.2
              { vsi_sp with src_port := host_sp } g.2.1 insert_entry).2

/-- The function `ConfigVlanTableEntry`. -/
def ConfigVlanTableEntry (env : Env) (t : Target) (tr : Transport σ) (d : σ)
    (vlan_id : Nat) (insert_entry : Bool) : OvsP4rtSession σ :=
  match t with
  | Target.DPDK => ⟨d, []⟩
  | Target.ES2K =>
    let c := OvsP4rtSession.Create tr d
    if ¬ c.1.ok then c.2
    else
      let g := GetForwardingPipelineConfig tr c.2
      if ¬ g.1.ok then g.2.2
      else
        let w1 := ConfigVlanPushTableEntry env tr g.2.2 vlan_id g.2.1 insert_entry
        if ¬ w1.1.ok then w1.2
        else (ConfigVlanPopTableEntry env tr w1.2 vlan_id g.2.1 insert_entry).2

/-- The part of `ConfigTunnelTableEntry` that follows the schema fetch. -/
def ConfigTunnelTableEntry.program (env : Env) (t : Target) (tr : Transport σ)
    (session : OvsP4rtSession σ) (tunnel_info : tunnel_info) (p4info : P4Info)
    (insert_entry : Bool) : OvsP4rtSession σ :=
  let w1 := ConfigEncapTableEntry env t tr session tunnel_info p4info insert_entry
  if ¬ w1.1.ok then w1.2
  else
    match t with
    | Target.ES2K =>
      let w2 := ConfigDecapTableEntry env tr w1.2 tunnel_info p4info insert_entry
      if ¬ w2.1.ok then w2.2
      else
        (ConfigTunnelTermTableEntry env Target.ES2K tr w2.2 tunnel_info p4info
          insert_entry).2
    | Target.DPDK =>
      (ConfigTunnelTermTableEntry env Target.DPDK tr w1.2 tunnel_info p4info
        insert_entry).2

/-- The function `ConfigTunnelTableEntry`. -/
def ConfigTunnelTableEntry (env : Env) (t : Target) (tr : Transport σ) (d : σ)
    (tunnel_info : tunnel_info) (insert_entry : Bool) : OvsP4rtSession σ :=
  let c := OvsP4rtSession.Create tr d
  if ¬ c.1.ok then c.2
  else
    let g := GetForwardingPipelineConfig tr c.2
    if ¬ g.1.ok then g.2.2
    else ConfigTunnelTableEntry.program env t tr g.2.2 tunnel_info g.2.1 insert_entry

end

/-! ## Auxiliary definitions for the statements -/

section
variable {σ : Type}

/-- The session of an entry point once `GetForwardingPipelineConfig` has
returned. -/
def connected (tr : Transport σ) (d : σ) : OvsP4rtSession σ :=
  (GetForwardingPipelineConfig tr (OvsP4rtSession.Create tr d).2).2.2

/-- The schema an entry point works with. -/
def schema (tr : Transport σ) (d : σ) : P4Info :=
  (GetForwardingPipelineConfig tr (OvsP4rtSession.Create tr d).2).2.1

/-- Session creation and the schema fetch both succeed from state `d`. -/
def connects (tr : Transport σ) (d : σ) : Prop :=
  (OvsP4rtSession.Create tr d).1.ok = true ∧
    (GetForwardingPipelineConfig tr (OvsP4rtSession.Create tr d).2).1.ok = true

end

/-- The unsigned big-endian reading of a byte string, the inverse that the
round-trip properties of the value codec refer to. -/
def be_decode (s : Bytes) : Nat := s.foldl (fun acc b => acc * 256 + b) 0

/-- The four-byte big-endian encoding of a 32-bit value, written with the
codec. -/
def be32 (v : Nat) : Bytes :=
  EncodeByteValue 4 [(((v >>> 24) &&& 0xff : Nat) : Int), (((v >>> 16) &&& 0xff : Nat) : Int),
    (((v >>> 8) &&& 0xff : Nat) : Int), ((v &&& 0xff : Nat) : Int)]

/-- The values of the exact match fields of an entry, in order. -/
def exact_values (e : TableEntry) : List Bytes :=
  e.match_.filterMap fun m =>
    match m.field_match_type with
    | FieldMatchType.exact v => some v
    | _ => none

/-- The values of the action parameters of an entry, in order. -/
def param_values (e : TableEntry) : List Bytes :=
  (the_action e).params.map fun p => p.value

/-! ## Sample values

A sample environment, schema and transport, used where a statement is
evaluated on concrete input. -/

/-- Sample strings for the macros of `p4_name_mapping.h`: the macro in lower
case, the two `l2_fwd` action macros sharing one string. -/
def sample_nm : Name → String
  | .ACTION_DECAP_OUTER_HDR => "action_decap_outer_hdr"
  | .ACTION_DECAP_OUTER_HDR_AND_PUSH_VLAN => "action_decap_outer_hdr_and_push_vlan"
  | .ACTION_DECAP_OUTER_HDR_AND_PUSH_VLAN_PARAM_TUNNEL_ID => "action_decap_outer_hdr_and_push_vlan_param_tunnel_id"
  | .ACTION_DECAP_OUTER_HDR_PARAM_TUNNEL_ID => "action_decap_outer_hdr_param_tunnel_id"
  | .ACTION_DECAP_OUTER_IPV4 => "action_decap_outer_ipv4"
  | .ACTION_DECAP_OUTER_IPV4_PARAM_TUNNEL_ID => "action_decap_outer_ipv4_param_tunnel_id"
  | .ACTION_L2_FWD_AND_BYPASS_BRIDGE_PARAM_PORT => "action_l2_fwd_and_bypass_bridge_param_port"
  | .ACTION_L2_FWD_PARAM_PORT => "action_l2_fwd_param_port"
  | .ACTION_POP_VLAN_SET_TUNNEL_UNDERLAY_V4_PARAM_TUNNEL_ID => "action_pop_vlan_set_tunnel_underlay_v4_param_tunnel_id"
  | .ACTION_POP_VLAN_SET_TUNNEL_UNDERLAY_V6_PARAM_TUNNEL_ID => "action_pop_vlan_set_tunnel_underlay_v6_param_tunnel_id"
  | .ACTION_REMOVE_VLAN_AND_FWD_PARAM_PORT_ID => "action_remove_vlan_and_fwd_param_port_id"
  | .ACTION_REMOVE_VLAN_AND_FWD_PARAM_VLAN_PTR => "action_remove_vlan_and_fwd_param_vlan_ptr"
  | .ACTION_SET_BRIDGE_ID_PARAM_BRIDGE_ID => "action_set_bridge_id_param_bridge_id"
  | .ACTION_SET_SRC_PORT => "action_set_src_port"
  | .ACTION_SET_TUNNEL_PARAM_DST_ADDR => "action_set_tunnel_param_dst_addr"
  | .ACTION_SET_TUNNEL_PARAM_TUNNEL_ID => "action_set_tunnel_param_tunnel_id"
  | .ACTION_SET_TUNNEL_UNDERLAY_V4_PARAM_TUNNEL_ID => "action_set_tunnel_underlay_v4_param_tunnel_id"
  | .ACTION_SET_TUNNEL_UNDERLAY_V6_PARAM_TUNNEL_ID => "action_set_tunnel_underlay_v6_param_tunnel_id"
  | .ACTION_SET_TUNNEL_V4_PARAM_DST_ADDR => "action_set_tunnel_v4_param_dst_addr"
  | .ACTION_SET_TUNNEL_V6_PARAM_IPV6_1 => "action_set_tunnel_v6_param_ipv6_1"
  | .ACTION_SET_TUNNEL_V6_PARAM_IPV6_2 => "action_set_tunnel_v6_param_ipv6_2"
  | .ACTION_SET_TUNNEL_V6_PARAM_IPV6_3 => "action_set_tunnel_v6_param_ipv6_3"
  | .ACTION_SET_TUNNEL_V6_PARAM_IPV6_4 => "action_set_tunnel_v6_param_ipv6_4"
  | .ACTION_VLAN_PUSH_PARAM_DEI => "action_vlan_push_param_dei"
  | .ACTION_VLAN_PUSH_PARAM_PCP => "action_vlan_push_param_pcp"
  | .ACTION_VLAN_PUSH_PARAM_VLAN_ID => "action_vlan_push_param_vlan_id"
  | .ACTION_VXLAN_DECAP_AND_PUSH_VLAN => "action_vxlan_decap_and_push_vlan"
  | .ACTION_VXLAN_DECAP_AND_PUSH_VLAN_PARAM_DEI => "action_vxlan_decap_and_push_vlan_param_dei"
  | .ACTION_VXLAN_DECAP_AND_PUSH_VLAN_PARAM_PCP => "action_vxlan_decap_and_push_vlan_param_pcp"
  | .ACTION_VXLAN_DECAP_AND_PUSH_VLAN_PARAM_VLAN_ID => "action_vxlan_decap_and_push_vlan_param_vlan_id"
  | .ACTION_VXLAN_DECAP_OUTER_HDR => "action_vxlan_decap_outer_hdr"
  | .ACTION_VXLAN_ENCAP => "action_vxlan_encap"
  | .ACTION_VXLAN_ENCAP_PARAM_DST_ADDR => "action_vxlan_encap_param_dst_addr"
  | .ACTION_VXLAN_ENCAP_PARAM_DST_PORT => "action_vxlan_encap_param_dst_port"
  | .ACTION_VXLAN_ENCAP_PARAM_SRC_ADDR => "action_vxlan_encap_param_src_addr"
  | .ACTION_VXLAN_ENCAP_PARAM_SRC_PORT => "action_vxlan_encap_param_src_port"
  | .ACTION_VXLAN_ENCAP_PARAM_VNI => "action_vxlan_encap_param_vni"
  | .ACTION_VXLAN_ENCAP_V6 => "action_vxlan_encap_v6"
  | .ACTION_VXLAN_ENCAP_V6_PARAM_DST_ADDR => "action_vxlan_encap_v6_param_dst_addr"
  | .ACTION_VXLAN_ENCAP_V6_PARAM_DST_PORT => "action_vxlan_encap_v6_param_dst_port"
  | .ACTION_VXLAN_ENCAP_V6_PARAM_SRC_ADDR => "action_vxlan_encap_v6_param_src_addr"
  | .ACTION_VXLAN_ENCAP_V6_PARAM_SRC_PORT => "action_vxlan_encap_v6_param_src_port"
  | .ACTION_VXLAN_ENCAP_V6_PARAM_VNI => "action_vxlan_encap_v6_param_vni"
  | .ACTION_VXLAN_ENCAP_V6_VLAN_POP => "action_vxlan_encap_v6_vlan_pop"
  | .ACTION_VXLAN_ENCAP_V6_VLAN_POP_PARAM_DST_ADDR => "action_vxlan_encap_v6_vlan_pop_param_dst_addr"
  | .ACTION_VXLAN_ENCAP_V6_VLAN_POP_PARAM_DST_PORT => "action_vxlan_encap_v6_vlan_pop_param_dst_port"
  | .ACTION_VXLAN_ENCAP_V6_VLAN_POP_PARAM_SRC_ADDR => "action_vxlan_encap_v6_vlan_pop_param_src_addr"
  | .ACTION_VXLAN_ENCAP_V6_VLAN_POP_PARAM_SRC_PORT => "action_vxlan_encap_v6_vlan_pop_param_src_port"
  | .ACTION_VXLAN_ENCAP_V6_VLAN_POP_PARAM_VNI => "action_vxlan_encap_v6_vlan_pop_param_vni"
  | .ACTION_VXLAN_ENCAP_VLAN_POP => "action_vxlan_encap_vlan_pop"
  | .ACTION_VXLAN_ENCAP_VLAN_POP_PARAM_DST_ADDR => "action_vxlan_encap_vlan_pop_param_dst_addr"
  | .ACTION_VXLAN_ENCAP_VLAN_POP_PARAM_DST_PORT => "action_vxlan_encap_vlan_pop_param_dst_port"
  | .ACTION_VXLAN_ENCAP_VLAN_POP_PARAM_SRC_ADDR => "action_vxlan_encap_vlan_pop_param_src_addr"
  | .ACTION_VXLAN_ENCAP_VLAN_POP_PARAM_SRC_PORT => "action_vxlan_encap_vlan_pop_param_src_port"
  | .ACTION_VXLAN_ENCAP_VLAN_POP_PARAM_VNI => "action_vxlan_encap_vlan_pop_param_vni"
  | .IPV4_TUNNEL_TERM_TABLE => "ipv4_tunnel_term_table"
  | .IPV4_TUNNEL_TERM_TABLE_KEY_BRIDGE_ID => "ipv4_tunnel_term_table_key_bridge_id"
  | .IPV4_TUNNEL_TERM_TABLE_KEY_IPV4_DST => "ipv4_tunnel_term_table_key_ipv4_dst"
  | .IPV4_TUNNEL_TERM_TABLE_KEY_IPV4_SRC => "ipv4_tunnel_term_table_key_ipv4_src"
  | .IPV4_TUNNEL_TERM_TABLE_KEY_TUNNEL_TYPE => "ipv4_tunnel_term_table_key_tunnel_type"
  | .IPV4_TUNNEL_TERM_TABLE_KEY_VNI => "ipv4_tunnel_term_table_key_vni"
  | .IPV6_TUNNEL_TERM_TABLE => "ipv6_tunnel_term_table"
  | .IPV6_TUNNEL_TERM_TABLE_KEY_BRIDGE_ID => "ipv6_tunnel_term_table_key_bridge_id"
  | .IPV6_TUNNEL_TERM_TABLE_KEY_IPV6_SRC => "ipv6_tunnel_term_table_key_ipv6_src"
  | .IPV6_TUNNEL_TERM_TABLE_KEY_VNI => "ipv6_tunnel_term_table_key_vni"
  | .L2_FWD_RX_TABLE => "l2_fwd_rx_table"
  | .L2_FWD_RX_TABLE_ACTION_L2_FWD => "l2_fwd"
  | .L2_FWD_RX_TABLE_KEY_BRIDGE_ID => "l2_fwd_rx_table_key_bridge_id"
  | .L2_FWD_RX_TABLE_KEY_DST_MAC => "l2_fwd_rx_table_key_dst_mac"
  | .L2_FWD_RX_TABLE_KEY_SMAC_LEARNED => "l2_fwd_rx_table_key_smac_learned"
  | .L2_FWD_RX_WITH_TUNNEL_TABLE => "l2_fwd_rx_with_tunnel_table"
  | .L2_FWD_SMAC_TABLE => "l2_fwd_smac_table"
  | .L2_FWD_SMAC_TABLE_ACTION_SMAC_LEARN => "l2_fwd_smac_table_action_smac_learn"
  | .L2_FWD_SMAC_TABLE_KEY_SA => "l2_fwd_smac_table_key_sa"
  | .L2_FWD_TX_TABLE => "l2_fwd_tx_table"
  | .L2_FWD_TX_TABLE_ACTION_L2_FWD => "l2_fwd"
  | .L2_FWD_TX_TABLE_ACTION_POP_VLAN_SET_TUNNEL_UNDERLAY_V4 => "l2_fwd_tx_table_action_pop_vlan_set_tunnel_underlay_v4"
  | .L2_FWD_TX_TABLE_ACTION_POP_VLAN_SET_TUNNEL_UNDERLAY_V6 => "l2_fwd_tx_table_action_pop_vlan_set_tunnel_underlay_v6"
  | .L2_FWD_TX_TABLE_ACTION_REMOVE_VLAN_AND_FWD => "l2_fwd_tx_table_action_remove_vlan_and_fwd"
  | .L2_FWD_TX_TABLE_ACTION_SET_TUNNEL => "l2_fwd_tx_table_action_set_tunnel"
  | .L2_FWD_TX_TABLE_ACTION_SET_TUNNEL_UNDERLAY_V4 => "l2_fwd_tx_table_action_set_tunnel_underlay_v4"
  | .L2_FWD_TX_TABLE_ACTION_SET_TUNNEL_UNDERLAY_V6 => "l2_fwd_tx_table_action_set_tunnel_underlay_v6"
  | .L2_FWD_TX_TABLE_KEY_BRIDGE_ID => "l2_fwd_tx_table_key_bridge_id"
  | .L2_FWD_TX_TABLE_KEY_DST_MAC => "l2_fwd_tx_table_key_dst_mac"
  | .L2_FWD_TX_TABLE_KEY_SMAC_LEARNED => "l2_fwd_tx_table_key_smac_learned"
  | .L2_TO_TUNNEL_V4_ACTION_SET_TUNNEL_V4 => "l2_to_tunnel_v4_action_set_tunnel_v4"
  | .L2_TO_TUNNEL_V4_KEY_DA => "l2_to_tunnel_v4_key_da"
  | .L2_TO_TUNNEL_V4_TABLE => "l2_to_tunnel_v4_table"
  | .L2_TO_TUNNEL_V6_ACTION_SET_TUNNEL_V6 => "l2_to_tunnel_v6_action_set_tunnel_v6"
  | .L2_TO_TUNNEL_V6_KEY_DA => "l2_to_tunnel_v6_key_da"
  | .L2_TO_TUNNEL_V6_TABLE => "l2_to_tunnel_v6_table"
  | .RX_IPV4_TUNNEL_SOURCE_PORT_TABLE => "rx_ipv4_tunnel_source_port_table"
  | .RX_IPV4_TUNNEL_SOURCE_PORT_TABLE_ACTION_SET_SRC_PORT => "rx_ipv4_tunnel_source_port_table_action_set_src_port"
  | .RX_IPV4_TUNNEL_SOURCE_PORT_TABLE_KEY_IPV4_SRC => "rx_ipv4_tunnel_source_port_table_key_ipv4_src"
  | .RX_IPV4_TUNNEL_SOURCE_PORT_TABLE_KEY_VNI => "rx_ipv4_tunnel_source_port_table_key_vni"
  | .RX_IPV6_TUNNEL_SOURCE_PORT_TABLE => "rx_ipv6_tunnel_source_port_table"
  | .RX_IPV6_TUNNEL_SOURCE_PORT_TABLE_ACTION_SET_SRC_PORT => "rx_ipv6_tunnel_source_port_table_action_set_src_port"
  | .RX_IPV6_TUNNEL_SOURCE_PORT_TABLE_KEY_IPV6_SRC => "rx_ipv6_tunnel_source_port_table_key_ipv6_src"
  | .RX_IPV6_TUNNEL_SOURCE_PORT_TABLE_KEY_VNI => "rx_ipv6_tunnel_source_port_table_key_vni"
  | .SOURCE_PORT_TO_BRIDGE_MAP_TABLE => "source_port_to_bridge_map_table"
  | .SOURCE_PORT_TO_BRIDGE_MAP_TABLE_ACTION_SET_BRIDGE_ID => "source_port_to_bridge_map_table_action_set_bridge_id"
  | .SOURCE_PORT_TO_BRIDGE_MAP_TABLE_KEY_SRC_PORT => "source_port_to_bridge_map_table_key_src_port"
  | .SOURCE_PORT_TO_BRIDGE_MAP_TABLE_KEY_VID => "source_port_to_bridge_map_table_key_vid"
  | .TX_ACC_VSI_TABLE => "tx_acc_vsi_table"
  | .TX_ACC_VSI_TABLE_ACTION_L2_FWD_AND_BYPASS_BRIDGE => "tx_acc_vsi_table_action_l2_fwd_and_bypass_bridge"
  | .TX_ACC_VSI_TABLE_KEY_VSI => "tx_acc_vsi_table_key_vsi"
  | .VLAN_POP_MOD_ACTION_VLAN_POP => "vlan_pop_mod_action_vlan_pop"
  | .VLAN_POP_MOD_KEY_MOD_BLOB_PTR => "vlan_pop_mod_key_mod_blob_ptr"
  | .VLAN_POP_MOD_TABLE => "vlan_pop_mod_table"
  | .VLAN_PUSH_MOD_ACTION_VLAN_PUSH => "vlan_push_mod_action_vlan_push"
  | .VLAN_PUSH_MOD_KEY_MOD_BLOB_PTR => "vlan_push_mod_key_mod_blob_ptr"
  | .VLAN_PUSH_MOD_TABLE => "vlan_push_mod_table"
  | .VXLAN_DECAP_AND_VLAN_PUSH_MOD_TABLE => "vxlan_decap_and_vlan_push_mod_table"
  | .VXLAN_DECAP_AND_VLAN_PUSH_MOD_TABLE_KEY_MOD_BLOB_PTR => "vxlan_decap_and_vlan_push_mod_table_key_mod_blob_ptr"
  | .VXLAN_DECAP_MOD_TABLE => "vxlan_decap_mod_table"
  | .VXLAN_DECAP_MOD_TABLE_KEY_MOD_BLOB_PTR => "vxlan_decap_mod_table_key_mod_blob_ptr"
  | .VXLAN_ENCAP_MOD_TABLE => "vxlan_encap_mod_table"
  | .VXLAN_ENCAP_MOD_TABLE_KEY_VENDORMETA_MOD_DATA_PTR => "vxlan_encap_mod_table_key_vendormeta_mod_data_ptr"
  | .VXLAN_ENCAP_V6_MOD_TABLE => "vxlan_encap_v6_mod_table"
  | .VXLAN_ENCAP_V6_MOD_TABLE_KEY_VENDORMETA_MOD_DATA_PTR => "vxlan_encap_v6_mod_table_key_vendormeta_mod_data_ptr"
  | .VXLAN_ENCAP_V6_VLAN_POP_MOD_TABLE => "vxlan_encap_v6_vlan_pop_mod_table"
  | .VXLAN_ENCAP_V6_VLAN_POP_MOD_TABLE_KEY_VENDORMETA_MOD_DATA_PTR => "vxlan_encap_v6_vlan_pop_mod_table_key_vendormeta_mod_data_ptr"
  | .VXLAN_ENCAP_VLAN_POP_MOD_TABLE => "vxlan_encap_vlan_pop_mod_table"
  | .VXLAN_ENCAP_VLAN_POP_MOD_TABLE_KEY_VENDORMETA_MOD_DATA_PTR => "vxlan_encap_vlan_pop_mod_table_key_vendormeta_mod_data_ptr"

/-- A sample environment (x86-64: plain `char` is signed). -/
def sample_env : Env :=
  ⟨sample_nm, 1, 2, 16, 2, true⟩

/-- A sample schema with the tables and actions of the forwarding, VLAN and
port-mapping paths. -/
def sample_p4info : P4Info :=
  ⟨[⟨⟨1001, "l2_fwd_tx_table"⟩,
      [⟨1, "l2_fwd_tx_table_key_dst_mac"⟩, ⟨2, "l2_fwd_tx_table_key_bridge_id"⟩,
        ⟨3, "l2_fwd_tx_table_key_smac_learned"⟩]⟩,
    ⟨⟨1002, "l2_fwd_rx_table"⟩,
      [⟨1, "l2_fwd_rx_table_key_dst_mac"⟩, ⟨2, "l2_fwd_rx_table_key_bridge_id"⟩,
        ⟨3, "l2_fwd_rx_table_key_smac_learned"⟩]⟩,
    ⟨⟨1003, "l2_fwd_smac_table"⟩, [⟨1, "l2_fwd_smac_table_key_sa"⟩]⟩,
    ⟨⟨1004, "tx_acc_vsi_table"⟩, [⟨1, "tx_acc_vsi_table_key_vsi"⟩]⟩,
    ⟨⟨1005, "vlan_push_mod_table"⟩, [⟨1, "vlan_push_mod_key_mod_blob_ptr"⟩]⟩,
    ⟨⟨1006, "l2_to_tunnel_v4_table"⟩, [⟨1, "l2_to_tunnel_v4_key_da"⟩]⟩,
    ⟨⟨1007, "l2_to_tunnel_v6_table"⟩, [⟨1, "l2_to_tunnel_v6_key_da"⟩]⟩],
   [⟨⟨2001, "l2_fwd"⟩, [⟨1, "action_l2_fwd_param_port"⟩]⟩,
    ⟨⟨2002, "l2_fwd_smac_table_action_smac_learn"⟩, []⟩,
    ⟨⟨2003, "tx_acc_vsi_table_action_l2_fwd_and_bypass_bridge"⟩,
      [⟨1, "action_l2_fwd_and_bypass_bridge_param_port"⟩]⟩,
    ⟨⟨2004, "vlan_push_mod_action_vlan_push"⟩,
      [⟨1, "action_vlan_push_param_pcp"⟩, ⟨2, "action_vlan_push_param_dei"⟩,
        ⟨3, "action_vlan_push_param_vlan_id"⟩]⟩]⟩

/-- A sample transport without state: session creation and the schema fetch
succeed, the schema is `p4info`, and the outcome of a write or read is a
function of the request. -/
def sample_transport (p4info : P4Info) (write_status : WriteRequest → Status)
    (read_result : ReadRequest → Option ReadResponse) : Transport Unit :=
  ⟨fun d => (⟨0⟩, d), fun d => (⟨0⟩, p4info, d), fun d w => (write_status w, d),
    fun d r => (read_result r, d)⟩

/-- An all-zero IPv6 address. -/
def sample_in6 : in6_addr := ⟨fun _ => 0⟩

/-- A sample IPv4 tunnel 10.0.0.1 to 10.0.0.2, VNI 100, destination port
4789, native-tagged. -/
def sample_tunnel : tunnel_info :=
  ⟨0, ⟨AF_INET, ⟨⟨0x0100000a⟩, sample_in6⟩⟩, ⟨AF_INET, ⟨⟨0x0200000a⟩, sample_in6⟩⟩, 4789, 100,
    ⟨1, 0⟩, 1⟩

/-- A sample learning event for MAC 00:11:22:33:44:55 on port 20, with the
flags given. -/
def sample_learn (is_tunnel : Bool) : mac_learning_info :=
  ⟨is_tunnel, false, fun i => 17 * i.val, 1, 20, ⟨1, 0⟩, sample_tunnel, ⟨0⟩⟩

/-- The sample tunnel with an IPv4 local and an IPv6 remote address. -/
def sample_mixed_tunnel : tunnel_info :=
  { sample_tunnel with remote_ip := ⟨AF_INET6, ⟨⟨0⟩, sample_in6⟩⟩ }

/-- The sample tunnel with VNI 256. -/
def sample_vni256_tunnel : tunnel_info :=
  { sample_tunnel with vni := 256 }

/-- A read response of the port-mapping table: one entry whose port parameter
holds 7 in four bytes. -/
def sample_mapping_response : ReadResponse :=
  ⟨[⟨1004, [⟨1, FieldMatchType.exact [4]⟩], some ⟨2003, [⟨1, [0, 0, 0, 7]⟩]⟩, 0⟩]⟩

/-- Sample transport: writes succeed, reads fail. -/
def transport_absent : Transport Unit :=
  sample_transport sample_p4info (fun _ => ⟨0⟩) (fun _ => none)

/-- Sample transport: writes succeed, reads succeed with an empty response. -/
def transport_present : Transport Unit :=
  sample_transport sample_p4info (fun _ => ⟨0⟩) (fun _ => some ⟨[]⟩)

/-- Sample transport: every write fails, reads fail. -/
def transport_write_fails : Transport Unit :=
  sample_transport sample_p4info (fun _ => ⟨2⟩) (fun _ => none)

/-- Sample transport: writes succeed; a read succeeds only on the
port-mapping table (id 1004), with `sample_mapping_response`. -/
def transport_mapping : Transport Unit :=
  sample_transport sample_p4info (fun _ => ⟨0⟩)
    (fun r => if r.table_entry.table_id = 1004 then some sample_mapping_response else none)

/-- Sample transport whose schema is empty: no name resolves. -/
def transport_no_schema : Transport Unit :=
  sample_transport ⟨[], []⟩ (fun _ => ⟨0⟩) (fun _ => none)

/-- The unsigned little-endian reading of a byte string:
`b0 + 2^8*b1 + 2^16*b2 + ...`. -/
def le_decode (s : Bytes) : Nat := s.foldr (fun b acc => b + 256 * acc) 0

/-- The parameters of all actions named `a_name`, in schema order: the
sequence in which a scan for a parameter of that action meets them. -/
def params_of_actions_named (a_name : String) : List P4Action → List P4Param
  | [] => []
  | action :: rest =>
    if action.preamble.name = a_name then
      action.params ++ params_of_actions_named a_name rest
    else params_of_actions_named a_name rest

/-- The match fields of all tables named `t_name`, in schema order. -/
def match_fields_of_tables_named (t_name : String) : List P4Table → List P4MatchField
  | [] => []
  | table :: rest =>
    if table.preamble.name = t_name then
      table.match_fields ++ match_fields_of_tables_named t_name rest
    else match_fields_of_tables_named t_name rest

/-- Every numeric id of the schema is below 2^31. -/
def ids_below_2_31 (p4info : P4Info) : Prop :=
  (∀ t ∈ p4info.tables, t.preamble.id < 2147483648 ∧
    ∀ mf ∈ t.match_fields, mf.id < 2147483648) ∧
  (∀ a ∈ p4info.actions, a.preamble.id < 2147483648 ∧
    ∀ p ∈ a.params, p.id < 2147483648)

/-- A schema in which two actions share a name and only the second has the
parameter `p`; likewise for two tables and the match field `f`. -/
def sample_p4info_twice : P4Info :=
  ⟨[⟨⟨11, "t"⟩, [⟨5, "x"⟩]⟩, ⟨⟨12, "t"⟩, [⟨7, "f"⟩]⟩],
   [⟨⟨21, "a"⟩, [⟨5, "x"⟩]⟩, ⟨⟨22, "a"⟩, [⟨7, "p"⟩]⟩]⟩

/-- The action that the ES2K tunnel forwarding entry is to select, by
address family (`v6`) and `port_vlan_mode == NATIVE_UNTAGGED` (`untagged`). -/
def fdb_tunnel_action (v6 untagged : Bool) : Name :=
  match v6, untagged with
  | false, true => Name.L2_FWD_TX_TABLE_ACTION_POP_VLAN_SET_TUNNEL_UNDERLAY_V4
  | false, false => Name.L2_FWD_TX_TABLE_ACTION_SET_TUNNEL_UNDERLAY_V4
  | true, true => Name.L2_FWD_TX_TABLE_ACTION_POP_VLAN_SET_TUNNEL_UNDERLAY_V6
  | true, false => Name.L2_FWD_TX_TABLE_ACTION_SET_TUNNEL_UNDERLAY_V6

/-- The tunnel-id parameter of the action `fdb_tunnel_action v6 untagged`. -/
def fdb_tunnel_param (v6 untagged : Bool) : Name :=
  match v6, untagged with
  | false, true => Name.ACTION_POP_VLAN_SET_TUNNEL_UNDERLAY_V4_PARAM_TUNNEL_ID
  | false, false => Name.ACTION_SET_TUNNEL_UNDERLAY_V4_PARAM_TUNNEL_ID
  | true, true => Name.ACTION_POP_VLAN_SET_TUNNEL_UNDERLAY_V6_PARAM_TUNNEL_ID
  | true, false => Name.ACTION_SET_TUNNEL_UNDERLAY_V6_PARAM_TUNNEL_ID

/-- The sample learning event with an IPv6 tunnel and native-untagged VLAN
mode. -/
def sample_learn_v6_untagged : mac_learning_info :=
  { sample_learn true with
    vlan_info := ⟨2, 0⟩
    tnl_info := { sample_tunnel with
      local_ip := ⟨AF_INET6, ⟨⟨0⟩, sample_in6⟩⟩
      remote_ip := ⟨AF_INET6, ⟨⟨0⟩, sample_in6⟩⟩ } }

/-- A sample schema holding the four tunnel-underlay actions of the ES2K
forwarding table. -/
def sample_p4info_tunnel : P4Info :=
  ⟨[⟨⟨1001, "l2_fwd_tx_table"⟩,
      [⟨1, "l2_fwd_tx_table_key_dst_mac"⟩, ⟨2, "l2_fwd_tx_table_key_bridge_id"⟩,
        ⟨3, "l2_fwd_tx_table_key_smac_learned"⟩]⟩],
   [⟨⟨3001, "l2_fwd_tx_table_action_pop_vlan_set_tunnel_underlay_v4"⟩,
      [⟨11, "action_pop_vlan_set_tunnel_underlay_v4_param_tunnel_id"⟩]⟩,
    ⟨⟨3002, "l2_fwd_tx_table_action_set_tunnel_underlay_v4"⟩,
      [⟨12, "action_set_tunnel_underlay_v4_param_tunnel_id"⟩]⟩,
    ⟨⟨3003, "l2_fwd_tx_table_action_pop_vlan_set_tunnel_underlay_v6"⟩,
      [⟨13, "action_pop_vlan_set_tunnel_underlay_v6_param_tunnel_id"⟩]⟩,
    ⟨⟨3004, "l2_fwd_tx_table_action_set_tunnel_underlay_v6"⟩,
      [⟨14, "action_set_tunnel_underlay_v6_param_tunnel_id"⟩]⟩]⟩

/-- The field ids of the match fields of an entry, in order. -/
def field_ids (e : TableEntry) : List Nat := e.match_.map fun m => m.field_id

/-- The ids of the match fields that the schema declares for the tables
named `t_name`, in declaration order. -/
def declared_field_ids (p4info : P4Info) (t_name : String) : List Nat :=
  (match_fields_of_tables_named t_name p4info.tables).map fun mf => mf.id

/-- The match fields of `e` appear in the same relative order as the schema
declares them for the table `t_name`. -/
def in_schema_order (p4info : P4Info) (t_name : String) (e : TableEntry) : Prop :=
  List.Sublist (field_ids e) (declared_field_ids p4info t_name)

/-- A sample schema with the ES2K tunnel tables. Both termination tables
declare their keys in the order bridge id, source address, VNI. -/
def sample_p4info_vxlan : P4Info :=
  ⟨[⟨⟨1101, "vxlan_encap_mod_table"⟩,
      [⟨1, "vxlan_encap_mod_table_key_vendormeta_mod_data_ptr"⟩]⟩,
    ⟨⟨1102, "vxlan_encap_vlan_pop_mod_table"⟩,
      [⟨1, "vxlan_encap_vlan_pop_mod_table_key_vendormeta_mod_data_ptr"⟩]⟩,
    ⟨⟨1103, "vxlan_encap_v6_mod_table"⟩,
      [⟨1, "vxlan_encap_v6_mod_table_key_vendormeta_mod_data_ptr"⟩]⟩,
    ⟨⟨1104, "vxlan_encap_v6_vlan_pop_mod_table"⟩,
      [⟨1, "vxlan_encap_v6_vlan_pop_mod_table_key_vendormeta_mod_data_ptr"⟩]⟩,
    ⟨⟨1105, "vxlan_decap_mod_table"⟩, [⟨1, "vxlan_decap_mod_table_key_mod_blob_ptr"⟩]⟩,
    ⟨⟨1106, "vxlan_decap_and_vlan_push_mod_table"⟩,
      [⟨1, "vxlan_decap_and_vlan_push_mod_table_key_mod_blob_ptr"⟩]⟩,
    ⟨⟨1107, "ipv4_tunnel_term_table"⟩,
      [⟨1, "ipv4_tunnel_term_table_key_bridge_id"⟩, ⟨2, "ipv4_tunnel_term_table_key_ipv4_src"⟩,
        ⟨3, "ipv4_tunnel_term_table_key_vni"⟩]⟩,
    ⟨⟨1108, "ipv6_tunnel_term_table"⟩,
      [⟨1, "ipv6_tunnel_term_table_key_bridge_id"⟩, ⟨2, "ipv6_tunnel_term_table_key_ipv6_src"⟩,
        ⟨3, "ipv6_tunnel_term_table_key_vni"⟩]⟩],
   [⟨⟨2101, "action_vxlan_encap"⟩,
      [⟨1, "action_vxlan_encap_param_src_addr"⟩, ⟨2, "action_vxlan_encap_param_dst_addr"⟩,
        ⟨3, "action_vxlan_encap_param_src_port"⟩, ⟨4, "action_vxlan_encap_param_dst_port"⟩,
        ⟨5, "action_vxlan_encap_param_vni"⟩]⟩,
    ⟨⟨2102, "action_vxlan_encap_vlan_pop"⟩,
      [⟨1, "action_vxlan_encap_vlan_pop_param_src_addr"⟩,
        ⟨2, "action_vxlan_encap_vlan_pop_param_dst_addr"⟩,
        ⟨3, "action_vxlan_encap_vlan_pop_param_src_port"⟩,
        ⟨4, "action_vxlan_encap_vlan_pop_param_dst_port"⟩,
        ⟨5, "action_vxlan_encap_vlan_pop_param_vni"⟩]⟩,
    ⟨⟨2105, "action_vxlan_decap_outer_hdr"⟩, []⟩,
    ⟨⟨2106, "action_vxlan_decap_and_push_vlan"⟩,
      [⟨1, "action_vxlan_decap_and_push_vlan_param_pcp"⟩,
        ⟨2, "action_vxlan_decap_and_push_vlan_param_dei"⟩,
        ⟨3, "action_vxlan_decap_and_push_vlan_param_vlan_id"⟩]⟩,
    ⟨⟨2107, "action_decap_outer_hdr"⟩, [⟨1, "action_decap_outer_hdr_param_tunnel_id"⟩]⟩,
    ⟨⟨2108, "action_decap_outer_hdr_and_push_vlan"⟩,
      [⟨1, "action_decap_outer_hdr_and_push_vlan_param_tunnel_id"⟩]⟩]⟩

/-- The entry `e` with its action field cleared: table id, priority and match
fields only. -/
def without_action (e : TableEntry) : TableEntry := { e with action := none }


/-- Sample transport over the tunnel schema: writes succeed, reads fail. -/
def transport_vxlan : Transport Unit :=
  sample_transport sample_p4info_vxlan (fun _ => ⟨0⟩) (fun _ => none)

/-- The table ids of the write requests of a log, in order. -/
def written_tables (log : List Request) : List Nat :=
  (writes log).map fun w => w.table_entry.table_id

/-- An IPv6 address with the sixteen bytes 0x20, 0x21, ..., 0x2f. -/
def sample_in6_counting : in6_addr := ⟨fun i => 32 + i.val⟩


end ovs_p4rt

/-! ## The gNMI client (`clients/sgnmi_cli/sgnmi_cli.cc`) -/

namespace sgnmi_cli

/-- The part of gRPC and of the Stratum credentials manager that `Main` calls
to obtain channel credentials: `κ` is `grpc::ChannelCredentials`, `μ` the
credentials manager, `ε` the error status. -/
structure Library (κ μ ε : Type) where
  /-- The function `grpc::InsecureChannelCredentials()`. -/
  InsecureChannelCredentials : κ
  /-- The function `CredentialsManager::CreateInstance(secure_only)`. -/
  CreateInstance : Bool → Except ε μ
  /-- The method `GenerateExternalFacingClientCredentials()`. -/
  GenerateExternalFacingClientCredentials : μ → κ

/-- The arguments of a `grpc::CreateChannel` call. -/
structure Channel (κ : Type) where
  target : String
  creds : κ

/-- The default of the flag `grpc_use_insecure_mode`, from its `DEFINE_bool`. -/
def grpc_use_insecure_mode_default : Bool := false

/-- The channel creation in `Main`: the `if (FLAGS_grpc_use_insecure_mode)`
statement. An error of `CreateInstance` is returned by `ASSIGN_OR_RETURN`. -/
def Main.channel {κ μ ε : Type} (lib : Library κ μ ε) (FLAGS_grpc_use_insecure_mode : Bool)
    (FLAGS_grpc_addr : String) : Except ε (Channel κ) :=
  if FLAGS_grpc_use_insecure_mode then
    match lib.CreateInstance true with
    | Except.error status => Except.error status
    | Except.ok credentials_manager =>
      Except.ok ⟨FLAGS_grpc_addr,
        lib.GenerateExternalFacingClientCredentials credentials_manager⟩
  else
    Except.ok ⟨FLAGS_grpc_addr, lib.InsecureChannelCredentials⟩

/-- The two kinds of credentials of the sample library. -/
inductive SampleCredentials
  | insecure
  | tls
  deriving DecidableEq

/-- A sample library: the credentials manager is always created and generates
TLS credentials. -/
def sample_library : Library SampleCredentials Unit Unit :=
  ⟨SampleCredentials.insecure, fun _ => Except.ok (), fun _ => SampleCredentials.tls⟩

/-- The function `StringToBool`. -/
def StringToBool (str : String) : Bool :=
  (str == "y") || (str == "true") || (str == "t") || (str == "yes") || (str == "1")

end sgnmi_cli

namespace ovs_p4rt


/-- The sample tunnel event with IPv6 families and the remote address
`sample_in6_counting`. -/
def sample_learn_v6_counting : mac_learning_info :=
  { sample_learn true with
    tnl_info := { sample_tunnel with
      local_ip := ⟨AF_INET6, ⟨⟨0⟩, sample_in6⟩⟩
      remote_ip := ⟨AF_INET6, ⟨⟨0⟩, sample_in6_counting⟩⟩ } }

/-- Sample transport: writes succeed; a read succeeds only on the
`l2_to_tunnel_v6` table (id 1007), with an empty response. -/
def transport_v6_only : Transport Unit :=
  sample_transport sample_p4info (fun _ => ⟨0⟩)
    (fun r => if r.table_entry.table_id = 1007 then some ⟨[]⟩ else none)

/-- The ids of the action parameters of an entry, in order. -/
def param_ids (e : TableEntry) : List Nat :=
  (the_action e).params.map fun p => p.param_id

/-- The sample IPv4 tunnel in native-untagged mode, port VLAN 10. -/
def sample_untagged_tunnel : tunnel_info :=
  { sample_tunnel with vlan_info := ⟨2, 10⟩ }

/-- The sample tunnel with an IPv4 local and an IPv6 remote address, in
native-untagged mode. -/
def sample_mixed_untagged_tunnel : tunnel_info :=
  { sample_mixed_tunnel with vlan_info := ⟨2, 10⟩ }


/-- The two-byte big-endian encoding of a 16-bit value, written with the
codec. -/
def be16 (v : Nat) : Bytes :=
  EncodeByteValue 2 [(((v >>> 8) &&& 0xff : Nat) : Int), ((v &&& 0xff : Nat) : Int)]

/-- The ternary match fields of an entry, each as the pair of its value and
its mask, in order. -/
def ternary_fields (e : TableEntry) : List (Bytes × Bytes) :=
  e.match_.filterMap fun m =>
    match m.field_match_type with
    | FieldMatchType.ternary v mask => some (v, mask)
    | _ => none

/-- The bytes `value AND NOT mask`, position by position. -/
def outside_mask (value mask : Bytes) : List Nat :=
  List.zipWith (fun v m => v &&& (m ^^^ 0xff)) value mask

/-- A ternary match in canonical form: value and mask have the same length
and the value has no bit set outside the mask. -/
def canonical_ternary (value mask : Bytes) : Prop :=
  value.length = mask.length ∧ ∀ b ∈ outside_mask value mask, b = 0

/-- The sample IPv4 tunnel with source port 300 (0x012c). -/
def sample_port300_tunnel : tunnel_info :=
  { sample_tunnel with src_port := 300 }


/-- The value of the first parameter of `params` whose id equals `param_id`
(compared in `uint32_t`), if there is one. -/
def first_port_value (param_id : Int) : List Param → Option Bytes
  | [] => none
  | param :: rest =>
    if toU32 param_id = param.param_id then some param.value
    else first_port_value param_id rest

/-- The value of the first matching parameter of the last entity that has a
matching parameter, if there is one. -/
def last_port_value (param_id : Int) : List TableEntry → Option Bytes
  | [] => none
  | table_entry_1 :: rest =>
    match last_port_value param_id rest with
    | some v => some v
    | none => first_port_value param_id (the_action table_entry_1).params

/-- The id that the recovery loop compares the parameter ids with. -/
def port_param_id (env : Env) (p4info : P4Info) : Int :=
  GetParamId p4info (env.nm .TX_ACC_VSI_TABLE_ACTION_L2_FWD_AND_BYPASS_BRIDGE)
    (env.nm .ACTION_L2_FWD_AND_BYPASS_BRIDGE_PARAM_PORT)

/-- A read response with two entries of the port-mapping table, the first with
port parameter 9, the second with port parameter 7, both in four bytes. -/
def sample_two_entry_response : ReadResponse :=
  ⟨[⟨1004, [⟨1, FieldMatchType.exact [3]⟩], some ⟨2003, [⟨1, [0, 0, 0, 9]⟩]⟩, 0⟩,
    ⟨1004, [⟨1, FieldMatchType.exact [4]⟩], some ⟨2003, [⟨1, [0, 0, 0, 7]⟩]⟩, 0⟩]⟩

/-- A read response of the port-mapping table whose port parameter holds 7 in
one byte, the shortest byte string for that value. -/
def sample_short_response : ReadResponse :=
  ⟨[⟨1004, [⟨1, FieldMatchType.exact [4]⟩], some ⟨2003, [⟨1, [7]⟩]⟩, 0⟩]⟩

/-- Sample transport: writes succeed; a read on the port-mapping table (id
1004) succeeds with `sample_short_response`, any other read fails. -/
def transport_short_mapping : Transport Unit :=
  sample_transport sample_p4info (fun _ => ⟨0⟩)
    (fun r => if r.table_entry.table_id = 1004 then some sample_short_response else none)


/-- Sample transport on which session creation fails (status 14). -/
def transport_no_session : Transport Unit :=
  ⟨fun d => (⟨14⟩, d), fun d => (⟨0⟩, sample_p4info, d), fun d _ => (⟨0⟩, d),
    fun d _ => (some ⟨[]⟩, d)⟩

/-- A sample VLAN learning event: not tunnel-classified, VLAN id 5. -/
def sample_vlan_learn : mac_learning_info :=
  { sample_learn false with is_vlan := true, vln_info := ⟨5⟩ }

/-! ## Theorems -/

/-! ### Entry builders -/

/-- C1: every entry builder, run on a fresh entry with `insert_entry = false`,
leaves the action field unset, for every event record, schema and profile. -/
theorem C1_delete_entry_has_no_action (env : Env) (t : Target)
    (learn_info : mac_learning_info) (tunnel_info : tunnel_info) (vlan_id : Nat)
    (sp : src_port_info) (p4info : P4Info) :
    (PrepareFdbSmacTableEntry env TableEntry.fresh learn_info p4info false).action = none ∧
    (PrepareFdbTxVlanTableEntry env t TableEntry.fresh learn_info p4info false).action = none ∧
    (PrepareFdbRxVlanTableEntry env t TableEntry.fresh learn_info p4info false).action = none ∧
    (PrepareFdbTableEntryforV4Tunnel env t TableEntry.fresh learn_info p4info false).action
      = none ∧
    (PrepareL2ToTunnelV4 env TableEntry.fresh learn_info p4info false).action = none ∧
    (PrepareL2ToTunnelV6 env TableEntry.fresh learn_info p4info false).action = none ∧
    (PrepareEncapTableEntry env t TableEntry.fresh tunnel_info p4info false).action = none ∧
    (PrepareV6EncapTableEntry env TableEntry.fresh tunnel_info p4info false).action = none ∧
    (PrepareEncapAndVlanPopTableEntry env TableEntry.fresh tunnel_info p4info false).action
      = none ∧
    (PrepareV6EncapAndVlanPopTableEntry env TableEntry.fresh tunnel_info p4info false).action
      = none ∧
    (PrepareRxTunnelTableEntry env TableEntry.fresh tunnel_info p4info false).action = none ∧
    (PrepareV6RxTunnelTableEntry env TableEntry.fresh tunnel_info p4info false).action
      = none ∧
    (PrepareTunnelTermTableEntry env t TableEntry.fresh tunnel_info p4info false).action
      = none ∧
    (PrepareV6TunnelTermTableEntry env TableEntry.fresh tunnel_info p4info false).action
      = none ∧
    (PrepareDecapModTableEntry env TableEntry.fresh tunnel_info p4info false).action = none ∧
    (PrepareDecapModAndVlanPushTableEntry env TableEntry.fresh tunnel_info p4info
      false).action = none ∧
    (PrepareVlanPushTableEntry env TableEntry.fresh vlan_id p4info false).action = none ∧
    (PrepareVlanPopTableEntry env TableEntry.fresh vlan_id p4info false).action = none ∧
    (PrepareSrcPortTableEntry env TableEntry.fresh sp p4info false).action = none := by
  cases t <;> exact ⟨rfl, rfl, rfl, rfl, rfl, rfl, rfl, rfl, rfl, rfl, rfl, rfl, rfl, rfl,
    rfl, rfl, rfl, rfl, rfl⟩


/-! ### Lemmas on the value codec -/

theorem toU8_natCast (n : Nat) : toU8 (n : Int) = n % 256 := by
  unfold toU8
  omega

theorem toU32_natCast (n : Nat) : toU32 (n : Int) = n % 4294967296 := by
  unfold toU32
  omega

theorem be_decode_one_byte (vni : Nat) :
    be_decode (EncodeByteValue 1 [(vni : Int)]) = vni % 256 := by
  simp [EncodeByteValue, be_decode, toU8_natCast]

theorem be32_eq (v : Nat) :
    be32 v = [v / 16777216 % 256, v / 65536 % 256, v / 256 % 256, v % 256] := by
  have h : ∀ x : Nat, x &&& 0xff = x % 256 := fun x => Nat.and_pow_two_sub_one_eq_mod x 8
  simp only [be32, EncodeByteValue, toU8_natCast, h, Nat.shiftRight_eq_div_pow, Nat.mod_mod]

theorem host_sp_step_unsigned (env : Env) (hu : env.char_is_signed = false) (s2 : Bytes)
    (host_sp pos c : Nat) (hc : c < 256) (hs : string_at s2 pos = some c) :
    host_sp_step env s2 host_sp pos = some (256 * (host_sp % 16777216) + c) := by
  have e1 : (host_sp <<< 8) % 4294967296 = 2 ^ 8 * (host_sp % 16777216) := by
    rw [Nat.shiftLeft_eq]
    omega
  have e2 : toU32 (char_to_int env c) = c := by
    simp only [char_to_int, hu, Bool.false_eq_true, false_and, if_false, toU32_natCast]
    omega
  simp only [host_sp_step, hs, e1, e2]
  rw [← Nat.mul_add_lt_is_or (by simpa using hc)]

theorem host_sp_bytes_unsigned (env : Env) (hu : env.char_is_signed = false) (v : Nat)
    (hv : v < 4294967296) : host_sp_bytes env (be32 v) 0 = some v := by
  rw [be32_eq]
  have s0 : string_at [v / 16777216 % 256, v / 65536 % 256, v / 256 % 256, v % 256] 0
      = some (v / 16777216 % 256) := rfl
  have s1 : string_at [v / 16777216 % 256, v / 65536 % 256, v / 256 % 256, v % 256] 1
      = some (v / 65536 % 256) := rfl
  have s2 : string_at [v / 16777216 % 256, v / 65536 % 256, v / 256 % 256, v % 256] 2
      = some (v / 256 % 256) := rfl
  have s3 : string_at [v / 16777216 % 256, v / 65536 % 256, v / 256 % 256, v % 256] 3
      = some (v % 256) := rfl
  simp only [host_sp_bytes,
    host_sp_step_unsigned env hu _ _ _ _ (Nat.mod_lt _ (by norm_num)) s0,
    host_sp_step_unsigned env hu _ _ _ _ (Nat.mod_lt _ (by norm_num)) s1,
    host_sp_step_unsigned env hu _ _ _ _ (Nat.mod_lt _ (by norm_num)) s2,
    host_sp_step_unsigned env hu _ _ _ _ (Nat.mod_lt _ (by norm_num)) s3,
    Option.some_bind, Option.some.injEq]
  omega

/-! ### Lemmas on sessions and logs -/

section
variable {σ : Type}

theorem SendWriteRequest_log (tr : Transport σ) (session : OvsP4rtSession σ)
    (w : WriteRequest) :
    (SendWriteRequest tr session w).2.log = session.log ++ [Request.write w] := rfl

theorem SendReadRequest_log (tr : Transport σ) (session : OvsP4rtSession σ)
    (r : ReadRequest) :
    (SendReadRequest tr session r).2.log = session.log ++ [Request.read r] := rfl

theorem connected_log (tr : Transport σ) (d : σ) : (connected tr d).log = [] := rfl

theorem SendWriteRequest_ok (tr : Transport σ)
    (hw : ∀ dev req, (tr.SendWriteRequest dev req).1.ok = true)
    (session : OvsP4rtSession σ) (w : WriteRequest) :
    (SendWriteRequest tr session w).1.ok = true := hw _ _

theorem writes_append (l₁ l₂ : List Request) : writes (l₁ ++ l₂) = writes l₁ ++ writes l₂ := by
  induction l₁ with
  | nil => rfl
  | cons a l ih => cases a <;> simp [writes, ih]

theorem ConfigTunnelTableEntry_connected (env : Env) (t : Target) (tr : Transport σ) (d : σ)
    (tunnel_info : tunnel_info) (insert_entry : Bool) (hconn : connects tr d) :
    ConfigTunnelTableEntry env t tr d tunnel_info insert_entry =
      ConfigTunnelTableEntry.program env t tr (connected tr d) tunnel_info (schema tr d)
        insert_entry := by
  obtain ⟨hc, hp⟩ := hconn
  simp only [ConfigTunnelTableEntry, hc, hp, connected, schema, not_true_eq_false, if_false]

theorem ConfigFdbTableEntry_connected (env : Env) (tr : Transport σ) (d : σ)
    (learn_info : mac_learning_info) (insert_entry : Bool) (hconn : connects tr d) :
    ConfigFdbTableEntry env Target.ES2K tr d learn_info insert_entry =
      ConfigFdbTableEntry.program env tr
        (ConfigFdbTableEntry.classify env tr (connected tr d) learn_info (schema tr d)
          insert_entry).2
        (ConfigFdbTableEntry.classify env tr (connected tr d) learn_info (schema tr d)
          insert_entry).1
        (schema tr d) insert_entry := by
  obtain ⟨hc, hp⟩ := hconn
  simp only [ConfigFdbTableEntry, ConfigFdbTableEntry.es2k, hc, hp, connected, schema,
    not_true_eq_false, if_false]

theorem ConfigFdbTableEntry_not_connected (env : Env) (tr : Transport σ) (d : σ)
    (learn_info : mac_learning_info) (insert_entry : Bool) (hconn : ¬ connects tr d) :
    (ConfigFdbTableEntry env Target.ES2K tr d learn_info insert_entry).map
      (fun s => s.log) = some [] := by
  unfold connects at hconn
  by_cases hc : (OvsP4rtSession.Create tr d).1.ok = true
  · have hp : ¬ (GetForwardingPipelineConfig tr (OvsP4rtSession.Create tr d).2).1.ok = true :=
      fun h => hconn ⟨hc, h⟩
    simp only [ConfigFdbTableEntry, ConfigFdbTableEntry.es2k, hc, hp, not_true_eq_false,
      not_false_eq_true, if_false, if_true, Option.map_some']
    rfl
  · simp only [ConfigFdbTableEntry, ConfigFdbTableEntry.es2k, hc, not_false_eq_true, if_true,
      Option.map_some']
    rfl

theorem tunnel_writes_log (env : Env) (tr : Transport σ) (session : OvsP4rtSession σ)
    (learn_info : mac_learning_info) (p4info : P4Info) (insert_entry : Bool) :
    (ConfigFdbTableEntry.tunnel_writes env tr session learn_info p4info insert_entry).log =
      session.log ++
        [Request.write ⟨SetupType insert_entry,
            PrepareFdbTableEntryforV4Tunnel env Target.ES2K TableEntry.fresh learn_info p4info
              insert_entry⟩,
          Request.write ⟨SetupType insert_entry,
            if learn_info.tnl_info.local_ip.family = AF_INET6 ∧
                learn_info.tnl_info.remote_ip.family = AF_INET6 then
              PrepareL2ToTunnelV6 env TableEntry.fresh learn_info p4info insert_entry
            else PrepareL2ToTunnelV4 env TableEntry.fresh learn_info p4info insert_entry⟩,
          Request.write ⟨SetupType insert_entry,
            PrepareFdbSmacTableEntry env TableEntry.fresh learn_info p4info insert_entry⟩] := by
  simp [ConfigFdbTableEntry.tunnel_writes, ConfigFdbTunnelTableEntry, ConfigL2TunnelTableEntry,
    ConfigFdbSmacTableEntry, SendWriteRequest_log]

theorem vlan_writes_log (env : Env) (tr : Transport σ) (session : OvsP4rtSession σ)
    (learn_info : mac_learning_info) (p4info : P4Info) (insert_entry : Bool) :
    (ConfigFdbTableEntry.vlan_writes env tr session learn_info p4info insert_entry).log =
      session.log ++
        [Request.write ⟨SetupType insert_entry,
            PrepareFdbTxVlanTableEntry env Target.ES2K TableEntry.fresh learn_info p4info
              insert_entry⟩,
          Request.write ⟨SetupType insert_entry,
            PrepareFdbRxVlanTableEntry env Target.ES2K TableEntry.fresh learn_info p4info
              insert_entry⟩,
          Request.write ⟨SetupType insert_entry,
            PrepareFdbSmacTableEntry env TableEntry.fresh learn_info p4info insert_entry⟩] := by
  simp [ConfigFdbTableEntry.vlan_writes, ConfigFdbTxVlanTableEntry, ConfigFdbRxVlanTableEntry,
    ConfigFdbSmacTableEntry, SendWriteRequest_log]

theorem reads_append (l₁ l₂ : List Request) : reads (l₁ ++ l₂) = reads l₁ ++ reads l₂ := by
  induction l₁ with
  | nil => rfl
  | cons a l ih => cases a <;> simp [reads, ih]

theorem classify_delete_log (env : Env) (tr : Transport σ) (session : OvsP4rtSession σ)
    (learn_info : mac_learning_info) (p4info : P4Info) :
    (ConfigFdbTableEntry.classify env tr session learn_info p4info false).2.log =
      session.log ++
        [Request.read ⟨PrepareL2ToTunnelV4 env TableEntry.fresh learn_info p4info false⟩,
          Request.read ⟨PrepareL2ToTunnelV6 env TableEntry.fresh learn_info p4info false⟩] := by
  simp only [ConfigFdbTableEntry.classify, Bool.false_eq_true, if_false,
    GetL2ToTunnelV4TableEntry, GetL2ToTunnelV6TableEntry, SendReadRequest_log,
    List.append_assoc, List.singleton_append]
  split <;> rfl

theorem classify_delete_fst (env : Env) (tr : Transport σ) (session : OvsP4rtSession σ)
    (learn_info : mac_learning_info) (p4info : P4Info) :
    (ConfigFdbTableEntry.classify env tr session learn_info p4info false).1 =
      { learn_info with is_tunnel :=
          learn_info.is_tunnel ||
            (GetL2ToTunnelV4TableEntry env tr session learn_info p4info).1.isSome ||
            (GetL2ToTunnelV6TableEntry env tr
              (GetL2ToTunnelV4TableEntry env tr session learn_info p4info).2
              learn_info p4info).1.isSome } := by
  simp only [ConfigFdbTableEntry.classify, Bool.false_eq_true, if_false]
  cases h4 : (GetL2ToTunnelV4TableEntry env tr session learn_info p4info).1.isSome
  · cases h6 : (GetL2ToTunnelV6TableEntry env tr
        (GetL2ToTunnelV4TableEntry env tr session learn_info p4info).2
        learn_info p4info).1.isSome
    · simp [h4, h6]
    · simp [h4, h6]
  · have e : (GetL2ToTunnelV6TableEntry env tr
        (GetL2ToTunnelV4TableEntry env tr session learn_info p4info).2
        { learn_info with is_tunnel := true } p4info) =
        (GetL2ToTunnelV6TableEntry env tr
        (GetL2ToTunnelV4TableEntry env tr session learn_info p4info).2
        learn_info p4info) := rfl
    simp only [h4, if_true, e]
    split <;> simp

end

/-! ### Orchestrators -/

section
variable {σ : Type}

/-- C2: with insert intent, session and schema obtained and every write
succeeding, the requests issued by `ConfigTunnelTableEntry` are exactly the
encapsulation write, then (ES2K only) the decapsulation write, then the
termination write. -/
theorem C2_tunnel_insert_order (env : Env) (t : Target) (tr : Transport σ) (d : σ)
    (tunnel_info : tunnel_info) (hconn : connects tr d)
    (hw : ∀ dev req, (tr.SendWriteRequest dev req).1.ok = true) :
    (ConfigTunnelTableEntry env t tr d tunnel_info true).log =
      match t with
      | Target.ES2K =>
        [Request.write ⟨UpdateType.INSERT,
            ConfigEncapTableEntry.entry env Target.ES2K tunnel_info (schema tr d) true⟩,
          Request.write ⟨UpdateType.INSERT,
            ConfigDecapTableEntry.entry env tunnel_info (schema tr d) true⟩,
          Request.write ⟨UpdateType.INSERT,
            ConfigTunnelTermTableEntry.entry env Target.ES2K tunnel_info (schema tr d) true⟩]
      | Target.DPDK =>
        [Request.write ⟨UpdateType.INSERT,
            ConfigEncapTableEntry.entry env Target.DPDK tunnel_info (schema tr d) true⟩,
          Request.write ⟨UpdateType.INSERT,
            ConfigTunnelTermTableEntry.entry env Target.DPDK tunnel_info (schema tr d) true⟩] := by
  rw [ConfigTunnelTableEntry_connected env t tr d tunnel_info true hconn]
  cases t <;>
    simp [ConfigTunnelTableEntry.program, ConfigEncapTableEntry, ConfigDecapTableEntry,
      ConfigTunnelTermTableEntry, SendWriteRequest_ok tr hw, SendWriteRequest_log,
      connected_log, SetupType]

/-- Witness for C2: the ES2K insert of the sample tunnel over a transport on
which every write succeeds. -/
theorem C2_tunnel_insert_order_witness :
    connects transport_absent () ∧
    (∀ dev req, (transport_absent.SendWriteRequest dev req).1.ok = true) ∧
    (ConfigTunnelTableEntry sample_env Target.ES2K transport_absent () sample_tunnel true).log =
      [Request.write ⟨UpdateType.INSERT,
          ConfigEncapTableEntry.entry sample_env Target.ES2K sample_tunnel sample_p4info true⟩,
        Request.write ⟨UpdateType.INSERT,
          ConfigDecapTableEntry.entry sample_env sample_tunnel sample_p4info true⟩,
        Request.write ⟨UpdateType.INSERT,
          ConfigTunnelTermTableEntry.entry sample_env Target.ES2K sample_tunnel sample_p4info
            true⟩] :=
  ⟨⟨rfl, rfl⟩, fun _ _ => rfl,
    C2_tunnel_insert_order sample_env Target.ES2K transport_absent () sample_tunnel
      ⟨rfl, rfl⟩ (fun _ _ => rfl)⟩

/-- C3: on ES2K, for an insert, when the existence read of the forwarding
entry (`GetFdbTunnelTableEntry` for a tunnel-classified event,
`GetFdbVlanTableEntry` otherwise) succeeds, `ConfigFdbTableEntry` returns and
has issued no write. -/
theorem C3_insert_existing_is_noop (env : Env) (tr : Transport σ) (d : σ)
    (learn_info : mac_learning_info)
    (h : (if learn_info.is_tunnel then
            GetFdbTunnelTableEntry env tr (connected tr d) learn_info (schema tr d)
          else GetFdbVlanTableEntry env tr (connected tr d) learn_info (schema tr d)).1.isSome
        = true) :
    (ConfigFdbTableEntry env Target.ES2K tr d learn_info true).map (fun s => writes s.log)
      = some [] := by
  by_cases hconn : connects tr d
  · rw [ConfigFdbTableEntry_connected env tr d learn_info true hconn]
    by_cases ht : learn_info.is_tunnel = true
    · simp only [ht, if_true] at h
      simp only [ConfigFdbTableEntry.classify, ConfigFdbTableEntry.program, ht, h, if_true,
        Option.map_some']
      simp [GetFdbTunnelTableEntry, SendReadRequest_log, connected_log, writes]
    · have ht' : learn_info.is_tunnel = false := by simpa using ht
      simp only [ht', Bool.false_eq_true, if_false] at h
      simp only [ConfigFdbTableEntry.classify, ConfigFdbTableEntry.program, ht', h, if_true,
        Bool.false_eq_true, if_false, Option.map_some']
      simp [GetFdbVlanTableEntry, SendReadRequest_log, connected_log, writes]
  · have hl := ConfigFdbTableEntry_not_connected env tr d learn_info true hconn
    cases hr : ConfigFdbTableEntry env Target.ES2K tr d learn_info true with
    | none => rw [hr] at hl; simp at hl
    | some s =>
      rw [hr] at hl
      simp only [Option.map_some', Option.some.injEq] at hl
      simp [hl, writes]
/-- Witness for C3: the sample non-tunnel insert over a transport whose reads
all succeed. -/
theorem C3_insert_existing_is_noop_witness :
    (GetFdbVlanTableEntry sample_env transport_present (connected transport_present ())
      (sample_learn false) (schema transport_present ())).1.isSome = true ∧
    (ConfigFdbTableEntry sample_env Target.ES2K transport_present () (sample_learn false)
      true).map (fun s => writes s.log) = some [] :=
  ⟨rfl, C3_insert_existing_is_noop sample_env transport_present () (sample_learn false) rfl⟩

/-- C4: on ES2K, for a delete, when the read of `l2_to_tunnel_v4` or the read
of `l2_to_tunnel_v6` succeeds, the writes of `ConfigFdbTableEntry` are exactly
the three deletes of the tunnel set (tunnel forwarding entry, L2-to-tunnel
entry, source-MAC entry), whatever `is_tunnel` was on entry; the list has no
fourth element, so no RX forwarding delete is written. -/
theorem C4_delete_reclassified_as_tunnel (env : Env) (tr : Transport σ) (d : σ)
    (learn_info : mac_learning_info) (hconn : connects tr d)
    (h : (GetL2ToTunnelV4TableEntry env tr (connected tr d) learn_info
            (schema tr d)).1.isSome = true ∨
         (GetL2ToTunnelV6TableEntry env tr
            (GetL2ToTunnelV4TableEntry env tr (connected tr d) learn_info (schema tr d)).2
            learn_info (schema tr d)).1.isSome = true) :
    (ConfigFdbTableEntry env Target.ES2K tr d learn_info false).map (fun s => writes s.log) =
      some [⟨UpdateType.DELETE,
          PrepareFdbTableEntryforV4Tunnel env Target.ES2K TableEntry.fresh learn_info
            (schema tr d) false⟩,
        ⟨UpdateType.DELETE,
          if learn_info.tnl_info.local_ip.family = AF_INET6 ∧
              learn_info.tnl_info.remote_ip.family = AF_INET6 then
            PrepareL2ToTunnelV6 env TableEntry.fresh learn_info (schema tr d) false
          else PrepareL2ToTunnelV4 env TableEntry.fresh learn_info (schema tr d) false⟩,
        ⟨UpdateType.DELETE,
          PrepareFdbSmacTableEntry env TableEntry.fresh learn_info (schema tr d) false⟩] := by
  rw [ConfigFdbTableEntry_connected env tr d learn_info false hconn]
  have ht : (ConfigFdbTableEntry.classify env tr (connected tr d) learn_info (schema tr d)
      false).1.is_tunnel = true := by
    rw [classify_delete_fst]
    rcases h with h | h <;> simp [h]
  simp only [ConfigFdbTableEntry.program, ht, if_true, Bool.false_eq_true, if_false,
    Option.map_some', tunnel_writes_log, classify_delete_log, connected_log, writes_append]
  rw [classify_delete_fst]
  simp [writes, SetupType]
  refine ⟨rfl, ?_, rfl⟩
  split <;> rfl

/-- Witness for C4: the sample event with `is_tunnel = false` over a transport
whose reads all succeed. -/
theorem C4_delete_reclassified_as_tunnel_witness :
    connects transport_present () ∧
    (sample_learn false).is_tunnel = false ∧
    (GetL2ToTunnelV4TableEntry sample_env transport_present (connected transport_present ())
      (sample_learn false) (schema transport_present ())).1.isSome = true ∧
    (ConfigFdbTableEntry sample_env Target.ES2K transport_present () (sample_learn false)
      false).map (fun s => writes s.log) =
      some [⟨UpdateType.DELETE,
          ⟨1001, [⟨1, FieldMatchType.exact [0, 17, 34, 51, 68, 85]⟩,
            ⟨2, FieldMatchType.exact [1]⟩, ⟨3, FieldMatchType.exact [1]⟩], none, 0⟩⟩,
        ⟨UpdateType.DELETE,
          ⟨1006, [⟨1, FieldMatchType.exact [0, 17, 34, 51, 68, 85]⟩], none, 0⟩⟩,
        ⟨UpdateType.DELETE,
          ⟨1003, [⟨1, FieldMatchType.ternary [0, 17, 34, 51, 68, 85]
            [255, 255, 255, 255, 255, 255]⟩], none, 1⟩⟩] :=
  ⟨⟨rfl, rfl⟩, rfl, rfl,
    C4_delete_reclassified_as_tunnel sample_env transport_present () (sample_learn false)
      ⟨rfl, rfl⟩ (Or.inl rfl)⟩

/-- C5 (behaviour of the code): on ES2K, for a tunnel record whose families
are neither both `AF_INET` nor both `AF_INET6`, `ConfigEncapTableEntry` and
`ConfigTunnelTermTableEntry` run no builder and are exactly the sending of a
write request that carries an empty table entry; the result is whatever the
transport returns for it. -/
theorem C5_unsupported_family_sends_empty_entry (env : Env) (tr : Transport σ)
    (session : OvsP4rtSession σ) (tunnel_info : tunnel_info) (p4info : P4Info)
    (insert_entry : Bool)
    (h4 : ¬ (tunnel_info.local_ip.family = AF_INET ∧ tunnel_info.remote_ip.family = AF_INET))
    (h6 : ¬ (tunnel_info.local_ip.family = AF_INET6 ∧
      tunnel_info.remote_ip.family = AF_INET6)) :
    ConfigEncapTableEntry env Target.ES2K tr session tunnel_info p4info insert_entry =
      SendWriteRequest tr session ⟨SetupType insert_entry, TableEntry.fresh⟩ ∧
    ConfigTunnelTermTableEntry env Target.ES2K tr session tunnel_info p4info insert_entry =
      SendWriteRequest tr session ⟨SetupType insert_entry, TableEntry.fresh⟩ := by
  simp only [ConfigEncapTableEntry, ConfigEncapTableEntry.entry, ConfigTunnelTermTableEntry,
    ConfigTunnelTermTableEntry.entry, h4, h6, if_false, and_self]


/-- Witness for C5: the sample tunnel with an IPv4 local and an IPv6 remote
address; the log holds one insert of the empty entry. -/
theorem C5_unsupported_family_sends_empty_entry_witness :
    ¬ (sample_mixed_tunnel.local_ip.family = AF_INET ∧
      sample_mixed_tunnel.remote_ip.family = AF_INET) ∧
    ¬ (sample_mixed_tunnel.local_ip.family = AF_INET6 ∧
      sample_mixed_tunnel.remote_ip.family = AF_INET6) ∧
    (ConfigEncapTableEntry sample_env Target.ES2K transport_absent ⟨(), []⟩
        sample_mixed_tunnel sample_p4info true =
      SendWriteRequest transport_absent ⟨(), []⟩ ⟨UpdateType.INSERT, ⟨0, [], none, 0⟩⟩ ∧
    ConfigTunnelTermTableEntry sample_env Target.ES2K transport_absent ⟨(), []⟩
        sample_mixed_tunnel sample_p4info true =
      SendWriteRequest transport_absent ⟨(), []⟩ ⟨UpdateType.INSERT, ⟨0, [], none, 0⟩⟩) :=
  ⟨by decide, by decide,
    C5_unsupported_family_sends_empty_entry sample_env transport_absent ⟨(), []⟩
      sample_mixed_tunnel sample_p4info true (by decide) (by decide)⟩

/-- C6 counterexample: with a schema in which no name resolves,
`ConfigVlanPushTableEntry` does not fail; it sends one insert whose ids are all
0xFFFFFFFF and returns OK. -/
theorem C6_counterexample :
    GetTableId ⟨[], []⟩ (sample_env.nm Name.VLAN_PUSH_MOD_TABLE) = -1 ∧
    (ConfigVlanPushTableEntry sample_env transport_no_schema ⟨(), []⟩ 5 ⟨[], []⟩ true).1.ok
      = true ∧
    (ConfigVlanPushTableEntry sample_env transport_no_schema ⟨(), []⟩ 5 ⟨[], []⟩ true).2.log
      = [Request.write ⟨UpdateType.INSERT,
          ⟨4294967295, [⟨4294967295, FieldMatchType.exact [5]⟩],
            some ⟨4294967295, [⟨4294967295, [1]⟩, ⟨4294967295, [0]⟩, ⟨4294967295, [5]⟩]⟩,
            0⟩⟩] := by
  decide

/-- C6 (amended): a name that does not resolve (resolver result -1) shows in
the entry built by `PrepareVlanPushTableEntry` as the id 0xFFFFFFFF, and every
single-entry `Config*TableEntry` operation, for every event and every schema,
resolved or not, appends exactly one write request carrying the built entry
to the log; its status is the one the transport returns for that request. -/
theorem C6_unresolved_names_are_sent (env : Env) (t : Target) (tr : Transport σ)
    (session : OvsP4rtSession σ) (learn_info : mac_learning_info)
    (tunnel_info : tunnel_info) (vlan_id : Nat) (sp : src_port_info) (p4info : P4Info)
    (insert_entry : Bool) :
    (GetTableId p4info (env.nm Name.VLAN_PUSH_MOD_TABLE) = -1 →
      (PrepareVlanPushTableEntry env TableEntry.fresh vlan_id p4info insert_entry).table_id
        = 4294967295) ∧
    (GetMatchFieldId p4info (env.nm Name.VLAN_PUSH_MOD_TABLE)
        (env.nm Name.VLAN_PUSH_MOD_KEY_MOD_BLOB_PTR) = -1 →
      (PrepareVlanPushTableEntry env TableEntry.fresh vlan_id p4info insert_entry).match_
        = [⟨4294967295, FieldMatchType.exact (EncodeByteValue 1 [(vlan_id : Int)])⟩]) ∧
    (GetActionId p4info (env.nm Name.VLAN_PUSH_MOD_ACTION_VLAN_PUSH) = -1 →
      (PrepareVlanPushTableEntry env TableEntry.fresh vlan_id p4info true).action.map
        (fun a => a.action_id) = some 4294967295) ∧
    (GetParamId p4info (env.nm Name.VLAN_PUSH_MOD_ACTION_VLAN_PUSH)
        (env.nm Name.ACTION_VLAN_PUSH_PARAM_VLAN_ID) = -1 →
      ((the_action (PrepareVlanPushTableEntry env TableEntry.fresh vlan_id p4info
        true)).params.map (fun p => p.param_id)).getLast? = some 4294967295) ∧
    (ConfigVlanPushTableEntry env tr session vlan_id p4info insert_entry).1 =
      (tr.SendWriteRequest session.dev ⟨SetupType insert_entry,
        PrepareVlanPushTableEntry env TableEntry.fresh vlan_id p4info insert_entry⟩).1 ∧
    (ConfigVlanPushTableEntry env tr session vlan_id p4info insert_entry).2.log =
      session.log ++ [Request.write ⟨SetupType insert_entry,
        PrepareVlanPushTableEntry env TableEntry.fresh vlan_id p4info insert_entry⟩] ∧
    (ConfigVlanPopTableEntry env tr session vlan_id p4info insert_entry).2.log =
      session.log ++ [Request.write ⟨SetupType insert_entry,
        PrepareVlanPopTableEntry env TableEntry.fresh vlan_id p4info insert_entry⟩] ∧
    (ConfigFdbSmacTableEntry env tr session learn_info p4info insert_entry).2.log =
      session.log ++ [Request.write ⟨SetupType insert_entry,
        PrepareFdbSmacTableEntry env TableEntry.fresh learn_info p4info insert_entry⟩] ∧
    (ConfigL2TunnelTableEntry env tr session learn_info p4info insert_entry).2.log =
      session.log ++ [Request.write ⟨SetupType insert_entry,
        if learn_info.tnl_info.local_ip.family = AF_INET6 ∧
            learn_info.tnl_info.remote_ip.family = AF_INET6 then
          PrepareL2ToTunnelV6 env TableEntry.fresh learn_info p4info insert_entry
        else PrepareL2ToTunnelV4 env TableEntry.fresh learn_info p4info insert_entry⟩] ∧
    (ConfigFdbTxVlanTableEntry env t tr session learn_info p4info insert_entry).2.log =
      session.log ++ [Request.write ⟨SetupType insert_entry,
        PrepareFdbTxVlanTableEntry env t TableEntry.fresh learn_info p4info insert_entry⟩] ∧
    (ConfigFdbRxVlanTableEntry env t tr session learn_info p4info insert_entry).2.log =
      session.log ++ [Request.write ⟨SetupType insert_entry,
        PrepareFdbRxVlanTableEntry env t TableEntry.fresh learn_info p4info insert_entry⟩] ∧
    (ConfigFdbTunnelTableEntry env t tr session learn_info p4info insert_entry).2.log =
      session.log ++ [Request.write ⟨SetupType insert_entry,
        PrepareFdbTableEntryforV4Tunnel env t TableEntry.fresh learn_info p4info
          insert_entry⟩] ∧
    (ConfigEncapTableEntry env t tr session tunnel_info p4info insert_entry).2.log =
      session.log ++ [Request.write ⟨SetupType insert_entry,
        ConfigEncapTableEntry.entry env t tunnel_info p4info insert_entry⟩] ∧
    (ConfigDecapTableEntry env tr session tunnel_info p4info insert_entry).2.log =
      session.log ++ [Request.write ⟨SetupType insert_entry,
        ConfigDecapTableEntry.entry env tunnel_info p4info insert_entry⟩] ∧
    (ConfigTunnelTermTableEntry env t tr session tunnel_info p4info insert_entry).2.log =
      session.log ++ [Request.write ⟨SetupType insert_entry,
        ConfigTunnelTermTableEntry.entry env t tunnel_info p4info insert_entry⟩] ∧
    (ConfigRxTunnelSrcPortTableEntry env tr session tunnel_info p4info insert_entry).2.log =
      session.log ++ [Request.write ⟨SetupType insert_entry,
        ConfigRxTunnelSrcPortTableEntry.entry env tunnel_info p4info insert_entry⟩] ∧
    (ConfigureVsiSrcPortTableEntry env tr session sp p4info insert_entry).2.log =
      session.log ++ [Request.write ⟨SetupType insert_entry,
        PrepareSrcPortTableEntry env TableEntry.fresh sp p4info insert_entry⟩] ∧
    (ConfigVlanPopTableEntry env tr session vlan_id p4info insert_entry).1 =
      (tr.SendWriteRequest session.dev ⟨SetupType insert_entry,
        PrepareVlanPopTableEntry env TableEntry.fresh vlan_id p4info insert_entry⟩).1 ∧
    (ConfigFdbSmacTableEntry env tr session learn_info p4info insert_entry).1 =
      (tr.SendWriteRequest session.dev ⟨SetupType insert_entry,
        PrepareFdbSmacTableEntry env TableEntry.fresh learn_info p4info insert_entry⟩).1 ∧
    (ConfigL2TunnelTableEntry env tr session learn_info p4info insert_entry).1 =
      (tr.SendWriteRequest session.dev ⟨SetupType insert_entry,
        if learn_info.tnl_info.local_ip.family = AF_INET6 ∧
            learn_info.tnl_info.remote_ip.family = AF_INET6 then
          PrepareL2ToTunnelV6 env TableEntry.fresh learn_info p4info insert_entry
        else PrepareL2ToTunnelV4 env TableEntry.fresh learn_info p4info insert_entry⟩).1 ∧
    (ConfigFdbTxVlanTableEntry env t tr session learn_info p4info insert_entry).1 =
      (tr.SendWriteRequest session.dev ⟨SetupType insert_entry,
        PrepareFdbTxVlanTableEntry env t TableEntry.fresh learn_info p4info
          insert_entry⟩).1 ∧
    (ConfigFdbRxVlanTableEntry env t tr session learn_info p4info insert_entry).1 =
      (tr.SendWriteRequest session.dev ⟨SetupType insert_entry,
        PrepareFdbRxVlanTableEntry env t TableEntry.fresh learn_info p4info
          insert_entry⟩).1 ∧
    (ConfigFdbTunnelTableEntry env t tr session learn_info p4info insert_entry).1 =
      (tr.SendWriteRequest session.dev ⟨SetupType insert_entry,
        PrepareFdbTableEntryforV4Tunnel env t TableEntry.fresh learn_info p4info
          insert_entry⟩).1 ∧
    (ConfigEncapTableEntry env t tr session tunnel_info p4info insert_entry).1 =
      (tr.SendWriteRequest session.dev ⟨SetupType insert_entry,
        ConfigEncapTableEntry.entry env t tunnel_info p4info insert_entry⟩).1 ∧
    (ConfigDecapTableEntry env tr session tunnel_info p4info insert_entry).1 =
      (tr.SendWriteRequest session.dev ⟨SetupType insert_entry,
        ConfigDecapTableEntry.entry env tunnel_info p4info insert_entry⟩).1 ∧
    (ConfigTunnelTermTableEntry env t tr session tunnel_info p4info insert_entry).1 =
      (tr.SendWriteRequest session.dev ⟨SetupType insert_entry,
        ConfigTunnelTermTableEntry.entry env t tunnel_info p4info insert_entry⟩).1 ∧
    (ConfigRxTunnelSrcPortTableEntry env tr session tunnel_info p4info insert_entry).1 =
      (tr.SendWriteRequest session.dev ⟨SetupType insert_entry,
        ConfigRxTunnelSrcPortTableEntry.entry env tunnel_info p4info insert_entry⟩).1 ∧
    (ConfigureVsiSrcPortTableEntry env tr session sp p4info insert_entry).1 =
      (tr.SendWriteRequest session.dev ⟨SetupType insert_entry,
        PrepareSrcPortTableEntry env TableEntry.fresh sp p4info insert_entry⟩).1 := by
  refine ⟨?_, ?_, ?_, ?_, rfl, rfl, rfl, rfl, rfl, rfl, rfl, rfl, rfl, rfl, rfl, rfl, rfl, rfl,
    rfl, rfl, rfl, rfl, rfl, rfl, rfl, rfl, rfl, rfl⟩
  · intro h
    cases insert_entry <;> simp [PrepareVlanPushTableEntry, set_table_id, add_exact,
      mutable_action, set_action_id, add_param, h, toU32]
  · intro h
    cases insert_entry <;> simp [PrepareVlanPushTableEntry, set_table_id, add_exact,
      mutable_action, set_action_id, add_param, TableEntry.fresh, h, toU32]
  · intro h
    simp [PrepareVlanPushTableEntry, set_table_id, add_exact, mutable_action, set_action_id,
      add_param, the_action, TableEntry.fresh, h, toU32]
  · intro h
    simp [PrepareVlanPushTableEntry, set_table_id, add_exact, mutable_action, set_action_id,
      add_param, the_action, TableEntry.fresh, h, toU32]

/-- Witness for C6: the empty schema, in which the four names do not
resolve. -/
theorem C6_unresolved_names_are_sent_witness :
    GetTableId ⟨[], []⟩ (sample_env.nm Name.VLAN_PUSH_MOD_TABLE) = -1 ∧
    (PrepareVlanPushTableEntry sample_env TableEntry.fresh 5 ⟨[], []⟩ true).table_id
      = 4294967295 ∧
    (PrepareVlanPushTableEntry sample_env TableEntry.fresh 5 ⟨[], []⟩ true).match_
      = [⟨4294967295, FieldMatchType.exact (EncodeByteValue 1 [((5 : Nat) : Int)])⟩] ∧
    (PrepareVlanPushTableEntry sample_env TableEntry.fresh 5 ⟨[], []⟩ true).action.map
      (fun a => a.action_id) = some 4294967295 ∧
    ((the_action (PrepareVlanPushTableEntry sample_env TableEntry.fresh 5 ⟨[], []⟩
      true)).params.map (fun p => p.param_id)).getLast? = some 4294967295 :=
  ⟨rfl,
    (C6_unresolved_names_are_sent sample_env Target.ES2K transport_no_schema ⟨(), []⟩
      (sample_learn false) sample_tunnel 5 ⟨1, 5, 20⟩ ⟨[], []⟩ true).1 rfl,
    (C6_unresolved_names_are_sent sample_env Target.ES2K transport_no_schema ⟨(), []⟩
      (sample_learn false) sample_tunnel 5 ⟨1, 5, 20⟩ ⟨[], []⟩ true).2.1 rfl,
    (C6_unresolved_names_are_sent sample_env Target.ES2K transport_no_schema ⟨(), []⟩
      (sample_learn false) sample_tunnel 5 ⟨1, 5, 20⟩ ⟨[], []⟩ true).2.2.1 rfl,
    (C6_unresolved_names_are_sent sample_env Target.ES2K transport_no_schema ⟨(), []⟩
      (sample_learn false) sample_tunnel 5 ⟨1, 5, 20⟩ ⟨[], []⟩ true).2.2.2.1 rfl⟩

/-- C7 counterexample: on ES2K, over a transport on which every write fails,
`ConfigTunnelTableEntry` issues the encapsulation write and nothing else; the
decapsulation and termination writes are not attempted. -/
theorem C7_counterexample :
    connects transport_write_fails () ∧
    (ConfigTunnelTableEntry sample_env Target.ES2K transport_write_fails () sample_tunnel
      true).log
      = [Request.write ⟨UpdateType.INSERT,
          ConfigEncapTableEntry.entry sample_env Target.ES2K sample_tunnel sample_p4info
            true⟩] :=
  ⟨⟨rfl, rfl⟩, by decide⟩

/-- C7 (amended): with session and schema obtained, `ConfigTunnelTableEntry`
issues the encapsulation write, then the decapsulation write (ES2K only),
then the termination write, and stops at the first write whose status is not
OK: each later write is attempted exactly when every earlier one
succeeded. -/
theorem C7_tunnel_writes_stop_at_first_failure (env : Env) (t : Target) (tr : Transport σ)
    (d : σ) (tunnel_info : tunnel_info) (insert_entry : Bool) (hconn : connects tr d) :
    (ConfigTunnelTableEntry env t tr d tunnel_info insert_entry).log =
      Request.write ⟨SetupType insert_entry,
          ConfigEncapTableEntry.entry env t tunnel_info (schema tr d) insert_entry⟩ ::
        (if (ConfigEncapTableEntry env t tr (connected tr d) tunnel_info (schema tr d)
            insert_entry).1.ok = true then
          match t with
          | Target.ES2K =>
            Request.write ⟨SetupType insert_entry,
                ConfigDecapTableEntry.entry env tunnel_info (schema tr d) insert_entry⟩ ::
              (if (ConfigDecapTableEntry env tr
                  (ConfigEncapTableEntry env t tr (connected tr d) tunnel_info (schema tr d)
                    insert_entry).2
                  tunnel_info (schema tr d) insert_entry).1.ok = true then
                [Request.write ⟨SetupType insert_entry,
                  ConfigTunnelTermTableEntry.entry env Target.ES2K tunnel_info (schema tr d)
                    insert_entry⟩]
              else [])
          | Target.DPDK =>
            [Request.write ⟨SetupType insert_entry,
              ConfigTunnelTermTableEntry.entry env Target.DPDK tunnel_info (schema tr d)
                insert_entry⟩]
        else []) := by
  rw [ConfigTunnelTableEntry_connected env t tr d tunnel_info insert_entry hconn]
  cases t
  · by_cases h1 : (ConfigEncapTableEntry env Target.DPDK tr (connected tr d) tunnel_info
        (schema tr d) insert_entry).1.ok = true
    · simp [ConfigTunnelTableEntry.program, h1]
      simp [ConfigEncapTableEntry, ConfigTunnelTermTableEntry, SendWriteRequest_log,
        connected_log]
    · simp [ConfigTunnelTableEntry.program, h1]
      simp [ConfigEncapTableEntry, SendWriteRequest_log, connected_log]
  · by_cases h1 : (ConfigEncapTableEntry env Target.ES2K tr (connected tr d) tunnel_info
        (schema tr d) insert_entry).1.ok = true
    · by_cases h2 : (ConfigDecapTableEntry env tr
          (ConfigEncapTableEntry env Target.ES2K tr (connected tr d) tunnel_info (schema tr d)
            insert_entry).2 tunnel_info (schema tr d) insert_entry).1.ok = true
      · simp [ConfigTunnelTableEntry.program, h1, h2]
        simp [ConfigEncapTableEntry, ConfigDecapTableEntry, ConfigTunnelTermTableEntry,
          SendWriteRequest_log, connected_log]
      · simp [ConfigTunnelTableEntry.program, h1, h2]
        simp [ConfigEncapTableEntry, ConfigDecapTableEntry, SendWriteRequest_log,
          connected_log]
    · simp [ConfigTunnelTableEntry.program, h1]
      simp [ConfigEncapTableEntry, SendWriteRequest_log, connected_log]


/-- Witness for C7 (amended): the sample tunnel on ES2K over a transport on
which every write succeeds; all three writes are issued. -/
theorem C7_tunnel_writes_stop_at_first_failure_witness :
    connects transport_absent () ∧
    (ConfigTunnelTableEntry sample_env Target.ES2K transport_absent () sample_tunnel
      false).log =
      [Request.write ⟨UpdateType.DELETE,
          ConfigEncapTableEntry.entry sample_env Target.ES2K sample_tunnel sample_p4info
            false⟩,
        Request.write ⟨UpdateType.DELETE,
          ConfigDecapTableEntry.entry sample_env sample_tunnel sample_p4info false⟩,
        Request.write ⟨UpdateType.DELETE,
          ConfigTunnelTermTableEntry.entry sample_env Target.ES2K sample_tunnel sample_p4info
            false⟩] :=
  ⟨⟨rfl, rfl⟩,
    C7_tunnel_writes_stop_at_first_failure sample_env Target.ES2K transport_absent ()
      sample_tunnel false ⟨rfl, rfl⟩⟩

/-- C8: on ES2K, with session and schema obtained, once the reconciliation
reads are passed `ConfigFdbTableEntry` issues exactly three writes, whatever
the transport answers to each. Insert, tunnel-classified, existence read
failed: tunnel forwarding entry, L2-to-tunnel entry, source-MAC entry. Insert,
not tunnel-classified, existence read failed, mapping read succeeded and the
port recovered: TX forwarding entry, RX forwarding entry, source-MAC entry,
built with the recovered port. Delete: the tunnel three when the event is
tunnel-classified after the two reads, the TX/RX/source-MAC three
otherwise. -/
theorem C8_fdb_three_writes (env : Env) (tr : Transport σ) (d : σ)
    (learn_info : mac_learning_info) (hconn : connects tr d) :
    (learn_info.is_tunnel = true →
      (GetFdbTunnelTableEntry env tr (connected tr d) learn_info (schema tr d)).1 = none →
      (ConfigFdbTableEntry env Target.ES2K tr d learn_info true).map (fun s => writes s.log) =
        some [⟨UpdateType.INSERT,
            PrepareFdbTableEntryforV4Tunnel env Target.ES2K TableEntry.fresh learn_info
              (schema tr d) true⟩,
          ⟨UpdateType.INSERT,
            if learn_info.tnl_info.local_ip.family = AF_INET6 ∧
                learn_info.tnl_info.remote_ip.family = AF_INET6 then
              PrepareL2ToTunnelV6 env TableEntry.fresh learn_info (schema tr d) true
            else PrepareL2ToTunnelV4 env TableEntry.fresh learn_info (schema tr d) true⟩,
          ⟨UpdateType.INSERT,
            PrepareFdbSmacTableEntry env TableEntry.fresh learn_info (schema tr d) true⟩]) ∧
    (learn_info.is_tunnel = false →
      (GetFdbVlanTableEntry env tr (connected tr d) learn_info (schema tr d)).1 = none →
      ∀ (read_response : ReadResponse) (host_sp : Nat),
      (GetTxAccVsiTableEntry env tr
        (GetFdbVlanTableEntry env tr (connected tr d) learn_info (schema tr d)).2
        learn_info.src_port (schema tr d)).1 = some read_response →
      host_sp_of env (schema tr d) read_response = some host_sp →
      (ConfigFdbTableEntry env Target.ES2K tr d learn_info true).map (fun s => writes s.log) =
        some [⟨UpdateType.INSERT,
            PrepareFdbTxVlanTableEntry env Target.ES2K TableEntry.fresh
              { learn_info with src_port := host_sp } (schema tr d) true⟩,
          ⟨UpdateType.INSERT,
            PrepareFdbRxVlanTableEntry env Target.ES2K TableEntry.fresh
              { learn_info with src_port := host_sp } (schema tr d) true⟩,
          ⟨UpdateType.INSERT,
            PrepareFdbSmacTableEntry env TableEntry.fresh
              { learn_info with src_port := host_sp } (schema tr d) true⟩]) ∧
    ((ConfigFdbTableEntry env Target.ES2K tr d learn_info false).map (fun s => writes s.log) =
      some (if (ConfigFdbTableEntry.classify env tr (connected tr d) learn_info (schema tr d)
          false).1.is_tunnel = true then
        [⟨UpdateType.DELETE,
            PrepareFdbTableEntryforV4Tunnel env Target.ES2K TableEntry.fresh learn_info
              (schema tr d) false⟩,
          ⟨UpdateType.DELETE,
            if learn_info.tnl_info.local_ip.family = AF_INET6 ∧
                learn_info.tnl_info.remote_ip.family = AF_INET6 then
              PrepareL2ToTunnelV6 env TableEntry.fresh learn_info (schema tr d) false
            else PrepareL2ToTunnelV4 env TableEntry.fresh learn_info (schema tr d) false⟩,
          ⟨UpdateType.DELETE,
            PrepareFdbSmacTableEntry env TableEntry.fresh learn_info (schema tr d) false⟩]
      else
        [⟨UpdateType.DELETE,
            PrepareFdbTxVlanTableEntry env Target.ES2K TableEntry.fresh learn_info
              (schema tr d) false⟩,
          ⟨UpdateType.DELETE,
            PrepareFdbRxVlanTableEntry env Target.ES2K TableEntry.fresh learn_info
              (schema tr d) false⟩,
          ⟨UpdateType.DELETE,
            PrepareFdbSmacTableEntry env TableEntry.fresh learn_info (schema tr d) false⟩])) := by
  refine ⟨?_, ?_, ?_⟩
  · intro ht hr
    rw [ConfigFdbTableEntry_connected env tr d learn_info true hconn]
    simp only [ConfigFdbTableEntry.classify, ConfigFdbTableEntry.program, ht, hr, if_true,
      Option.isSome_none, Bool.false_eq_true, if_false, Option.map_some', tunnel_writes_log]
    simp [GetFdbTunnelTableEntry, SendReadRequest_log, connected_log, writes_append, writes,
      SetupType]
  · intro ht hr read_response host_sp hm hs
    rw [ConfigFdbTableEntry_connected env tr d learn_info true hconn]
    simp only [ConfigFdbTableEntry.classify, ConfigFdbTableEntry.program, ht, hr, hm, hs,
      if_true, Option.isSome_none, Bool.false_eq_true, if_false, Option.map_some',
      vlan_writes_log]
    simp [GetTxAccVsiTableEntry, GetFdbVlanTableEntry, SendReadRequest_log, connected_log,
      writes_append, writes, SetupType]
  · rw [ConfigFdbTableEntry_connected env tr d learn_info false hconn]
    cases ht : (ConfigFdbTableEntry.classify env tr (connected tr d) learn_info (schema tr d)
        false).1.is_tunnel
    · simp only [ConfigFdbTableEntry.program, ht, Bool.false_eq_true, if_false,
        Option.map_some', vlan_writes_log, classify_delete_log, connected_log, writes_append]
      rw [classify_delete_fst]
      simp [writes, SetupType]
      exact ⟨rfl, rfl, rfl⟩
    · simp only [ConfigFdbTableEntry.program, ht, if_true, Bool.false_eq_true, if_false,
        Option.map_some', tunnel_writes_log, classify_delete_log, connected_log, writes_append]
      rw [classify_delete_fst]
      simp [writes, SetupType]
      refine ⟨rfl, ?_, rfl⟩
      split <;> rfl

/-- Witness for C8: a tunnel insert whose existence read fails, a plain insert
whose existence read fails and whose mapping read returns port 7, and a plain
delete. -/
theorem C8_fdb_three_writes_witness :
    connects transport_absent () ∧ connects transport_mapping () ∧
    (GetFdbTunnelTableEntry sample_env transport_absent (connected transport_absent ())
      (sample_learn true) (schema transport_absent ())).1 = none ∧
    host_sp_of sample_env (schema transport_mapping ()) sample_mapping_response = some 7 ∧
    (ConfigFdbTableEntry sample_env Target.ES2K transport_absent () (sample_learn true)
      true).map (fun s => writes s.log) =
      some [⟨UpdateType.INSERT,
          ⟨1001, [⟨1, FieldMatchType.exact [0, 17, 34, 51, 68, 85]⟩,
            ⟨2, FieldMatchType.exact [1]⟩, ⟨3, FieldMatchType.exact [1]⟩],
            some ⟨4294967295, [⟨4294967295, [100]⟩]⟩, 0⟩⟩,
        ⟨UpdateType.INSERT,
          ⟨1006, [⟨1, FieldMatchType.exact [0, 17, 34, 51, 68, 85]⟩],
            some ⟨4294967295, [⟨4294967295, [10, 0, 0, 2]⟩]⟩, 0⟩⟩,
        ⟨UpdateType.INSERT,
          ⟨1003, [⟨1, FieldMatchType.ternary [0, 17, 34, 51, 68, 85]
            [255, 255, 255, 255, 255, 255]⟩], some ⟨2002, []⟩, 1⟩⟩] ∧
    (ConfigFdbTableEntry sample_env Target.ES2K transport_mapping () (sample_learn false)
      true).map (fun s => writes s.log) =
      some [⟨UpdateType.INSERT,
          ⟨1001, [⟨1, FieldMatchType.exact [0, 17, 34, 51, 68, 85]⟩,
            ⟨2, FieldMatchType.exact [1]⟩, ⟨3, FieldMatchType.exact [1]⟩],
            some ⟨2001, [⟨1, [7]⟩]⟩, 0⟩⟩,
        ⟨UpdateType.INSERT,
          ⟨1002, [⟨1, FieldMatchType.exact [0, 17, 34, 51, 68, 85]⟩,
            ⟨2, FieldMatchType.exact [1]⟩, ⟨3, FieldMatchType.exact [1]⟩],
            some ⟨2001, [⟨1, [7]⟩]⟩, 0⟩⟩,
        ⟨UpdateType.INSERT,
          ⟨1003, [⟨1, FieldMatchType.ternary [0, 17, 34, 51, 68, 85]
            [255, 255, 255, 255, 255, 255]⟩], some ⟨2002, []⟩, 1⟩⟩] ∧
    (ConfigFdbTableEntry sample_env Target.ES2K transport_absent () (sample_learn false)
      false).map (fun s => writes s.log) =
      some [⟨UpdateType.DELETE,
          ⟨1001, [⟨1, FieldMatchType.exact [0, 17, 34, 51, 68, 85]⟩,
            ⟨2, FieldMatchType.exact [1]⟩, ⟨3, FieldMatchType.exact [1]⟩], none, 0⟩⟩,
        ⟨UpdateType.DELETE,
          ⟨1002, [⟨1, FieldMatchType.exact [0, 17, 34, 51, 68, 85]⟩,
            ⟨2, FieldMatchType.exact [1]⟩, ⟨3, FieldMatchType.exact [1]⟩], none, 0⟩⟩,
        ⟨UpdateType.DELETE,
          ⟨1003, [⟨1, FieldMatchType.ternary [0, 17, 34, 51, 68, 85]
            [255, 255, 255, 255, 255, 255]⟩], none, 1⟩⟩] :=
  ⟨⟨rfl, rfl⟩, ⟨rfl, rfl⟩, rfl, rfl,
    (C8_fdb_three_writes sample_env transport_absent () (sample_learn true)
      ⟨rfl, rfl⟩).1 rfl rfl,
    (C8_fdb_three_writes sample_env transport_mapping () (sample_learn false)
      ⟨rfl, rfl⟩).2.1 rfl rfl sample_mapping_response 7 rfl rfl,
    (C8_fdb_three_writes sample_env transport_absent () (sample_learn false)
      ⟨rfl, rfl⟩).2.2⟩

end

/-! ### Round trips of the value codec -/

/-- C9 (behaviour of the code): where plain `char` is signed, the recovery
loop applied to the four-byte big-endian encoding of 128 yields 4294967168
(0xFFFFFF80), not 128: the byte 0x80 is sign-extended by `int(...)` and the
`|` sets the upper 24 bits. -/
theorem C9_port_decode_sign_extends :
    be32 128 = [0, 0, 0, 128] ∧ sample_env.char_is_signed = true ∧
    host_sp_bytes sample_env (be32 128) 0 = some 4294967168 := by
  decide

/-- C10 counterexample: for VNI 256, inside the 24-bit range, the match key
and the VNI parameter built by `PrepareEncapTableEntry` are the single byte 0,
which reads back as 0. -/
theorem C10_counterexample :
    exact_values (PrepareEncapTableEntry sample_env Target.ES2K TableEntry.fresh
      sample_vni256_tunnel sample_p4info true) = [[0]] ∧
    (param_values (PrepareEncapTableEntry sample_env Target.ES2K TableEntry.fresh
      sample_vni256_tunnel sample_p4info true)).getLast? = some [0] ∧
    sample_vni256_tunnel.vni = 256 ∧ sample_vni256_tunnel.vni < 16777216 ∧
    be_decode [0] ≠ sample_vni256_tunnel.vni := by
  decide

/-- C10 (amended): for every VNI in 0 .. 255, the byte string
`EncodeByteValue(1, vni)` reads back as the VNI, and so do the VNI match keys
and the VNI / tunnel-id action parameters that the tunnel builders emit. -/
theorem C10_vni_roundtrip_below_256 (env : Env) (t : Target) (tunnel_info : tunnel_info)
    (learn_info : mac_learning_info) (p4info : P4Info) (insert_entry : Bool)
    (h : tunnel_info.vni < 256) (hl : learn_info.tnl_info.vni < 256) :
    be_decode (EncodeByteValue 1 [(tunnel_info.vni : Int)]) = tunnel_info.vni ∧
    (exact_values (PrepareEncapTableEntry env t TableEntry.fresh tunnel_info p4info
      insert_entry)).map be_decode = [tunnel_info.vni] ∧
    (param_values (PrepareEncapTableEntry env t TableEntry.fresh tunnel_info p4info
      true)).getLast?.map be_decode = some tunnel_info.vni ∧
    (exact_values (PrepareV6EncapTableEntry env TableEntry.fresh tunnel_info p4info
      insert_entry)).map be_decode = [tunnel_info.vni] ∧
    (param_values (PrepareV6EncapTableEntry env TableEntry.fresh tunnel_info p4info
      true)).getLast?.map be_decode = some tunnel_info.vni ∧
    (exact_values (PrepareEncapAndVlanPopTableEntry env TableEntry.fresh tunnel_info p4info
      insert_entry)).map be_decode = [tunnel_info.vni] ∧
    (param_values (PrepareEncapAndVlanPopTableEntry env TableEntry.fresh tunnel_info p4info
      true)).getLast?.map be_decode = some tunnel_info.vni ∧
    (exact_values (PrepareV6EncapAndVlanPopTableEntry env TableEntry.fresh tunnel_info p4info
      insert_entry)).map be_decode = [tunnel_info.vni] ∧
    (param_values (PrepareV6EncapAndVlanPopTableEntry env TableEntry.fresh tunnel_info p4info
      true)).getLast?.map be_decode = some tunnel_info.vni ∧
    (exact_values (PrepareDecapModTableEntry env TableEntry.fresh tunnel_info p4info
      insert_entry)).map be_decode = [tunnel_info.vni] ∧
    (exact_values (PrepareDecapModAndVlanPushTableEntry env TableEntry.fresh tunnel_info p4info
      insert_entry)).map be_decode = [tunnel_info.vni] ∧
    (exact_values (PrepareTunnelTermTableEntry env Target.ES2K TableEntry.fresh tunnel_info
      p4info insert_entry)).getLast?.map be_decode = some tunnel_info.vni ∧
    (param_values (PrepareTunnelTermTableEntry env t TableEntry.fresh tunnel_info p4info
      true)).map be_decode = [tunnel_info.vni] ∧
    (exact_values (PrepareV6TunnelTermTableEntry env TableEntry.fresh tunnel_info p4info
      insert_entry)).getLast?.map be_decode = some tunnel_info.vni ∧
    (param_values (PrepareV6TunnelTermTableEntry env TableEntry.fresh tunnel_info p4info
      true)).map be_decode = [tunnel_info.vni] ∧
    (param_values (PrepareFdbTableEntryforV4Tunnel env Target.DPDK TableEntry.fresh learn_info
      p4info true)).head?.map be_decode = some learn_info.tnl_info.vni := by
  have key : be_decode (EncodeByteValue 1 [(tunnel_info.vni : Int)]) = tunnel_info.vni := by
    rw [be_decode_one_byte, Nat.mod_eq_of_lt h]
  have keyl : be_decode (EncodeByteValue 1 [(learn_info.tnl_info.vni : Int)])
      = learn_info.tnl_info.vni := by
    rw [be_decode_one_byte, Nat.mod_eq_of_lt hl]
  refine ⟨key, ?_, ?_, ?_, ?_, ?_, ?_, ?_, ?_, ?_, ?_, ?_, ?_, ?_, ?_, ?_⟩
  all_goals
    by_cases hm : tunnel_info.vlan_info.port_vlan_mode = env.P4_PORT_VLAN_NATIVE_UNTAGGED <;>
    cases t <;> cases insert_entry <;>
      simp [exact_values, param_values, the_action, PrepareEncapTableEntry,
        PrepareV6EncapTableEntry, PrepareEncapAndVlanPopTableEntry,
        PrepareV6EncapAndVlanPopTableEntry, PrepareDecapModTableEntry,
        PrepareDecapModAndVlanPushTableEntry, PrepareTunnelTermTableEntry,
        PrepareV6TunnelTermTableEntry, PrepareFdbTableEntryforV4Tunnel, add_exact,
        set_table_id, mutable_action, set_action_id, add_param, TableEntry.fresh, key, keyl,
        hm]


/-- Witness for C10 (amended): the sample tunnel, VNI 100. -/
theorem C10_vni_roundtrip_below_256_witness :
    sample_tunnel.vni = 100 ∧
    be_decode (EncodeByteValue 1 [(sample_tunnel.vni : Int)]) = sample_tunnel.vni ∧
    (exact_values (PrepareEncapTableEntry sample_env Target.ES2K TableEntry.fresh
      sample_tunnel sample_p4info true)).map be_decode = [sample_tunnel.vni] :=
  ⟨rfl,
    (C10_vni_roundtrip_below_256 sample_env Target.ES2K sample_tunnel (sample_learn true)
      sample_p4info true (by decide) (by decide)).1,
    (C10_vni_roundtrip_below_256 sample_env Target.ES2K sample_tunnel (sample_learn true)
      sample_p4info true (by decide) (by decide)).2.1⟩

/-! ### Value codec -/

theorem EncodeByteValue_length_args (args : List Int) :
    EncodeByteValue args.length args = args.map fun a => (a % 256).toNat := by
  induction args with
  | nil => rfl
  | cons a rest ih =>
    simp only [List.length_cons, EncodeByteValue, List.map_cons, ih]
    rfl

/-- C11: called with a byte count and that many integer arguments,
`EncodeByteValue` returns a string of exactly that length whose i-th byte is
the i-th argument modulo 256, in argument order. -/
theorem C11_EncodeByteValue_bytes (args : List Int) :
    (EncodeByteValue args.length args).length = args.length ∧
    EncodeByteValue args.length args = args.map (fun a => (a % 256).toNat) ∧
    (∀ i : Fin args.length,
      (EncodeByteValue args.length args)[i.val]? = some ((args.get i % 256).toNat)) ∧
    (∀ b ∈ EncodeByteValue args.length args, b < 256) := by
  rw [EncodeByteValue_length_args]
  refine ⟨by simp, rfl, ?_, ?_⟩
  · intro i
    simp [List.getElem?_map, List.getElem?_eq_getElem i.isLt]
  · intro b hb
    obtain ⟨a, -, rfl⟩ := List.mem_map.mp hb
    omega

theorem CanonicalizeIp_eq (a : Nat) :
    CanonicalizeIp a = [a % 256, a / 256 % 256, a / 65536 % 256, a / 16777216 % 256] := by
  have h : ∀ x : Nat, x &&& 0xff = x % 256 := fun x => Nat.and_pow_two_sub_one_eq_mod x 8
  simp only [CanonicalizeIp, EncodeByteValue, toU8_natCast, h, Nat.shiftRight_eq_div_pow,
    Nat.mod_mod]

/-- C12 counterexample: for a = 0x0A000001 the first byte of
`CanonicalizeIp(a)` is 1, the least significant byte of a, and the last byte
is 10, the most significant one. -/
theorem C12_counterexample :
    CanonicalizeIp 167772161 = [1, 0, 0, 10] ∧
    167772161 / 16777216 % 256 = 10 ∧ 167772161 % 256 = 1 ∧
    (CanonicalizeIp 167772161).head? ≠ some (167772161 / 16777216 % 256) := by
  decide

/-- C12 (amended): `CanonicalizeIp(a)` is the four-byte string that holds a
least significant byte first: byte i is bits 8i .. 8i+7 of a. -/
theorem C12_CanonicalizeIp_low_byte_first (a : Nat) :
    CanonicalizeIp a = [a % 256, a / 256 % 256, a / 65536 % 256, a / 16777216 % 256] ∧
    (CanonicalizeIp a).head? = some (a % 256) ∧
    (CanonicalizeIp a).getLast? = some (a / 16777216 % 256) := by
  rw [CanonicalizeIp_eq]
  exact ⟨rfl, rfl, rfl⟩

/-- C13: for every 32-bit a, `CanonicalizeIp(a)` has length 4, a is
`b0 + 2^8*b1 + 2^16*b2 + 2^24*b3` of its bytes, and two 32-bit values with
the same encoding are equal. -/
theorem C13_CanonicalizeIp_injective (a b : Nat) (ha : a < 4294967296)
    (hb : b < 4294967296) :
    (CanonicalizeIp a).length = 4 ∧ le_decode (CanonicalizeIp a) = a ∧
    (CanonicalizeIp a = CanonicalizeIp b → a = b) := by
  have hd : ∀ x : Nat, x < 4294967296 → le_decode (CanonicalizeIp x) = x := by
    intro x hx
    rw [CanonicalizeIp_eq]
    simp only [le_decode, List.foldr]
    omega
  refine ⟨by rw [CanonicalizeIp_eq]; rfl, hd a ha, ?_⟩
  intro h
  rw [← hd a ha, ← hd b hb, h]

/-- Witness for C13: the address 10.0.0.1 as an `s_addr` value. -/
theorem C13_CanonicalizeIp_injective_witness :
    (CanonicalizeIp 0x0100000a).length = 4 ∧
    le_decode (CanonicalizeIp 0x0100000a) = 0x0100000a :=
  ⟨(C13_CanonicalizeIp_injective 0x0100000a 0x0200000a (by decide) (by decide)).1,
    (C13_CanonicalizeIp_injective 0x0100000a 0x0200000a (by decide) (by decide)).2.1⟩

/-! ### Schema resolver -/

theorem toInt32_of_lt (n : Nat) (h : n < 2147483648) : toInt32 n = (n : Int) := by
  unfold toInt32
  split <;> omega

theorem toU32_toInt32 (n : Nat) : toU32 (toInt32 n) = n % 4294967296 := by
  unfold toU32 toInt32
  split <;> omega

theorem toInt32_ne_neg_one (n : Nat) (h : n < 2147483648) : toInt32 n ≠ -1 := by
  rw [toInt32_of_lt n h]
  omega

theorem GetTableId_loop_none (n : String) (l : List P4Table)
    (h : ∀ t ∈ l, t.preamble.name ≠ n) : GetTableId.loop n l = -1 := by
  induction l with
  | nil => rfl
  | cons t rest ih =>
    have h1 : t.preamble.name ≠ n := h t (List.mem_cons_self _ _)
    simp only [GetTableId.loop, h1, if_false]
    exact ih fun u hu => h u (List.mem_cons_of_mem _ hu)

theorem GetTableId_loop_first (n : String) (pre : List P4Table) (t : P4Table)
    (post : List P4Table) (hpre : ∀ u ∈ pre, u.preamble.name ≠ n)
    (ht : t.preamble.name = n) :
    GetTableId.loop n (pre ++ t :: post) = toInt32 t.preamble.id := by
  induction pre with
  | nil => simp only [List.nil_append, GetTableId.loop, ht, if_true]
  | cons u rest ih =>
    have h1 : u.preamble.name ≠ n := hpre u (List.mem_cons_self _ _)
    simp only [List.cons_append, GetTableId.loop, h1, if_false]
    exact ih fun w hw => hpre w (List.mem_cons_of_mem _ hw)

theorem GetActionId_loop_none (n : String) (l : List P4Action)
    (h : ∀ a ∈ l, a.preamble.name ≠ n) : GetActionId.loop n l = -1 := by
  induction l with
  | nil => rfl
  | cons t rest ih =>
    have h1 : t.preamble.name ≠ n := h t (List.mem_cons_self _ _)
    simp only [GetActionId.loop, h1, if_false]
    exact ih fun u hu => h u (List.mem_cons_of_mem _ hu)

theorem GetActionId_loop_first (n : String) (pre : List P4Action) (a : P4Action)
    (post : List P4Action) (hpre : ∀ u ∈ pre, u.preamble.name ≠ n)
    (ha : a.preamble.name = n) :
    GetActionId.loop n (pre ++ a :: post) = toInt32 a.preamble.id := by
  induction pre with
  | nil => simp only [List.nil_append, GetActionId.loop, ha, if_true]
  | cons u rest ih =>
    have h1 : u.preamble.name ≠ n := hpre u (List.mem_cons_self _ _)
    simp only [List.cons_append, GetActionId.loop, h1, if_false]
    exact ih fun w hw => hpre w (List.mem_cons_of_mem _ hw)

/-- C14: `GetTableId` returns -1 when no table has the name, and otherwise
the id of the first table, in schema order, that has it, as the `int` the
function returns: the id itself when it is below 2^31, and in every case the
value that converts back to the id in `uint32_t`. `GetActionId` does the same
over the actions. -/
theorem C14_GetTableId_first_match (p4info : P4Info) (name : String) :
    ((∀ t ∈ p4info.tables, t.preamble.name ≠ name) → GetTableId p4info name = -1) ∧
    (∀ (pre : List P4Table) (t : P4Table) (post : List P4Table),
      p4info.tables = pre ++ t :: post → (∀ u ∈ pre, u.preamble.name ≠ name) →
      t.preamble.name = name →
      GetTableId p4info name = toInt32 t.preamble.id ∧
      toU32 (GetTableId p4info name) = t.preamble.id % 4294967296 ∧
      (t.preamble.id < 2147483648 → GetTableId p4info name = (t.preamble.id : Int))) ∧
    ((∀ a ∈ p4info.actions, a.preamble.name ≠ name) → GetActionId p4info name = -1) ∧
    (∀ (pre : List P4Action) (a : P4Action) (post : List P4Action),
      p4info.actions = pre ++ a :: post → (∀ u ∈ pre, u.preamble.name ≠ name) →
      a.preamble.name = name →
      GetActionId p4info name = toInt32 a.preamble.id ∧
      toU32 (GetActionId p4info name) = a.preamble.id % 4294967296 ∧
      (a.preamble.id < 2147483648 → GetActionId p4info name = (a.preamble.id : Int))) := by
  refine ⟨GetTableId_loop_none name _, ?_, GetActionId_loop_none name _, ?_⟩
  · intro pre t post hl hpre ht
    have e : GetTableId p4info name = toInt32 t.preamble.id := by
      unfold GetTableId
      rw [hl]
      exact GetTableId_loop_first name pre t post hpre ht
    exact ⟨e, by rw [e, toU32_toInt32], fun h => by rw [e, toInt32_of_lt _ h]⟩
  · intro pre a post hl hpre ha
    have e : GetActionId p4info name = toInt32 a.preamble.id := by
      unfold GetActionId
      rw [hl]
      exact GetActionId_loop_first name pre a post hpre ha
    exact ⟨e, by rw [e, toU32_toInt32], fun h => by rw [e, toInt32_of_lt _ h]⟩

/-- Witness for C14: in the sample schema two tables and two actions carry
the same name; the first of each is returned, and an absent name gives -1. -/
theorem C14_GetTableId_first_match_witness :
    GetTableId sample_p4info_twice "none" = -1 ∧
    GetTableId sample_p4info_twice "t" = toInt32 11 ∧
    toU32 (GetTableId sample_p4info_twice "t") = 11 % 4294967296 ∧
    GetTableId sample_p4info_twice "t" = 11 ∧
    GetActionId sample_p4info_twice "none" = -1 ∧
    GetActionId sample_p4info_twice "a" = 21 :=
  ⟨(C14_GetTableId_first_match sample_p4info_twice "none").1 (by decide),
    ((C14_GetTableId_first_match sample_p4info_twice "t").2.1 [] ⟨⟨11, "t"⟩, [⟨5, "x"⟩]⟩
      [⟨⟨12, "t"⟩, [⟨7, "f"⟩]⟩] rfl (by decide) rfl).1,
    ((C14_GetTableId_first_match sample_p4info_twice "t").2.1 [] ⟨⟨11, "t"⟩, [⟨5, "x"⟩]⟩
      [⟨⟨12, "t"⟩, [⟨7, "f"⟩]⟩] rfl (by decide) rfl).2.1,
    ((C14_GetTableId_first_match sample_p4info_twice "t").2.1 [] ⟨⟨11, "t"⟩, [⟨5, "x"⟩]⟩
      [⟨⟨12, "t"⟩, [⟨7, "f"⟩]⟩] rfl (by decide) rfl).2.2 (by decide),
    (C14_GetTableId_first_match sample_p4info_twice "none").2.2.1 (by decide),
    ((C14_GetTableId_first_match sample_p4info_twice "a").2.2.2 [] ⟨⟨21, "a"⟩, [⟨5, "x"⟩]⟩
      [⟨⟨22, "a"⟩, [⟨7, "p"⟩]⟩] rfl (by decide) rfl).2.2 (by decide)⟩

theorem GetParamId_inner_none (p : String) (l : List P4Param)
    (h : ∀ q ∈ l, q.name ≠ p) : GetParamId.inner p l = none := by
  induction l with
  | nil => rfl
  | cons q rest ih =>
    have h1 : q.name ≠ p := h q (List.mem_cons_self _ _)
    simp only [GetParamId.inner, h1, if_false]
    exact ih fun u hu => h u (List.mem_cons_of_mem _ hu)

theorem GetParamId_inner_first (p : String) (pre : List P4Param) (q : P4Param)
    (post : List P4Param) (hpre : ∀ u ∈ pre, u.name ≠ p) (hq : q.name = p) :
    GetParamId.inner p (pre ++ q :: post) = some (toInt32 q.id) := by
  induction pre with
  | nil => simp only [List.nil_append, GetParamId.inner, hq, if_true]
  | cons u rest ih =>
    have h1 : u.name ≠ p := hpre u (List.mem_cons_self _ _)
    simp only [List.cons_append, GetParamId.inner, h1, if_false]
    exact ih fun w hw => hpre w (List.mem_cons_of_mem _ hw)

theorem GetParamId_inner_append (p : String) (l₁ l₂ : List P4Param) :
    GetParamId.inner p (l₁ ++ l₂) =
      match GetParamId.inner p l₁ with
      | some id => some id
      | none => GetParamId.inner p l₂ := by
  induction l₁ with
  | nil => rfl
  | cons q rest ih =>
    by_cases h : q.name = p
    · simp only [List.cons_append, GetParamId.inner, h, if_true]
    · simp only [List.cons_append, GetParamId.inner, h, if_false]
      exact ih

theorem GetParamId_loop_eq (a p : String) (l : List P4Action) :
    GetParamId.loop a p l =
      match GetParamId.inner p (params_of_actions_named a l) with
      | some id => id
      | none => -1 := by
  induction l with
  | nil => rfl
  | cons x rest ih =>
    by_cases h : x.preamble.name = a
    · simp only [GetParamId.loop, params_of_actions_named, h, ne_eq, not_true_eq_false,
        if_false, if_true, GetParamId_inner_append]
      cases hx : GetParamId.inner p x.params with
      | none => simp only [ih]
      | some id => rfl
    · simp only [GetParamId.loop, params_of_actions_named, h, ne_eq, not_false_eq_true,
        if_true, if_false, ih]

theorem GetMatchFieldId_inner_none (p : String) (l : List P4MatchField)
    (h : ∀ q ∈ l, q.name ≠ p) : GetMatchFieldId.inner p l = none := by
  induction l with
  | nil => rfl
  | cons q rest ih =>
    have h1 : q.name ≠ p := h q (List.mem_cons_self _ _)
    simp only [GetMatchFieldId.inner, h1, if_false]
    exact ih fun u hu => h u (List.mem_cons_of_mem _ hu)

theorem GetMatchFieldId_inner_first (p : String) (pre : List P4MatchField)
    (q : P4MatchField) (post : List P4MatchField) (hpre : ∀ u ∈ pre, u.name ≠ p)
    (hq : q.name = p) :
    GetMatchFieldId.inner p (pre ++ q :: post) = some (toInt32 q.id) := by
  induction pre with
  | nil => simp only [List.nil_append, GetMatchFieldId.inner, hq, if_true]
  | cons u rest ih =>
    have h1 : u.name ≠ p := hpre u (List.mem_cons_self _ _)
    simp only [List.cons_append, GetMatchFieldId.inner, h1, if_false]
    exact ih fun w hw => hpre w (List.mem_cons_of_mem _ hw)

theorem GetMatchFieldId_inner_append (p : String) (l₁ l₂ : List P4MatchField) :
    GetMatchFieldId.inner p (l₁ ++ l₂) =
      match GetMatchFieldId.inner p l₁ with
      | some id => some id
      | none => GetMatchFieldId.inner p l₂ := by
  induction l₁ with
  | nil => rfl
  | cons q rest ih =>
    by_cases h : q.name = p
    · simp only [List.cons_append, GetMatchFieldId.inner, h, if_true]
    · simp only [List.cons_append, GetMatchFieldId.inner, h, if_false]
      exact ih

theorem GetMatchFieldId_loop_eq (a p : String) (l : List P4Table) :
    GetMatchFieldId.loop a p l =
      match GetMatchFieldId.inner p (match_fields_of_tables_named a l) with
      | some id => id
      | none => -1 := by
  induction l with
  | nil => rfl
  | cons x rest ih =>
    by_cases h : x.preamble.name = a
    · simp only [GetMatchFieldId.loop, match_fields_of_tables_named, h, ne_eq,
        not_true_eq_false, if_false, if_true, GetMatchFieldId_inner_append]
      cases hx : GetMatchFieldId.inner p x.match_fields with
      | none => simp only [ih]
      | some id => rfl
    · simp only [GetMatchFieldId.loop, match_fields_of_tables_named, h, ne_eq,
        not_false_eq_true, if_true, if_false, ih]

theorem params_of_actions_named_nil (a : String) (l : List P4Action)
    (h : ∀ x ∈ l, x.preamble.name ≠ a) : params_of_actions_named a l = [] := by
  induction l with
  | nil => rfl
  | cons x rest ih =>
    have h1 : x.preamble.name ≠ a := h x (List.mem_cons_self _ _)
    simp only [params_of_actions_named, h1, if_false]
    exact ih fun u hu => h u (List.mem_cons_of_mem _ hu)

theorem match_fields_of_tables_named_nil (a : String) (l : List P4Table)
    (h : ∀ x ∈ l, x.preamble.name ≠ a) : match_fields_of_tables_named a l = [] := by
  induction l with
  | nil => rfl
  | cons x rest ih =>
    have h1 : x.preamble.name ≠ a := h x (List.mem_cons_self _ _)
    simp only [match_fields_of_tables_named, h1, if_false]
    exact ih fun u hu => h u (List.mem_cons_of_mem _ hu)

theorem mem_params_of_actions_named (a : String) (l : List P4Action) (q : P4Param) :
    q ∈ params_of_actions_named a l ↔ ∃ x ∈ l, x.preamble.name = a ∧ q ∈ x.params := by
  induction l with
  | nil => simp [params_of_actions_named]
  | cons x rest ih =>
    by_cases h : x.preamble.name = a
    · simp only [params_of_actions_named, h, if_true, List.mem_append, ih, List.mem_cons,
        exists_eq_or_imp, true_and]
    · simp only [params_of_actions_named, h, if_false, ih, List.mem_cons, exists_eq_or_imp,
        false_and, false_or]

theorem mem_match_fields_of_tables_named (a : String) (l : List P4Table)
    (q : P4MatchField) :
    q ∈ match_fields_of_tables_named a l ↔
      ∃ x ∈ l, x.preamble.name = a ∧ q ∈ x.match_fields := by
  induction l with
  | nil => simp [match_fields_of_tables_named]
  | cons x rest ih =>
    by_cases h : x.preamble.name = a
    · simp only [match_fields_of_tables_named, h, if_true, List.mem_append, ih,
        List.mem_cons, exists_eq_or_imp, true_and]
    · simp only [match_fields_of_tables_named, h, if_false, ih, List.mem_cons,
        exists_eq_or_imp, false_and, false_or]

/-- C15: `GetParamId` returns the id (as `int`) of the first parameter named
`p` in the sequence of the parameters of every action named `a`, taken in
schema order, so a first action named `a` that lacks `p` does not end the
scan; it returns -1 when no action named `a` has a parameter named `p`, in
particular when no action is named `a`. `GetMatchFieldId` does the same over
the tables and their match fields. -/
theorem C15_GetParamId_first_match (p4info : P4Info) (a p : String) :
    (∀ (pre : List P4Param) (q : P4Param) (post : List P4Param),
      params_of_actions_named a p4info.actions = pre ++ q :: post →
      (∀ u ∈ pre, u.name ≠ p) → q.name = p →
      GetParamId p4info a p = toInt32 q.id ∧
      toU32 (GetParamId p4info a p) = q.id % 4294967296 ∧
      (q.id < 2147483648 → GetParamId p4info a p = (q.id : Int))) ∧
    ((∀ x ∈ p4info.actions, x.preamble.name = a → ∀ q ∈ x.params, q.name ≠ p) →
      GetParamId p4info a p = -1) ∧
    ((∀ x ∈ p4info.actions, x.preamble.name ≠ a) → GetParamId p4info a p = -1) ∧
    (∀ (pre : List P4MatchField) (q : P4MatchField) (post : List P4MatchField),
      match_fields_of_tables_named a p4info.tables = pre ++ q :: post →
      (∀ u ∈ pre, u.name ≠ p) → q.name = p →
      GetMatchFieldId p4info a p = toInt32 q.id ∧
      toU32 (GetMatchFieldId p4info a p) = q.id % 4294967296 ∧
      (q.id < 2147483648 → GetMatchFieldId p4info a p = (q.id : Int))) ∧
    ((∀ x ∈ p4info.tables, x.preamble.name = a → ∀ q ∈ x.match_fields, q.name ≠ p) →
      GetMatchFieldId p4info a p = -1) ∧
    ((∀ x ∈ p4info.tables, x.preamble.name ≠ a) → GetMatchFieldId p4info a p = -1) := by
  refine ⟨?_, ?_, ?_, ?_, ?_, ?_⟩
  · intro pre q post hl hpre hq
    have e : GetParamId p4info a p = toInt32 q.id := by
      unfold GetParamId
      rw [GetParamId_loop_eq, hl, GetParamId_inner_first p pre q post hpre hq]
    exact ⟨e, by rw [e, toU32_toInt32], fun h => by rw [e, toInt32_of_lt _ h]⟩
  · intro h
    unfold GetParamId
    rw [GetParamId_loop_eq, GetParamId_inner_none]
    intro q hq
    obtain ⟨x, hx, hxa, hqx⟩ := (mem_params_of_actions_named a _ q).mp hq
    exact h x hx hxa q hqx
  · intro h
    unfold GetParamId
    rw [GetParamId_loop_eq, params_of_actions_named_nil a _ h]
    rfl
  · intro pre q post hl hpre hq
    have e : GetMatchFieldId p4info a p = toInt32 q.id := by
      unfold GetMatchFieldId
      rw [GetMatchFieldId_loop_eq, hl, GetMatchFieldId_inner_first p pre q post hpre hq]
    exact ⟨e, by rw [e, toU32_toInt32], fun h => by rw [e, toInt32_of_lt _ h]⟩
  · intro h
    unfold GetMatchFieldId
    rw [GetMatchFieldId_loop_eq, GetMatchFieldId_inner_none]
    intro q hq
    obtain ⟨x, hx, hxa, hqx⟩ := (mem_match_fields_of_tables_named a _ q).mp hq
    exact h x hx hxa q hqx
  · intro h
    unfold GetMatchFieldId
    rw [GetMatchFieldId_loop_eq, match_fields_of_tables_named_nil a _ h]
    rfl

/-- Witness for C15: in the sample schema the first action named "a" has no
parameter "p" and the second has it with id 7; likewise for the tables named
"t" and the match field "f". -/
theorem C15_GetParamId_first_match_witness :
    params_of_actions_named "a" sample_p4info_twice.actions = [⟨5, "x"⟩, ⟨7, "p"⟩] ∧
    GetParamId sample_p4info_twice "a" "p" = 7 ∧
    GetParamId sample_p4info_twice "a" "z" = -1 ∧
    GetParamId sample_p4info_twice "b" "p" = -1 ∧
    GetMatchFieldId sample_p4info_twice "t" "f" = 7 ∧
    GetMatchFieldId sample_p4info_twice "t" "z" = -1 ∧
    GetMatchFieldId sample_p4info_twice "u" "f" = -1 :=
  ⟨rfl,
    ((C15_GetParamId_first_match sample_p4info_twice "a" "p").1 [⟨5, "x"⟩] ⟨7, "p"⟩ [] rfl
      (by decide) rfl).2.2 (by decide),
    (C15_GetParamId_first_match sample_p4info_twice "a" "z").2.1 (by decide),
    (C15_GetParamId_first_match sample_p4info_twice "b" "p").2.2.1 (by decide),
    ((C15_GetParamId_first_match sample_p4info_twice "t" "f").2.2.2.1 [⟨5, "x"⟩] ⟨7, "f"⟩ []
      rfl (by decide) rfl).2.2 (by decide),
    (C15_GetParamId_first_match sample_p4info_twice "t" "z").2.2.2.2.1 (by decide),
    (C15_GetParamId_first_match sample_p4info_twice "u" "f").2.2.2.2.2 (by decide)⟩

theorem GetTableId_loop_iff (n : String) (l : List P4Table)
    (hid : ∀ t ∈ l, t.preamble.id < 2147483648) :
    GetTableId.loop n l = -1 ↔ ∀ t ∈ l, t.preamble.name ≠ n := by
  induction l with
  | nil => simp [GetTableId.loop]
  | cons t rest ih =>
    have ih' := ih fun u hu => hid u (List.mem_cons_of_mem _ hu)
    by_cases h : t.preamble.name = n
    · simp only [GetTableId.loop, h, if_true, List.mem_cons, forall_eq_or_imp, ne_eq,
        not_true_eq_false, false_and, iff_false]
      exact toInt32_ne_neg_one _ (hid t (List.mem_cons_self _ _))
    · simp only [GetTableId.loop, h, if_false, List.mem_cons, forall_eq_or_imp, ne_eq,
        not_false_eq_true, true_and]
      exact ih'

theorem GetActionId_loop_iff (n : String) (l : List P4Action)
    (hid : ∀ t ∈ l, t.preamble.id < 2147483648) :
    GetActionId.loop n l = -1 ↔ ∀ t ∈ l, t.preamble.name ≠ n := by
  induction l with
  | nil => simp [GetActionId.loop]
  | cons t rest ih =>
    have ih' := ih fun u hu => hid u (List.mem_cons_of_mem _ hu)
    by_cases h : t.preamble.name = n
    · simp only [GetActionId.loop, h, if_true, List.mem_cons, forall_eq_or_imp, ne_eq,
        not_true_eq_false, false_and, iff_false]
      exact toInt32_ne_neg_one _ (hid t (List.mem_cons_self _ _))
    · simp only [GetActionId.loop, h, if_false, List.mem_cons, forall_eq_or_imp, ne_eq,
        not_false_eq_true, true_and]
      exact ih'

theorem GetParamId_inner_some (p : String) (l : List P4Param) (v : Int)
    (h : GetParamId.inner p l = some v) : ∃ q ∈ l, q.name = p ∧ v = toInt32 q.id := by
  induction l with
  | nil => simp [GetParamId.inner] at h
  | cons q rest ih =>
    by_cases hq : q.name = p
    · simp only [GetParamId.inner, hq, if_true, Option.some.injEq] at h
      exact ⟨q, List.mem_cons_self _ _, hq, h.symm⟩
    · simp only [GetParamId.inner, hq, if_false] at h
      obtain ⟨u, hu, hn, hv⟩ := ih h
      exact ⟨u, List.mem_cons_of_mem _ hu, hn, hv⟩

theorem GetMatchFieldId_inner_some (p : String) (l : List P4MatchField) (v : Int)
    (h : GetMatchFieldId.inner p l = some v) : ∃ q ∈ l, q.name = p ∧ v = toInt32 q.id := by
  induction l with
  | nil => simp [GetMatchFieldId.inner] at h
  | cons q rest ih =>
    by_cases hq : q.name = p
    · simp only [GetMatchFieldId.inner, hq, if_true, Option.some.injEq] at h
      exact ⟨q, List.mem_cons_self _ _, hq, h.symm⟩
    · simp only [GetMatchFieldId.inner, hq, if_false] at h
      obtain ⟨u, hu, hn, hv⟩ := ih h
      exact ⟨u, List.mem_cons_of_mem _ hu, hn, hv⟩

theorem GetParamId_inner_eq_none_iff (p : String) (l : List P4Param) :
    GetParamId.inner p l = none ↔ ∀ q ∈ l, q.name ≠ p := by
  induction l with
  | nil => simp [GetParamId.inner]
  | cons q rest ih =>
    by_cases h : q.name = p
    · simp [GetParamId.inner, h]
    · simp [GetParamId.inner, h, ih]

theorem GetMatchFieldId_inner_eq_none_iff (p : String) (l : List P4MatchField) :
    GetMatchFieldId.inner p l = none ↔ ∀ q ∈ l, q.name ≠ p := by
  induction l with
  | nil => simp [GetMatchFieldId.inner]
  | cons q rest ih =>
    by_cases h : q.name = p
    · simp [GetMatchFieldId.inner, h]
    · simp [GetMatchFieldId.inner, h, ih]

theorem GetParamId_loop_iff (a p : String) (l : List P4Action)
    (hid : ∀ x ∈ l, ∀ q ∈ x.params, q.id < 2147483648) :
    GetParamId.loop a p l = -1 ↔
      ∀ x ∈ l, x.preamble.name = a → ∀ q ∈ x.params, q.name ≠ p := by
  have hmem : (∀ q ∈ params_of_actions_named a l, q.name ≠ p) ↔
      ∀ x ∈ l, x.preamble.name = a → ∀ q ∈ x.params, q.name ≠ p := by
    constructor
    · intro h x hx hxa q hq
      exact h q ((mem_params_of_actions_named a l q).mpr ⟨x, hx, hxa, hq⟩)
    · intro h q hq
      obtain ⟨x, hx, hxa, hqx⟩ := (mem_params_of_actions_named a l q).mp hq
      exact h x hx hxa q hqx
  rw [GetParamId_loop_eq, ← hmem, ← GetParamId_inner_eq_none_iff]
  cases hi : GetParamId.inner p (params_of_actions_named a l) with
  | none => simp
  | some v =>
    obtain ⟨u, hu, -, hv⟩ := GetParamId_inner_some p _ v hi
    obtain ⟨y, hy, -, huy⟩ := (mem_params_of_actions_named a l u).mp hu
    have hne : v ≠ -1 := by rw [hv]; exact toInt32_ne_neg_one _ (hid y hy u huy)
    simp [hne]

theorem GetMatchFieldId_loop_iff (a p : String) (l : List P4Table)
    (hid : ∀ x ∈ l, ∀ q ∈ x.match_fields, q.id < 2147483648) :
    GetMatchFieldId.loop a p l = -1 ↔
      ∀ x ∈ l, x.preamble.name = a → ∀ q ∈ x.match_fields, q.name ≠ p := by
  have hmem : (∀ q ∈ match_fields_of_tables_named a l, q.name ≠ p) ↔
      ∀ x ∈ l, x.preamble.name = a → ∀ q ∈ x.match_fields, q.name ≠ p := by
    constructor
    · intro h x hx hxa q hq
      exact h q ((mem_match_fields_of_tables_named a l q).mpr ⟨x, hx, hxa, hq⟩)
    · intro h q hq
      obtain ⟨x, hx, hxa, hqx⟩ := (mem_match_fields_of_tables_named a l q).mp hq
      exact h x hx hxa q hqx
  rw [GetMatchFieldId_loop_eq, ← hmem, ← GetMatchFieldId_inner_eq_none_iff]
  cases hi : GetMatchFieldId.inner p (match_fields_of_tables_named a l) with
  | none => simp
  | some v =>
    obtain ⟨u, hu, -, hv⟩ := GetMatchFieldId_inner_some p _ v hi
    obtain ⟨y, hy, -, huy⟩ := (mem_match_fields_of_tables_named a l u).mp hu
    have hne : v ≠ -1 := by rw [hv]; exact toInt32_ne_neg_one _ (hid y hy u huy)
    simp [hne]

/-- C16: in a schema all of whose ids are below 2^31, each of the four
resolvers returns -1 exactly when the requested name does not resolve: no
table (action) has the name, or no action (table) of the given name has a
parameter (match field) of the given name. -/
theorem C16_sentinel_iff_unresolved (p4info : P4Info) (hid : ids_below_2_31 p4info)
    (name sub : String) :
    (GetTableId p4info name = -1 ↔ ∀ t ∈ p4info.tables, t.preamble.name ≠ name) ∧
    (GetActionId p4info name = -1 ↔ ∀ a ∈ p4info.actions, a.preamble.name ≠ name) ∧
    (GetParamId p4info name sub = -1 ↔
      ∀ a ∈ p4info.actions, a.preamble.name = name → ∀ q ∈ a.params, q.name ≠ sub) ∧
    (GetMatchFieldId p4info name sub = -1 ↔
      ∀ t ∈ p4info.tables, t.preamble.name = name →
        ∀ q ∈ t.match_fields, q.name ≠ sub) :=
  ⟨GetTableId_loop_iff name _ fun t ht => (hid.1 t ht).1,
    GetActionId_loop_iff name _ fun a ha => (hid.2 a ha).1,
    GetParamId_loop_iff name sub _ fun a ha => (hid.2 a ha).2,
    GetMatchFieldId_loop_iff name sub _ fun t ht => (hid.1 t ht).2⟩

/-- Witness for C16: the sample schema, whose ids are all small: resolved
names give a result other than -1, unresolved ones give -1. -/
theorem C16_sentinel_iff_unresolved_witness :
    ids_below_2_31 sample_p4info_twice ∧
    GetTableId sample_p4info_twice "t" ≠ -1 ∧
    GetTableId sample_p4info_twice "none" = -1 ∧
    GetParamId sample_p4info_twice "a" "p" ≠ -1 ∧
    GetParamId sample_p4info_twice "a" "z" = -1 :=
  ⟨by unfold ids_below_2_31; decide,
    fun h => absurd ((C16_sentinel_iff_unresolved sample_p4info_twice
      (by unfold ids_below_2_31; decide) "t" "f").1.mp h) (by decide),
    (C16_sentinel_iff_unresolved sample_p4info_twice
      (by unfold ids_below_2_31; decide) "none" "f").1.mpr (by decide),
    fun h => absurd ((C16_sentinel_iff_unresolved sample_p4info_twice
      (by unfold ids_below_2_31; decide) "a" "p").2.2.1.mp h) (by decide),
    (C16_sentinel_iff_unresolved sample_p4info_twice
      (by unfold ids_below_2_31; decide) "a" "z").2.2.1.mpr (by decide)⟩

/-! ### Entry contents -/

/-- C17: on ES2K, for an event whose tunnel families are both `AF_INET` or
both `AF_INET6`, `PrepareFdbTableEntryforV4Tunnel` with insert intent sets the
action selected by (family, `port_vlan_mode == NATIVE_UNTAGGED`) among the
four tunnel-underlay actions, with exactly one parameter: the tunnel id,
resolved against that same action name, with value `EncodeByteValue(1, vni)`,
the single byte vni mod 256. -/
theorem C17_fdb_tunnel_action_selection (env : Env) (learn_info : mac_learning_info)
    (p4info : P4Info)
    (hfam : (learn_info.tnl_info.local_ip.family = AF_INET ∧
        learn_info.tnl_info.remote_ip.family = AF_INET) ∨
      (learn_info.tnl_info.local_ip.family = AF_INET6 ∧
        learn_info.tnl_info.remote_ip.family = AF_INET6)) :
    (PrepareFdbTableEntryforV4Tunnel env Target.ES2K TableEntry.fresh learn_info p4info
      true).action =
      some ⟨toU32 (GetActionId p4info (env.nm (fdb_tunnel_action
          (decide (learn_info.tnl_info.local_ip.family = AF_INET6))
          (decide (learn_info.vlan_info.port_vlan_mode = env.P4_PORT_VLAN_NATIVE_UNTAGGED))))),
        [⟨toU32 (GetParamId p4info
            (env.nm (fdb_tunnel_action
              (decide (learn_info.tnl_info.local_ip.family = AF_INET6))
              (decide (learn_info.vlan_info.port_vlan_mode
                = env.P4_PORT_VLAN_NATIVE_UNTAGGED))))
            (env.nm (fdb_tunnel_param
              (decide (learn_info.tnl_info.local_ip.family = AF_INET6))
              (decide (learn_info.vlan_info.port_vlan_mode
                = env.P4_PORT_VLAN_NATIVE_UNTAGGED))))),
          EncodeByteValue 1 [(learn_info.tnl_info.vni : Int)]⟩]⟩ ∧
    EncodeByteValue 1 [(learn_info.tnl_info.vni : Int)] = [learn_info.tnl_info.vni % 256] := by
  refine ⟨?_, by simp [EncodeByteValue, toU8_natCast]⟩
  have h46 : AF_INET ≠ AF_INET6 := by decide
  rcases hfam with ⟨hl, hr⟩ | ⟨hl, hr⟩
  · have hl6 : ¬ learn_info.tnl_info.local_ip.family = AF_INET6 := by rw [hl]; exact h46
    by_cases hm : learn_info.vlan_info.port_vlan_mode = env.P4_PORT_VLAN_NATIVE_UNTAGGED
    · simp [PrepareFdbTableEntryforV4Tunnel, hl, hr, hm, h46, fdb_tunnel_action,
        fdb_tunnel_param, add_exact, set_table_id, mutable_action, set_action_id, add_param,
        the_action, TableEntry.fresh]
    · simp [PrepareFdbTableEntryforV4Tunnel, hl, hr, hm, h46, fdb_tunnel_action,
        fdb_tunnel_param, add_exact, set_table_id, mutable_action, set_action_id, add_param,
        the_action, TableEntry.fresh]
  · by_cases hm : learn_info.vlan_info.port_vlan_mode = env.P4_PORT_VLAN_NATIVE_UNTAGGED
    · simp [PrepareFdbTableEntryforV4Tunnel, hl, hr, hm, h46.symm, fdb_tunnel_action,
        fdb_tunnel_param, add_exact, set_table_id, mutable_action, set_action_id, add_param,
        the_action, TableEntry.fresh]
    · simp [PrepareFdbTableEntryforV4Tunnel, hl, hr, hm, h46.symm, fdb_tunnel_action,
        fdb_tunnel_param, add_exact, set_table_id, mutable_action, set_action_id, add_param,
        the_action, TableEntry.fresh]

/-- Witness for C17: the sample IPv4 native-tagged event and the sample IPv6
native-untagged event, over a schema that holds the four actions. -/
theorem C17_fdb_tunnel_action_selection_witness :
    (PrepareFdbTableEntryforV4Tunnel sample_env Target.ES2K TableEntry.fresh
      (sample_learn true) sample_p4info_tunnel true).action = some ⟨3002, [⟨12, [100]⟩]⟩ ∧
    (PrepareFdbTableEntryforV4Tunnel sample_env Target.ES2K TableEntry.fresh
      sample_learn_v6_untagged sample_p4info_tunnel true).action
      = some ⟨3003, [⟨13, [100]⟩]⟩ :=
  ⟨(C17_fdb_tunnel_action_selection sample_env (sample_learn true) sample_p4info_tunnel
      (Or.inl ⟨rfl, rfl⟩)).1,
    (C17_fdb_tunnel_action_selection sample_env sample_learn_v6_untagged sample_p4info_tunnel
      (Or.inr ⟨rfl, rfl⟩)).1⟩

/-- C19: for every tunnel record with VNI at most 255 and insert intent, the
first two action parameters of the entry built by `PrepareEncapTableEntry`
are `CanonicalizeIp` of the local and of the remote IPv4 address, its last
parameter reads back as the VNI, and the entry built by
`PrepareTunnelTermTableEntry` has an exact match field whose value is
`CanonicalizeIp` of the remote address. -/
theorem C19_tunnel_insert_contents (env : Env) (t : Target) (tunnel_info : tunnel_info)
    (p4info : P4Info) (h : tunnel_info.vni ≤ 255) :
    (param_values (PrepareEncapTableEntry env t TableEntry.fresh tunnel_info p4info
      true)).take 2 =
      [CanonicalizeIp tunnel_info.local_ip.ip.v4addr.s_addr,
        CanonicalizeIp tunnel_info.remote_ip.ip.v4addr.s_addr] ∧
    (param_values (PrepareEncapTableEntry env t TableEntry.fresh tunnel_info p4info
      true)).getLast?.map be_decode = some tunnel_info.vni ∧
    CanonicalizeIp tunnel_info.remote_ip.ip.v4addr.s_addr ∈
      exact_values (PrepareTunnelTermTableEntry env t TableEntry.fresh tunnel_info p4info
        true) := by
  have key : be_decode (EncodeByteValue 1 [(tunnel_info.vni : Int)]) = tunnel_info.vni := by
    rw [be_decode_one_byte, Nat.mod_eq_of_lt (by omega)]
  by_cases hm : tunnel_info.vlan_info.port_vlan_mode = env.P4_PORT_VLAN_NATIVE_UNTAGGED <;>
  cases t <;>
    simp [exact_values, param_values, the_action, PrepareEncapTableEntry,
      PrepareTunnelTermTableEntry, add_exact, set_table_id, mutable_action, set_action_id,
      add_param, TableEntry.fresh, key, hm]

/-- Witness for C19: the sample tunnel 10.0.0.1 to 10.0.0.2, VNI 100,
destination port 4789, on ES2K. -/
theorem C19_tunnel_insert_contents_witness :
    sample_tunnel.vni = 100 ∧ sample_tunnel.dst_port = 4789 ∧
    (param_values (PrepareEncapTableEntry sample_env Target.ES2K TableEntry.fresh
      sample_tunnel sample_p4info true)).take 2 = [[10, 0, 0, 1], [10, 0, 0, 2]] ∧
    (param_values (PrepareEncapTableEntry sample_env Target.ES2K TableEntry.fresh
      sample_tunnel sample_p4info true)).getLast?.map be_decode = some 100 ∧
    [10, 0, 0, 2] ∈ exact_values (PrepareTunnelTermTableEntry sample_env Target.ES2K
      TableEntry.fresh sample_tunnel sample_p4info true) :=
  ⟨rfl, rfl,
    (C19_tunnel_insert_contents sample_env Target.ES2K sample_tunnel sample_p4info
      (by decide)).1,
    (C19_tunnel_insert_contents sample_env Target.ES2K sample_tunnel sample_p4info
      (by decide)).2.1,
    (C19_tunnel_insert_contents sample_env Target.ES2K sample_tunnel sample_p4info
      (by decide)).2.2⟩

/-! ### Plain MAC-learning insert on ES2K -/

section
variable {σ : Type}

theorem plain_insert_writes (env : Env) (tr : Transport σ) (d : σ)
    (learn_info : mac_learning_info) (read_response : ReadResponse) (host_sp : Nat)
    (hconn : connects tr d) (ht : learn_info.is_tunnel = false)
    (hr : (GetFdbVlanTableEntry env tr (connected tr d) learn_info (schema tr d)).1 = none)
    (hm : (GetTxAccVsiTableEntry env tr
      (GetFdbVlanTableEntry env tr (connected tr d) learn_info (schema tr d)).2
      learn_info.src_port (schema tr d)).1 = some read_response)
    (hs : host_sp_of env (schema tr d) read_response = some host_sp) :
    (ConfigFdbTableEntry env Target.ES2K tr d learn_info true).map (fun s => writes s.log) =
      some [⟨UpdateType.INSERT,
          PrepareFdbTxVlanTableEntry env Target.ES2K TableEntry.fresh
            { learn_info with src_port := host_sp } (schema tr d) true⟩,
        ⟨UpdateType.INSERT,
          PrepareFdbRxVlanTableEntry env Target.ES2K TableEntry.fresh
            { learn_info with src_port := host_sp } (schema tr d) true⟩,
        ⟨UpdateType.INSERT,
          PrepareFdbSmacTableEntry env TableEntry.fresh
            { learn_info with src_port := host_sp } (schema tr d) true⟩] := by
  rw [ConfigFdbTableEntry_connected env tr d learn_info true hconn]
  simp only [ConfigFdbTableEntry.classify, ConfigFdbTableEntry.program, ht, hr, hm, hs,
    if_true, Option.isSome_none, Bool.false_eq_true, if_false, Option.map_some',
    vlan_writes_log]
  simp [GetTxAccVsiTableEntry, GetFdbVlanTableEntry, SendReadRequest_log, connected_log,
    writes_append, writes, SetupType]

theorem plain_insert_mapping_fails (env : Env) (tr : Transport σ) (d : σ)
    (learn_info : mac_learning_info)
    (hconn : connects tr d) (ht : learn_info.is_tunnel = false)
    (hr : (GetFdbVlanTableEntry env tr (connected tr d) learn_info (schema tr d)).1 = none)
    (hm : (GetTxAccVsiTableEntry env tr
      (GetFdbVlanTableEntry env tr (connected tr d) learn_info (schema tr d)).2
      learn_info.src_port (schema tr d)).1 = none) :
    (ConfigFdbTableEntry env Target.ES2K tr d learn_info true).map (fun s => writes s.log) =
      some [] := by
  rw [ConfigFdbTableEntry_connected env tr d learn_info true hconn]
  simp only [ConfigFdbTableEntry.classify, ConfigFdbTableEntry.program, ht, hr, hm,
    if_true, Option.isSome_none, Bool.false_eq_true, if_false, Option.map_some']
  simp [GetTxAccVsiTableEntry, GetFdbVlanTableEntry, SendReadRequest_log, connected_log,
    writes_append, writes]

theorem tx_entry_table_and_key (env : Env) (learn_info : mac_learning_info)
    (p4info : P4Info) :
    (PrepareFdbTxVlanTableEntry env Target.ES2K TableEntry.fresh learn_info p4info
      true).table_id = toU32 (GetTableId p4info (env.nm Name.L2_FWD_TX_TABLE)) ∧
    (PrepareFdbTxVlanTableEntry env Target.ES2K TableEntry.fresh learn_info p4info
      true).match_.head? =
      some ⟨toU32 (GetMatchFieldId p4info (env.nm Name.L2_FWD_TX_TABLE)
          (env.nm Name.L2_FWD_TX_TABLE_KEY_DST_MAC)),
        FieldMatchType.exact (CanonicalizeMac learn_info.mac_addr)⟩ ∧
    (param_values (PrepareFdbTxVlanTableEntry env Target.ES2K TableEntry.fresh learn_info
      p4info true)).head? = some (EncodeByteValue 1 [(learn_info.src_port : Int)]) := by
  by_cases hm : learn_info.vlan_info.port_vlan_mode = env.P4_PORT_VLAN_NATIVE_UNTAGGED <;>
    simp [PrepareFdbTxVlanTableEntry, param_values, the_action, add_exact, set_table_id,
      mutable_action, set_action_id, add_param, TableEntry.fresh, hm]

theorem rx_entry_table_and_param (env : Env) (learn_info : mac_learning_info)
    (p4info : P4Info) :
    (PrepareFdbRxVlanTableEntry env Target.ES2K TableEntry.fresh learn_info p4info
      true).table_id = toU32 (GetTableId p4info (env.nm Name.L2_FWD_RX_TABLE)) ∧
    param_values (PrepareFdbRxVlanTableEntry env Target.ES2K TableEntry.fresh learn_info
      p4info true) = [EncodeByteValue 1 [(learn_info.src_port : Int)]] := by
  simp [PrepareFdbRxVlanTableEntry, param_values, the_action, add_exact, set_table_id,
    mutable_action, set_action_id, add_param, TableEntry.fresh]

theorem smac_entry_table (env : Env) (learn_info : mac_learning_info) (p4info : P4Info) :
    (PrepareFdbSmacTableEntry env TableEntry.fresh learn_info p4info true).table_id =
      toU32 (GetTableId p4info (env.nm Name.L2_FWD_SMAC_TABLE)) ∧
    param_values (PrepareFdbSmacTableEntry env TableEntry.fresh learn_info p4info true)
      = [] := by
  simp [PrepareFdbSmacTableEntry, param_values, the_action, add_ternary, set_table_id,
    set_priority, mutable_action, set_action_id, TableEntry.fresh]

end

/-! ### The low byte of the recovered port -/

theorem or_mod_256 (a b : Nat) (ha : a % 256 = 0) : (a ||| b) % 256 = b % 256 := by
  have h0 : ∀ i, i < 8 → a.testBit i = false := by
    intro i hi
    have h := Nat.testBit_mod_two_pow a 8 i
    rw [show a % 2 ^ 8 = 0 from ha] at h
    simpa [hi] using h.symm
  show (a ||| b) % 2 ^ 8 = b % 2 ^ 8
  apply Nat.eq_of_testBit_eq
  intro i
  simp only [Nat.testBit_mod_two_pow, Nat.testBit_or]
  by_cases hi : i < 8
  · simp [hi, h0 i hi]
  · simp [hi]

theorem toU32_char_to_int_mod (env : Env) (c : Nat) (hc : c < 256) :
    toU32 (char_to_int env c) % 256 = c := by
  unfold toU32 char_to_int
  split <;> omega

theorem host_sp_step_low_byte (env : Env) (s2 : Bytes) (host_sp pos c v : Nat)
    (hc : c < 256) (hs : string_at s2 pos = some c)
    (h : host_sp_step env s2 host_sp pos = some v) : v % 256 = c := by
  simp only [host_sp_step, hs, Option.some.injEq] at h
  rw [← h, or_mod_256 _ _ (by rw [Nat.shiftLeft_eq]; omega)]
  exact toU32_char_to_int_mod env c hc

theorem host_sp_bytes_low_byte (env : Env) (s2 : Bytes) (host_sp c v : Nat)
    (hc : c < 256) (hs : string_at s2 3 = some c)
    (h : host_sp_bytes env s2 host_sp = some v) : v % 256 = c := by
  unfold host_sp_bytes at h
  cases h0 : host_sp_step env s2 host_sp 0 with
  | none => simp [h0] at h
  | some a0 =>
    cases h1 : host_sp_step env s2 a0 1 with
    | none => simp [h0, h1] at h
    | some a1 =>
      cases h2 : host_sp_step env s2 a1 2 with
      | none => simp [h0, h1, h2] at h
      | some a2 =>
        simp only [h0, h1, h2, Option.some_bind] at h
        exact host_sp_step_low_byte env s2 a2 3 c v hc hs h

theorem be_decode_four_mod (b0 b1 b2 b3 : Nat) :
    be_decode [b0, b1, b2, b3] % 256 = b3 % 256 := by
  simp only [be_decode, List.foldl]
  omega

theorem host_sp_params_first (env : Env) (param_id : Int) (host_sp : Nat)
    (pre : List Param) (q : Param) (post : List Param)
    (hpre : ∀ u ∈ pre, toU32 param_id ≠ u.param_id) (hq : toU32 param_id = q.param_id) :
    host_sp_params env param_id host_sp (pre ++ q :: post) =
      host_sp_bytes env q.value host_sp := by
  induction pre with
  | nil => simp only [List.nil_append, host_sp_params, hq, if_true]
  | cons u rest ih =>
    have h1 : toU32 param_id ≠ u.param_id := hpre u (List.mem_cons_self _ _)
    simp only [List.cons_append, host_sp_params, h1, if_false]
    exact ih fun w hw => hpre w (List.mem_cons_of_mem _ hw)

theorem host_sp_of_single (env : Env) (p4info : P4Info) (e : TableEntry)
    (pre : List Param) (q : Param) (post : List Param)
    (he : (the_action e).params = pre ++ q :: post)
    (hpre : ∀ u ∈ pre, toU32 (GetParamId p4info
      (env.nm Name.TX_ACC_VSI_TABLE_ACTION_L2_FWD_AND_BYPASS_BRIDGE)
      (env.nm Name.ACTION_L2_FWD_AND_BYPASS_BRIDGE_PARAM_PORT)) ≠ u.param_id)
    (hq : toU32 (GetParamId p4info
      (env.nm Name.TX_ACC_VSI_TABLE_ACTION_L2_FWD_AND_BYPASS_BRIDGE)
      (env.nm Name.ACTION_L2_FWD_AND_BYPASS_BRIDGE_PARAM_PORT)) = q.param_id) :
    host_sp_of env p4info ⟨[e]⟩ = host_sp_bytes env q.value 0 := by
  simp only [host_sp_of, host_sp_entities, he, host_sp_params_first env _ 0 pre q post hpre hq]
  cases host_sp_bytes env q.value 0 <;> rfl

section
variable {σ : Type}

/-- C18 counterexample: the sample plain insert (neither tunnel nor VLAN
flag, source port 20). When the existence read fails and the mapping read
returns port 7, three writes are issued and the port parameter is 7, not 20;
when the existence read succeeds with an empty response, no write is
issued. In neither case is there exactly one write. -/
theorem C18_counterexample :
    (sample_learn false).is_tunnel = false ∧ (sample_learn false).is_vlan = false ∧
    (sample_learn false).src_port = 20 ∧
    (ConfigFdbTableEntry sample_env Target.ES2K transport_mapping () (sample_learn false)
      true).map (fun s => writes s.log) =
      some [⟨UpdateType.INSERT,
          ⟨1001, [⟨1, FieldMatchType.exact [0, 17, 34, 51, 68, 85]⟩,
            ⟨2, FieldMatchType.exact [1]⟩, ⟨3, FieldMatchType.exact [1]⟩],
            some ⟨2001, [⟨1, [7]⟩]⟩, 0⟩⟩,
        ⟨UpdateType.INSERT,
          ⟨1002, [⟨1, FieldMatchType.exact [0, 17, 34, 51, 68, 85]⟩,
            ⟨2, FieldMatchType.exact [1]⟩, ⟨3, FieldMatchType.exact [1]⟩],
            some ⟨2001, [⟨1, [7]⟩]⟩, 0⟩⟩,
        ⟨UpdateType.INSERT,
          ⟨1003, [⟨1, FieldMatchType.ternary [0, 17, 34, 51, 68, 85]
            [255, 255, 255, 255, 255, 255]⟩], some ⟨2002, []⟩, 1⟩⟩] ∧
    (ConfigFdbTableEntry sample_env Target.ES2K transport_present () (sample_learn false)
      true).map (fun s => (writes s.log).length) = some 0 := by
  decide

/-- C18 (amended): on ES2K, for an insert event that is not tunnel-classified,
with session and schema obtained, the existence read failed, the mapping read
succeeded and the port recovered from it, `ConfigFdbTableEntry` issues exactly
three writes: the TX forwarding entry, whose first match field is the exact
MAC key and whose first action parameter is the one-byte encoding of the
recovered port, then the RX forwarding entry, then the source-MAC entry. -/
theorem C18_plain_insert_three_writes (env : Env) (tr : Transport σ) (d : σ)
    (learn_info : mac_learning_info) (read_response : ReadResponse) (host_sp : Nat)
    (hconn : connects tr d) (ht : learn_info.is_tunnel = false)
    (hr : (GetFdbVlanTableEntry env tr (connected tr d) learn_info (schema tr d)).1 = none)
    (hm : (GetTxAccVsiTableEntry env tr
      (GetFdbVlanTableEntry env tr (connected tr d) learn_info (schema tr d)).2
      learn_info.src_port (schema tr d)).1 = some read_response)
    (hs : host_sp_of env (schema tr d) read_response = some host_sp) :
    (ConfigFdbTableEntry env Target.ES2K tr d learn_info true).map
      (fun s => (writes s.log).map fun w => (w.type, w.table_entry.table_id)) =
      some [(UpdateType.INSERT, toU32 (GetTableId (schema tr d) (env.nm Name.L2_FWD_TX_TABLE))),
        (UpdateType.INSERT, toU32 (GetTableId (schema tr d) (env.nm Name.L2_FWD_RX_TABLE))),
        (UpdateType.INSERT,
          toU32 (GetTableId (schema tr d) (env.nm Name.L2_FWD_SMAC_TABLE)))] ∧
    (ConfigFdbTableEntry env Target.ES2K tr d learn_info true).map
      (fun s => (writes s.log).head?.map fun w => w.table_entry.match_.head?) =
      some (some (some ⟨toU32 (GetMatchFieldId (schema tr d) (env.nm Name.L2_FWD_TX_TABLE)
          (env.nm Name.L2_FWD_TX_TABLE_KEY_DST_MAC)),
        FieldMatchType.exact (CanonicalizeMac learn_info.mac_addr)⟩)) ∧
    (ConfigFdbTableEntry env Target.ES2K tr d learn_info true).map
      (fun s => (writes s.log).head?.map fun w => (param_values w.table_entry).head?) =
      some (some (some (EncodeByteValue 1 [(host_sp : Int)]))) := by
  have hw := plain_insert_writes env tr d learn_info read_response host_sp hconn ht hr hm hs
  have htx := tx_entry_table_and_key env { learn_info with src_port := host_sp } (schema tr d)
  have hrx := rx_entry_table_and_param env { learn_info with src_port := host_sp }
    (schema tr d)
  have hsm := smac_entry_table env { learn_info with src_port := host_sp } (schema tr d)
  cases hres : ConfigFdbTableEntry env Target.ES2K tr d learn_info true with
  | none => rw [hres] at hw; simp at hw
  | some s =>
    rw [hres] at hw
    simp only [Option.map_some', Option.some.injEq] at hw
    simp only [Option.map_some', hw, List.map_cons, List.map_nil, List.head?_cons, htx.1,
      htx.2.1, htx.2.2, hrx.1, hsm.1, and_self]

/-- Witness for C18 (amended): the sample plain insert over the transport
whose mapping read returns port 7. -/
theorem C18_plain_insert_three_writes_witness :
    connects transport_mapping () ∧
    host_sp_of sample_env (schema transport_mapping ()) sample_mapping_response = some 7 ∧
    (ConfigFdbTableEntry sample_env Target.ES2K transport_mapping () (sample_learn false)
      true).map (fun s => (writes s.log).map fun w => (w.type, w.table_entry.table_id)) =
      some [(UpdateType.INSERT, 1001), (UpdateType.INSERT, 1002), (UpdateType.INSERT, 1003)] ∧
    (ConfigFdbTableEntry sample_env Target.ES2K transport_mapping () (sample_learn false)
      true).map
      (fun s => (writes s.log).head?.map fun w => (param_values w.table_entry).head?) =
      some (some (some [7])) :=
  ⟨⟨rfl, rfl⟩, rfl,
    (C18_plain_insert_three_writes sample_env transport_mapping () (sample_learn false)
      sample_mapping_response 7 ⟨rfl, rfl⟩ rfl rfl rfl rfl).1,
    (C18_plain_insert_three_writes sample_env transport_mapping () (sample_learn false)
      sample_mapping_response 7 ⟨rfl, rfl⟩ rfl rfl rfl rfl).2.2⟩

/-- C20: on ES2K, for an insert event that is not tunnel-classified, with
session and schema obtained and the existence read failed: when the mapping
read fails no write is issued; when it succeeds (and the recovery loop is
defined) the first action parameter of the TX forwarding entry and the
parameter of the RX forwarding entry that are written are the one-byte
encoding of the port recovered from the response, not of
`learn_info.src_port`. For a response of one entry whose port parameter holds
four bytes, that byte string is the one-byte encoding of the big-endian value
of the parameter. -/
theorem C20_port_from_mapping_read (env : Env) (tr : Transport σ) (d : σ)
    (learn_info : mac_learning_info)
    (hconn : connects tr d) (ht : learn_info.is_tunnel = false)
    (hr : (GetFdbVlanTableEntry env tr (connected tr d) learn_info (schema tr d)).1 = none) :
    ((GetTxAccVsiTableEntry env tr
        (GetFdbVlanTableEntry env tr (connected tr d) learn_info (schema tr d)).2
        learn_info.src_port (schema tr d)).1 = none →
      (ConfigFdbTableEntry env Target.ES2K tr d learn_info true).map (fun s => writes s.log)
        = some []) ∧
    (∀ (read_response : ReadResponse) (host_sp : Nat),
      (GetTxAccVsiTableEntry env tr
        (GetFdbVlanTableEntry env tr (connected tr d) learn_info (schema tr d)).2
        learn_info.src_port (schema tr d)).1 = some read_response →
      host_sp_of env (schema tr d) read_response = some host_sp →
      (ConfigFdbTableEntry env Target.ES2K tr d learn_info true).map
        (fun s => (writes s.log).map fun w =>
          (w.table_entry.table_id, (param_values w.table_entry).head?)) =
        some [(toU32 (GetTableId (schema tr d) (env.nm Name.L2_FWD_TX_TABLE)),
            some (EncodeByteValue 1 [(host_sp : Int)])),
          (toU32 (GetTableId (schema tr d) (env.nm Name.L2_FWD_RX_TABLE)),
            some (EncodeByteValue 1 [(host_sp : Int)])),
          (toU32 (GetTableId (schema tr d) (env.nm Name.L2_FWD_SMAC_TABLE)), none)]) ∧
    (∀ (e : TableEntry) (pre : List Param) (q : Param) (post : List Param)
      (b0 b1 b2 b3 host_sp : Nat),
      (the_action e).params = pre ++ q :: post →
      (∀ u ∈ pre, toU32 (GetParamId (schema tr d)
        (env.nm Name.TX_ACC_VSI_TABLE_ACTION_L2_FWD_AND_BYPASS_BRIDGE)
        (env.nm Name.ACTION_L2_FWD_AND_BYPASS_BRIDGE_PARAM_PORT)) ≠ u.param_id) →
      toU32 (GetParamId (schema tr d)
        (env.nm Name.TX_ACC_VSI_TABLE_ACTION_L2_FWD_AND_BYPASS_BRIDGE)
        (env.nm Name.ACTION_L2_FWD_AND_BYPASS_BRIDGE_PARAM_PORT)) = q.param_id →
      q.value = [b0, b1, b2, b3] → b3 < 256 →
      host_sp_of env (schema tr d) ⟨[e]⟩ = some host_sp →
      EncodeByteValue 1 [(host_sp : Int)] = EncodeByteValue 1 [(be_decode q.value : Int)]) := by
  refine ⟨?_, ?_, ?_⟩
  · intro hm
    exact plain_insert_mapping_fails env tr d learn_info hconn ht hr hm
  · intro read_response host_sp hm hs
    have hw := plain_insert_writes env tr d learn_info read_response host_sp hconn ht hr hm hs
    have htx := tx_entry_table_and_key env { learn_info with src_port := host_sp }
      (schema tr d)
    have hrx := rx_entry_table_and_param env { learn_info with src_port := host_sp }
      (schema tr d)
    have hsm := smac_entry_table env { learn_info with src_port := host_sp } (schema tr d)
    cases hres : ConfigFdbTableEntry env Target.ES2K tr d learn_info true with
    | none => rw [hres] at hw; simp at hw
    | some s =>
      rw [hres] at hw
      simp only [Option.map_some', Option.some.injEq] at hw
      simp only [Option.map_some', hw, List.map_cons, List.map_nil, htx.1, htx.2.2, hrx.1,
        hrx.2, hsm.1, hsm.2, List.head?_cons, List.head?_nil]
  · intro e pre q post b0 b1 b2 b3 host_sp he hpre hq hv hb hs
    rw [host_sp_of_single env (schema tr d) e pre q post he hpre hq, hv] at hs
    have hlow := host_sp_bytes_low_byte env [b0, b1, b2, b3] 0 b3 host_sp hb rfl hs
    simp only [EncodeByteValue, toU8_natCast, hv, be_decode_four_mod, hlow,
      Nat.mod_eq_of_lt hb]

/-- Witness for C20: the sample plain insert (source port 20), over a
transport whose reads all fail and over the transport whose mapping read
returns port 7 in four bytes. -/
theorem C20_port_from_mapping_read_witness :
    (sample_learn false).src_port = 20 ∧
    (ConfigFdbTableEntry sample_env Target.ES2K transport_absent () (sample_learn false)
      true).map (fun s => writes s.log) = some [] ∧
    (ConfigFdbTableEntry sample_env Target.ES2K transport_mapping () (sample_learn false)
      true).map (fun s => (writes s.log).map fun w =>
        (w.table_entry.table_id, (param_values w.table_entry).head?)) =
      some [(1001, some [7]), (1002, some [7]), (1003, none)] ∧
    EncodeByteValue 1 [((7 : Nat) : Int)] =
      EncodeByteValue 1 [(be_decode [0, 0, 0, 7] : Int)] :=
  ⟨rfl,
    (C20_port_from_mapping_read sample_env transport_absent () (sample_learn false)
      ⟨rfl, rfl⟩ rfl rfl).1 rfl,
    (C20_port_from_mapping_read sample_env transport_mapping () (sample_learn false)
      ⟨rfl, rfl⟩ rfl rfl).2.1 sample_mapping_response 7 rfl rfl,
    (C20_port_from_mapping_read sample_env transport_mapping () (sample_learn false)
      ⟨rfl, rfl⟩ rfl rfl).2.2
      ⟨1004, [⟨1, FieldMatchType.exact [4]⟩], some ⟨2003, [⟨1, [0, 0, 0, 7]⟩]⟩, 0⟩
      [] ⟨1, [0, 0, 0, 7]⟩ [] 0 0 0 7 7 rfl (by decide) rfl rfl (by decide) rfl⟩

end

/-! ### Match-field order and keys of the builders -/

theorem field_ids_set_table_id (e : TableEntry) (id : Int) :
    field_ids (set_table_id e id) = field_ids e := rfl

theorem field_ids_set_priority (e : TableEntry) (p : Int) :
    field_ids (set_priority e p) = field_ids e := rfl

theorem field_ids_mutable_action (e : TableEntry) :
    field_ids (mutable_action e) = field_ids e := rfl

theorem field_ids_set_action_id (e : TableEntry) (id : Int) :
    field_ids (set_action_id e id) = field_ids e := rfl

theorem field_ids_add_param (e : TableEntry) (id : Int) (v : Bytes) :
    field_ids (add_param e id v) = field_ids e := rfl

theorem field_ids_add_exact (e : TableEntry) (id : Int) (v : Bytes) :
    field_ids (add_exact e id v) = field_ids e ++ [toU32 id] := by
  simp [field_ids, add_exact]

theorem field_ids_add_ternary (e : TableEntry) (id : Int) (v m : Bytes) :
    field_ids (add_ternary e id v m) = field_ids e ++ [toU32 id] := by
  simp [field_ids, add_ternary]

theorem field_ids_fresh : field_ids TableEntry.fresh = [] := rfl

/-- C21 counterexample: in the sample schema both termination tables declare
their keys in the order bridge id, source address, VNI, and the three key
names of the IPv4 table resolve (to the ids 2, 1 and 3). The IPv6 builder emits its match fields in that order; the IPv4
builder emits source address, bridge id, VNI (field ids 2, 1, 3), which is not
the schema order. -/
theorem C21_counterexample :
    declared_field_ids sample_p4info_vxlan "ipv4_tunnel_term_table" = [1, 2, 3] ∧
    GetMatchFieldId sample_p4info_vxlan (sample_env.nm Name.IPV4_TUNNEL_TERM_TABLE)
      (sample_env.nm Name.IPV4_TUNNEL_TERM_TABLE_KEY_IPV4_SRC) = 2 ∧
    GetMatchFieldId sample_p4info_vxlan (sample_env.nm Name.IPV4_TUNNEL_TERM_TABLE)
      (sample_env.nm Name.IPV4_TUNNEL_TERM_TABLE_KEY_BRIDGE_ID) = 1 ∧
    GetMatchFieldId sample_p4info_vxlan (sample_env.nm Name.IPV4_TUNNEL_TERM_TABLE)
      (sample_env.nm Name.IPV4_TUNNEL_TERM_TABLE_KEY_VNI) = 3 ∧
    field_ids (PrepareTunnelTermTableEntry sample_env Target.ES2K TableEntry.fresh
      sample_tunnel sample_p4info_vxlan true) = [2, 1, 3] ∧
    ¬ in_schema_order sample_p4info_vxlan "ipv4_tunnel_term_table"
      (PrepareTunnelTermTableEntry sample_env Target.ES2K TableEntry.fresh sample_tunnel
        sample_p4info_vxlan true) ∧
    in_schema_order sample_p4info_vxlan "ipv6_tunnel_term_table"
      (PrepareV6TunnelTermTableEntry sample_env TableEntry.fresh sample_tunnel
        sample_p4info_vxlan true) := by
  unfold in_schema_order
  decide

/-- C21 (amended): for every builder, event, schema and intent, the match
fields of the entry built on a fresh descriptor are the builder's own keys in
the builder's own fixed order, each id resolved by name; the order in which
the schema declares them plays no part. -/
theorem C21_match_fields_in_builder_order (env : Env) (t : Target)
    (learn_info : mac_learning_info) (tunnel_info : tunnel_info) (vlan_id : Nat)
    (sp : src_port_info) (p4info : P4Info) (insert_entry : Bool) :
    field_ids (PrepareFdbSmacTableEntry env TableEntry.fresh learn_info p4info insert_entry) =
      [toU32 (GetMatchFieldId p4info (env.nm Name.L2_FWD_SMAC_TABLE) (env.nm
      Name.L2_FWD_SMAC_TABLE_KEY_SA))] ∧
    field_ids (PrepareFdbTxVlanTableEntry env Target.ES2K TableEntry.fresh learn_info p4info
      insert_entry) = [toU32 (GetMatchFieldId p4info (env.nm Name.L2_FWD_TX_TABLE) (env.nm
      Name.L2_FWD_TX_TABLE_KEY_DST_MAC)), toU32 (GetMatchFieldId p4info (env.nm
      Name.L2_FWD_TX_TABLE) (env.nm Name.L2_FWD_TX_TABLE_KEY_BRIDGE_ID)), toU32 (GetMatchFieldId
      p4info (env.nm Name.L2_FWD_TX_TABLE) (env.nm Name.L2_FWD_TX_TABLE_KEY_SMAC_LEARNED))] ∧
    field_ids (PrepareFdbTxVlanTableEntry env Target.DPDK TableEntry.fresh learn_info p4info
      insert_entry) = [toU32 (GetMatchFieldId p4info (env.nm Name.L2_FWD_TX_TABLE) (env.nm
      Name.L2_FWD_TX_TABLE_KEY_DST_MAC))] ∧
    field_ids (PrepareFdbRxVlanTableEntry env Target.ES2K TableEntry.fresh learn_info p4info
      insert_entry) = [toU32 (GetMatchFieldId p4info (env.nm Name.L2_FWD_RX_TABLE) (env.nm
      Name.L2_FWD_RX_TABLE_KEY_DST_MAC)), toU32 (GetMatchFieldId p4info (env.nm
      Name.L2_FWD_RX_TABLE) (env.nm Name.L2_FWD_RX_TABLE_KEY_BRIDGE_ID)), toU32 (GetMatchFieldId
      p4info (env.nm Name.L2_FWD_RX_TABLE) (env.nm Name.L2_FWD_RX_TABLE_KEY_SMAC_LEARNED))] ∧
    field_ids (PrepareFdbRxVlanTableEntry env Target.DPDK TableEntry.fresh learn_info p4info
      insert_entry) = [toU32 (GetMatchFieldId p4info (env.nm Name.L2_FWD_RX_WITH_TUNNEL_TABLE)
      (env.nm Name.L2_FWD_TX_TABLE_KEY_DST_MAC))] ∧
    field_ids (PrepareFdbTableEntryforV4Tunnel env Target.ES2K TableEntry.fresh learn_info p4info
      insert_entry) = [toU32 (GetMatchFieldId p4info (env.nm Name.L2_FWD_TX_TABLE) (env.nm
      Name.L2_FWD_TX_TABLE_KEY_DST_MAC)), toU32 (GetMatchFieldId p4info (env.nm
      Name.L2_FWD_TX_TABLE) (env.nm Name.L2_FWD_TX_TABLE_KEY_BRIDGE_ID)), toU32 (GetMatchFieldId
      p4info (env.nm Name.L2_FWD_TX_TABLE) (env.nm Name.L2_FWD_TX_TABLE_KEY_SMAC_LEARNED))] ∧
    field_ids (PrepareFdbTableEntryforV4Tunnel env Target.DPDK TableEntry.fresh learn_info p4info
      insert_entry) = [toU32 (GetMatchFieldId p4info (env.nm Name.L2_FWD_TX_TABLE) (env.nm
      Name.L2_FWD_TX_TABLE_KEY_DST_MAC))] ∧
    field_ids (PrepareL2ToTunnelV4 env TableEntry.fresh learn_info p4info insert_entry) = [toU32
      (GetMatchFieldId p4info (env.nm Name.L2_TO_TUNNEL_V4_TABLE) (env.nm
      Name.L2_TO_TUNNEL_V4_KEY_DA))] ∧
    field_ids (PrepareL2ToTunnelV6 env TableEntry.fresh learn_info p4info insert_entry) = [toU32
      (GetMatchFieldId p4info (env.nm Name.L2_TO_TUNNEL_V6_TABLE) (env.nm
      Name.L2_TO_TUNNEL_V6_KEY_DA))] ∧
    field_ids (PrepareEncapTableEntry env t TableEntry.fresh tunnel_info p4info insert_entry) =
      [toU32 (GetMatchFieldId p4info (env.nm Name.VXLAN_ENCAP_MOD_TABLE) (env.nm
      Name.VXLAN_ENCAP_MOD_TABLE_KEY_VENDORMETA_MOD_DATA_PTR))] ∧
    field_ids (PrepareV6EncapTableEntry env TableEntry.fresh tunnel_info p4info insert_entry) =
      [toU32 (GetMatchFieldId p4info (env.nm Name.VXLAN_ENCAP_V6_MOD_TABLE) (env.nm
      Name.VXLAN_ENCAP_V6_MOD_TABLE_KEY_VENDORMETA_MOD_DATA_PTR))] ∧
    field_ids (PrepareEncapAndVlanPopTableEntry env TableEntry.fresh tunnel_info p4info
      insert_entry) = [toU32 (GetMatchFieldId p4info (env.nm Name.VXLAN_ENCAP_VLAN_POP_MOD_TABLE)
      (env.nm Name.VXLAN_ENCAP_VLAN_POP_MOD_TABLE_KEY_VENDORMETA_MOD_DATA_PTR))] ∧
    field_ids (PrepareV6EncapAndVlanPopTableEntry env TableEntry.fresh tunnel_info p4info
      insert_entry) = [toU32 (GetMatchFieldId p4info (env.nm
      Name.VXLAN_ENCAP_V6_VLAN_POP_MOD_TABLE) (env.nm
      Name.VXLAN_ENCAP_V6_VLAN_POP_MOD_TABLE_KEY_VENDORMETA_MOD_DATA_PTR))] ∧
    field_ids (PrepareRxTunnelTableEntry env TableEntry.fresh tunnel_info p4info insert_entry) =
      [toU32 (GetMatchFieldId p4info (env.nm Name.RX_IPV4_TUNNEL_SOURCE_PORT_TABLE) (env.nm
      Name.RX_IPV4_TUNNEL_SOURCE_PORT_TABLE_KEY_VNI)), toU32 (GetMatchFieldId p4info (env.nm
      Name.RX_IPV4_TUNNEL_SOURCE_PORT_TABLE) (env.nm
      Name.RX_IPV4_TUNNEL_SOURCE_PORT_TABLE_KEY_IPV4_SRC))] ∧
    field_ids (PrepareV6RxTunnelTableEntry env TableEntry.fresh tunnel_info p4info insert_entry)
      = [toU32 (GetMatchFieldId p4info (env.nm Name.RX_IPV6_TUNNEL_SOURCE_PORT_TABLE) (env.nm
      Name.RX_IPV6_TUNNEL_SOURCE_PORT_TABLE_KEY_VNI)), toU32 (GetMatchFieldId p4info (env.nm
      Name.RX_IPV6_TUNNEL_SOURCE_PORT_TABLE) (env.nm
      Name.RX_IPV6_TUNNEL_SOURCE_PORT_TABLE_KEY_IPV6_SRC))] ∧
    field_ids (PrepareTunnelTermTableEntry env Target.ES2K TableEntry.fresh tunnel_info p4info
      insert_entry) = [toU32 (GetMatchFieldId p4info (env.nm Name.IPV4_TUNNEL_TERM_TABLE) (env.nm
      Name.IPV4_TUNNEL_TERM_TABLE_KEY_IPV4_SRC)), toU32 (GetMatchFieldId p4info (env.nm
      Name.IPV4_TUNNEL_TERM_TABLE) (env.nm Name.IPV4_TUNNEL_TERM_TABLE_KEY_BRIDGE_ID)), toU32
      (GetMatchFieldId p4info (env.nm Name.IPV4_TUNNEL_TERM_TABLE) (env.nm
      Name.IPV4_TUNNEL_TERM_TABLE_KEY_VNI))] ∧
    field_ids (PrepareTunnelTermTableEntry env Target.DPDK TableEntry.fresh tunnel_info p4info
      insert_entry) = [toU32 (GetMatchFieldId p4info (env.nm Name.IPV4_TUNNEL_TERM_TABLE) (env.nm
      Name.IPV4_TUNNEL_TERM_TABLE_KEY_IPV4_SRC)), toU32 (GetMatchFieldId p4info (env.nm
      Name.IPV4_TUNNEL_TERM_TABLE) (env.nm Name.IPV4_TUNNEL_TERM_TABLE_KEY_TUNNEL_TYPE)), toU32
      (GetMatchFieldId p4info (env.nm Name.IPV4_TUNNEL_TERM_TABLE) (env.nm
      Name.IPV4_TUNNEL_TERM_TABLE_KEY_IPV4_DST))] ∧
    field_ids (PrepareV6TunnelTermTableEntry env TableEntry.fresh tunnel_info p4info
      insert_entry) = [toU32 (GetMatchFieldId p4info (env.nm Name.IPV6_TUNNEL_TERM_TABLE) (env.nm
      Name.IPV6_TUNNEL_TERM_TABLE_KEY_BRIDGE_ID)), toU32 (GetMatchFieldId p4info (env.nm
      Name.IPV6_TUNNEL_TERM_TABLE) (env.nm Name.IPV6_TUNNEL_TERM_TABLE_KEY_IPV6_SRC)), toU32
      (GetMatchFieldId p4info (env.nm Name.IPV6_TUNNEL_TERM_TABLE) (env.nm
      Name.IPV6_TUNNEL_TERM_TABLE_KEY_VNI))] ∧
    field_ids (PrepareDecapModTableEntry env TableEntry.fresh tunnel_info p4info insert_entry) =
      [toU32 (GetMatchFieldId p4info (env.nm Name.VXLAN_DECAP_MOD_TABLE) (env.nm
      Name.VXLAN_DECAP_MOD_TABLE_KEY_MOD_BLOB_PTR))] ∧
    field_ids (PrepareDecapModAndVlanPushTableEntry env TableEntry.fresh tunnel_info p4info
      insert_entry) = [toU32 (GetMatchFieldId p4info (env.nm
      Name.VXLAN_DECAP_AND_VLAN_PUSH_MOD_TABLE) (env.nm
      Name.VXLAN_DECAP_AND_VLAN_PUSH_MOD_TABLE_KEY_MOD_BLOB_PTR))] ∧
    field_ids (PrepareVlanPushTableEntry env TableEntry.fresh vlan_id p4info insert_entry) =
      [toU32 (GetMatchFieldId p4info (env.nm Name.VLAN_PUSH_MOD_TABLE) (env.nm
      Name.VLAN_PUSH_MOD_KEY_MOD_BLOB_PTR))] ∧
    field_ids (PrepareVlanPopTableEntry env TableEntry.fresh vlan_id p4info insert_entry) =
      [toU32 (GetMatchFieldId p4info (env.nm Name.VLAN_POP_MOD_TABLE) (env.nm
      Name.VLAN_POP_MOD_KEY_MOD_BLOB_PTR))] ∧
    field_ids (PrepareSrcPortTableEntry env TableEntry.fresh sp p4info insert_entry) = [toU32
      (GetMatchFieldId p4info (env.nm Name.SOURCE_PORT_TO_BRIDGE_MAP_TABLE) (env.nm
      Name.SOURCE_PORT_TO_BRIDGE_MAP_TABLE_KEY_SRC_PORT)), toU32 (GetMatchFieldId p4info (env.nm
      Name.SOURCE_PORT_TO_BRIDGE_MAP_TABLE) (env.nm
      Name.SOURCE_PORT_TO_BRIDGE_MAP_TABLE_KEY_VID))] ∧
    field_ids (PrepareTxAccVsiTableEntry env TableEntry.fresh vlan_id p4info) =
      [toU32 (GetMatchFieldId p4info (env.nm Name.TX_ACC_VSI_TABLE)
        (env.nm Name.TX_ACC_VSI_TABLE_KEY_VSI))] := by
  refine ⟨?_, ?_, ?_, ?_, ?_, ?_, ?_, ?_, ?_, ?_, ?_, ?_, ?_, ?_, ?_, ?_, ?_, ?_, ?_, ?_, ?_,
    ?_, ?_, ?_⟩
  all_goals
    cases t <;> cases insert_entry <;>
      simp only [PrepareFdbSmacTableEntry, PrepareFdbTxVlanTableEntry, PrepareFdbRxVlanTableEntry,
    PrepareFdbTableEntryforV4Tunnel, PrepareL2ToTunnelV4, PrepareL2ToTunnelV6,
    PrepareEncapTableEntry, PrepareV6EncapTableEntry, PrepareEncapAndVlanPopTableEntry,
    PrepareV6EncapAndVlanPopTableEntry, PrepareRxTunnelTableEntry, PrepareV6RxTunnelTableEntry,
    PrepareTunnelTermTableEntry, PrepareV6TunnelTermTableEntry, PrepareDecapModTableEntry,
    PrepareDecapModAndVlanPushTableEntry, PrepareVlanPushTableEntry, PrepareVlanPopTableEntry,
    PrepareSrcPortTableEntry,
        PrepareTxAccVsiTableEntry, apply_ite field_ids, field_ids_set_table_id,
        field_ids_set_priority, field_ids_mutable_action, field_ids_set_action_id,
        field_ids_add_param, field_ids_add_exact, field_ids_add_ternary, field_ids_fresh,
        ite_self, List.nil_append, List.cons_append, List.append_assoc, Bool.false_eq_true,
        if_false, if_true]
/-! ### Insert and delete intent -/

theorem without_action_fresh : without_action TableEntry.fresh = TableEntry.fresh := rfl

theorem without_action_set_table_id (e : TableEntry) (id : Int) :
    without_action (set_table_id e id) = set_table_id (without_action e) id := rfl

theorem without_action_set_priority (e : TableEntry) (p : Int) :
    without_action (set_priority e p) = set_priority (without_action e) p := rfl

theorem without_action_add_exact (e : TableEntry) (id : Int) (v : Bytes) :
    without_action (add_exact e id v) = add_exact (without_action e) id v := rfl

theorem without_action_add_ternary (e : TableEntry) (id : Int) (v m : Bytes) :
    without_action (add_ternary e id v m) = add_ternary (without_action e) id v m := rfl

theorem without_action_mutable_action (e : TableEntry) :
    without_action (mutable_action e) = without_action e := rfl

theorem without_action_set_action_id (e : TableEntry) (id : Int) :
    without_action (set_action_id e id) = without_action e := rfl

theorem without_action_add_param (e : TableEntry) (id : Int) (v : Bytes) :
    without_action (add_param e id v) = without_action e := rfl

/-- C26: for every builder with an intent argument, every event and every
schema, the entry built on a fresh descriptor with insert intent, once its
action is cleared, is the entry built with delete intent: table id, priority
and the whole list of match fields (ids, kinds, values, masks) coincide, and
the action is the only difference. -/
theorem C26_insert_and_delete_share_key (env : Env) (t : Target)
    (learn_info : mac_learning_info) (tunnel_info : tunnel_info) (vlan_id : Nat)
    (sp : src_port_info) (p4info : P4Info) :
    without_action (PrepareFdbSmacTableEntry env TableEntry.fresh learn_info p4info true) =
      PrepareFdbSmacTableEntry env TableEntry.fresh learn_info p4info false ∧
    without_action (PrepareFdbTxVlanTableEntry env Target.ES2K TableEntry.fresh learn_info p4info
      true) = PrepareFdbTxVlanTableEntry env Target.ES2K TableEntry.fresh learn_info p4info false ∧
    without_action (PrepareFdbTxVlanTableEntry env Target.DPDK TableEntry.fresh learn_info p4info
      true) = PrepareFdbTxVlanTableEntry env Target.DPDK TableEntry.fresh learn_info p4info false ∧
    without_action (PrepareFdbRxVlanTableEntry env Target.ES2K TableEntry.fresh learn_info p4info
      true) = PrepareFdbRxVlanTableEntry env Target.ES2K TableEntry.fresh learn_info p4info false ∧
    without_action (PrepareFdbRxVlanTableEntry env Target.DPDK TableEntry.fresh learn_info p4info
      true) = PrepareFdbRxVlanTableEntry env Target.DPDK TableEntry.fresh learn_info p4info false ∧
    without_action (PrepareFdbTableEntryforV4Tunnel env Target.ES2K TableEntry.fresh learn_info
      p4info true) = PrepareFdbTableEntryforV4Tunnel env Target.ES2K TableEntry.fresh learn_info
      p4info false ∧
    without_action (PrepareFdbTableEntryforV4Tunnel env Target.DPDK TableEntry.fresh learn_info
      p4info true) = PrepareFdbTableEntryforV4Tunnel env Target.DPDK TableEntry.fresh learn_info
      p4info false ∧
    without_action (PrepareL2ToTunnelV4 env TableEntry.fresh learn_info p4info true) =
      PrepareL2ToTunnelV4 env TableEntry.fresh learn_info p4info false ∧
    without_action (PrepareL2ToTunnelV6 env TableEntry.fresh learn_info p4info true) =
      PrepareL2ToTunnelV6 env TableEntry.fresh learn_info p4info false ∧
    without_action (PrepareEncapTableEntry env t TableEntry.fresh tunnel_info p4info true) =
      PrepareEncapTableEntry env t TableEntry.fresh tunnel_info p4info false ∧
    without_action (PrepareV6EncapTableEntry env TableEntry.fresh tunnel_info p4info true) =
      PrepareV6EncapTableEntry env TableEntry.fresh tunnel_info p4info false ∧
    without_action (PrepareEncapAndVlanPopTableEntry env TableEntry.fresh tunnel_info p4info
      true) = PrepareEncapAndVlanPopTableEntry env TableEntry.fresh tunnel_info p4info false ∧
    without_action (PrepareV6EncapAndVlanPopTableEntry env TableEntry.fresh tunnel_info p4info
      true) = PrepareV6EncapAndVlanPopTableEntry env TableEntry.fresh tunnel_info p4info false ∧
    without_action (PrepareRxTunnelTableEntry env TableEntry.fresh tunnel_info p4info true) =
      PrepareRxTunnelTableEntry env TableEntry.fresh tunnel_info p4info false ∧
    without_action (PrepareV6RxTunnelTableEntry env TableEntry.fresh tunnel_info p4info true) =
      PrepareV6RxTunnelTableEntry env TableEntry.fresh tunnel_info p4info false ∧
    without_action (PrepareTunnelTermTableEntry env Target.ES2K TableEntry.fresh tunnel_info
      p4info true) = PrepareTunnelTermTableEntry env Target.ES2K TableEntry.fresh tunnel_info
      p4info false ∧
    without_action (PrepareTunnelTermTableEntry env Target.DPDK TableEntry.fresh tunnel_info
      p4info true) = PrepareTunnelTermTableEntry env Target.DPDK TableEntry.fresh tunnel_info
      p4info false ∧
    without_action (PrepareV6TunnelTermTableEntry env TableEntry.fresh tunnel_info p4info true) =
      PrepareV6TunnelTermTableEntry env TableEntry.fresh tunnel_info p4info false ∧
    without_action (PrepareDecapModTableEntry env TableEntry.fresh tunnel_info p4info true) =
      PrepareDecapModTableEntry env TableEntry.fresh tunnel_info p4info false ∧
    without_action (PrepareDecapModAndVlanPushTableEntry env TableEntry.fresh tunnel_info p4info
      true) = PrepareDecapModAndVlanPushTableEntry env TableEntry.fresh tunnel_info p4info false ∧
    without_action (PrepareVlanPushTableEntry env TableEntry.fresh vlan_id p4info true) =
      PrepareVlanPushTableEntry env TableEntry.fresh vlan_id p4info false ∧
    without_action (PrepareVlanPopTableEntry env TableEntry.fresh vlan_id p4info true) =
      PrepareVlanPopTableEntry env TableEntry.fresh vlan_id p4info false ∧
    without_action (PrepareSrcPortTableEntry env TableEntry.fresh sp p4info true) =
      PrepareSrcPortTableEntry env TableEntry.fresh sp p4info false := by
  refine ⟨?_, ?_, ?_, ?_, ?_, ?_, ?_, ?_, ?_, ?_, ?_, ?_, ?_, ?_, ?_, ?_, ?_, ?_, ?_, ?_, ?_, ?_, ?_⟩
  all_goals
    cases t <;>
      simp only [PrepareFdbSmacTableEntry, PrepareFdbTxVlanTableEntry, PrepareFdbRxVlanTableEntry,
        PrepareFdbTableEntryforV4Tunnel, PrepareL2ToTunnelV4, PrepareL2ToTunnelV6,
        PrepareEncapTableEntry, PrepareV6EncapTableEntry, PrepareEncapAndVlanPopTableEntry,
        PrepareV6EncapAndVlanPopTableEntry, PrepareRxTunnelTableEntry,
        PrepareV6RxTunnelTableEntry, PrepareTunnelTermTableEntry, PrepareV6TunnelTermTableEntry,
        PrepareDecapModTableEntry, PrepareDecapModAndVlanPushTableEntry,
        PrepareVlanPushTableEntry, PrepareVlanPopTableEntry, PrepareSrcPortTableEntry,
        apply_ite without_action, without_action_set_table_id, without_action_set_priority,
        without_action_mutable_action, without_action_set_action_id,
        without_action_add_param, without_action_add_exact, without_action_add_ternary,
        without_action_fresh, ite_self, Bool.false_eq_true, if_false, if_true]

/-! ### Order of the tunnel writes -/

section
variable {σ : Type}

/-- C22 counterexample: the ES2K delete of the sample tunnel over a transport
on which every write succeeds. The three delete writes go to the
encapsulation table (1101), the decapsulation table (1105) and the
termination table (1107), in that order, which is the insert order; the
termination entry is removed last, not first. -/
theorem C22_counterexample :
    connects transport_vxlan () ∧
    (∀ dev req, (transport_vxlan.SendWriteRequest dev req).1.ok = true) ∧
    written_tables
      (ConfigTunnelTableEntry sample_env Target.ES2K transport_vxlan () sample_tunnel true).log
      = [1101, 1105, 1107] ∧
    written_tables
      (ConfigTunnelTableEntry sample_env Target.ES2K transport_vxlan () sample_tunnel false).log
      = [1101, 1105, 1107] ∧
    (ConfigTunnelTableEntry sample_env Target.ES2K transport_vxlan () sample_tunnel false).log
      = [Request.write ⟨UpdateType.DELETE,
          ConfigEncapTableEntry.entry sample_env Target.ES2K sample_tunnel sample_p4info_vxlan
            false⟩,
        Request.write ⟨UpdateType.DELETE,
          ConfigDecapTableEntry.entry sample_env sample_tunnel sample_p4info_vxlan false⟩,
        Request.write ⟨UpdateType.DELETE,
          ConfigTunnelTermTableEntry.entry sample_env Target.ES2K sample_tunnel
            sample_p4info_vxlan false⟩] :=
  ⟨⟨rfl, rfl⟩, fun _ _ => rfl, by decide, by decide, by decide⟩

/-- C22 (amended): with session and schema obtained and every write
succeeding, `ConfigTunnelTableEntry` issues its writes in one and the same
order for insert and for delete intent: the encapsulation entry first, then
the decapsulation entry (ES2K only), the termination entry last. -/
theorem C22_delete_uses_insert_order (env : Env) (t : Target) (tr : Transport σ) (d : σ)
    (tunnel_info : tunnel_info) (insert_entry : Bool) (hconn : connects tr d)
    (hw : ∀ dev req, (tr.SendWriteRequest dev req).1.ok = true) :
    (ConfigTunnelTableEntry env t tr d tunnel_info insert_entry).log =
      match t with
      | Target.ES2K =>
        [Request.write ⟨SetupType insert_entry,
            ConfigEncapTableEntry.entry env Target.ES2K tunnel_info (schema tr d) insert_entry⟩,
          Request.write ⟨SetupType insert_entry,
            ConfigDecapTableEntry.entry env tunnel_info (schema tr d) insert_entry⟩,
          Request.write ⟨SetupType insert_entry,
            ConfigTunnelTermTableEntry.entry env Target.ES2K tunnel_info (schema tr d)
              insert_entry⟩]
      | Target.DPDK =>
        [Request.write ⟨SetupType insert_entry,
            ConfigEncapTableEntry.entry env Target.DPDK tunnel_info (schema tr d) insert_entry⟩,
          Request.write ⟨SetupType insert_entry,
            ConfigTunnelTermTableEntry.entry env Target.DPDK tunnel_info (schema tr d)
              insert_entry⟩] := by
  rw [ConfigTunnelTableEntry_connected env t tr d tunnel_info insert_entry hconn]
  cases t <;>
    simp [ConfigTunnelTableEntry.program, ConfigEncapTableEntry, ConfigDecapTableEntry,
      ConfigTunnelTermTableEntry, SendWriteRequest_ok tr hw, SendWriteRequest_log,
      connected_log]

/-- Witness for C22: the DPDK delete of the sample tunnel over a transport on
which every write succeeds. -/
theorem C22_delete_uses_insert_order_witness :
    connects transport_vxlan () ∧
    (∀ dev req, (transport_vxlan.SendWriteRequest dev req).1.ok = true) ∧
    (ConfigTunnelTableEntry sample_env Target.DPDK transport_vxlan () sample_tunnel false).log =
      [Request.write ⟨UpdateType.DELETE,
          ConfigEncapTableEntry.entry sample_env Target.DPDK sample_tunnel sample_p4info_vxlan
            false⟩,
        Request.write ⟨UpdateType.DELETE,
          ConfigTunnelTermTableEntry.entry sample_env Target.DPDK sample_tunnel
            sample_p4info_vxlan false⟩] :=
  ⟨⟨rfl, rfl⟩, fun _ _ => rfl,
    C22_delete_uses_insert_order sample_env Target.DPDK transport_vxlan () sample_tunnel false
      ⟨rfl, rfl⟩ (fun _ _ => rfl)⟩

end

/-! ### IPv6 address encoding -/

theorem CanonicalizeIpv6_eq (a : in6_addr) :
    CanonicalizeIpv6 a = (List.ofFn a.u6_addr8).map fun b => b % 256 := by
  simp only [CanonicalizeIpv6, EncodeByteValue, toU8_natCast, List.ofFn_succ, List.ofFn_zero,
    List.map_cons, List.map_nil]
  rfl

/-- C23: for every IPv6 address `a` (sixteen bytes, each below 256),
`CanonicalizeIpv6 a` has length 16, its i-th byte is the i-th byte of the
address in memory (network) order, and two addresses with the same encoding
are equal. -/
theorem C23_CanonicalizeIpv6_bytes (a b : in6_addr) (ha : ∀ i, a.u6_addr8 i < 256)
    (hb : ∀ i, b.u6_addr8 i < 256) :
    (CanonicalizeIpv6 a).length = 16 ∧
    CanonicalizeIpv6 a = List.ofFn a.u6_addr8 ∧
    (∀ i : Fin 16, (CanonicalizeIpv6 a)[i.val]? = some (a.u6_addr8 i)) ∧
    (CanonicalizeIpv6 a = CanonicalizeIpv6 b → a = b) := by
  have hof : ∀ c : in6_addr, (∀ i, c.u6_addr8 i < 256) →
      CanonicalizeIpv6 c = List.ofFn c.u6_addr8 := by
    intro c hc
    rw [CanonicalizeIpv6_eq]
    apply List.ext_getElem
    · simp
    · intro n h1 h2
      simp only [List.getElem_map, List.getElem_ofFn]
      exact Nat.mod_eq_of_lt (hc _)
  refine ⟨by rw [hof a ha]; simp, hof a ha, ?_, ?_⟩
  · intro i
    have hi : i.val < (List.ofFn a.u6_addr8).length := by simp
    rw [hof a ha, List.getElem?_eq_getElem hi, List.getElem_ofFn]
  · intro h
    rw [hof a ha, hof b hb] at h
    have hf : a.u6_addr8 = b.u6_addr8 := List.ofFn_injective h
    cases a
    cases b
    simp only at hf
    rw [hf]

/-- Witness for C23: the address with bytes 0x20 .. 0x2f. -/
theorem C23_CanonicalizeIpv6_bytes_witness :
    (∀ i, sample_in6_counting.u6_addr8 i < 256) ∧
    (CanonicalizeIpv6 sample_in6_counting).length = 16 ∧
    CanonicalizeIpv6 sample_in6_counting = List.ofFn sample_in6_counting.u6_addr8 ∧
    CanonicalizeIpv6 sample_in6_counting =
      [32, 33, 34, 35, 36, 37, 38, 39, 40, 41, 42, 43, 44, 45, 46, 47] :=
  ⟨by decide,
    (C23_CanonicalizeIpv6_bytes sample_in6_counting sample_in6 (by decide) (by decide)).1,
    (C23_CanonicalizeIpv6_bytes sample_in6_counting sample_in6 (by decide) (by decide)).2.1,
    by decide⟩


end ovs_p4rt

namespace sgnmi_cli

/-- C24: the test of `grpc_use_insecure_mode` in `Main` is inverted. With the
flag false, which is its default, the channel is created with
`InsecureChannelCredentials()`; with the flag true the channel is created with
the credentials generated by the credentials manager, or `Main` returns the
error of `CreateInstance`. In the sample library the default gives insecure
credentials and the flag set gives TLS credentials. -/
theorem C24_insecure_mode_flag_inverted {κ μ ε : Type} (lib : Library κ μ ε)
    (FLAGS_grpc_addr : String) :
    Main.channel lib grpc_use_insecure_mode_default FLAGS_grpc_addr =
      Except.ok ⟨FLAGS_grpc_addr, lib.InsecureChannelCredentials⟩ ∧
    Main.channel lib false FLAGS_grpc_addr =
      Except.ok ⟨FLAGS_grpc_addr, lib.InsecureChannelCredentials⟩ ∧
    Main.channel lib true FLAGS_grpc_addr =
      (match lib.CreateInstance true with
      | Except.error status => Except.error status
      | Except.ok credentials_manager =>
        Except.ok ⟨FLAGS_grpc_addr,
          lib.GenerateExternalFacingClientCredentials credentials_manager⟩) ∧
    (Main.channel sample_library grpc_use_insecure_mode_default "localhost:9339").toOption.map
      (fun c => c.creds) = some SampleCredentials.insecure ∧
    (Main.channel sample_library true "localhost:9339").toOption.map
      (fun c => c.creds) = some SampleCredentials.tls :=
  ⟨rfl, rfl, rfl, rfl, rfl⟩

/-- C39: for every string, `StringToBool` is true exactly when the string is
one of "y", "true", "t", "yes", "1", compared as a whole and with case; it is
false on the empty string, on "True", on "0", and on "true" with a leading or
trailing blank. -/
theorem C39_StringToBool_accepts_five (str : String) :
    (StringToBool str = true ↔
      str = "y" ∨ str = "true" ∨ str = "t" ∨ str = "yes" ∨ str = "1") ∧
    StringToBool "y" = true ∧ StringToBool "true" = true ∧ StringToBool "t" = true ∧
    StringToBool "yes" = true ∧ StringToBool "1" = true ∧
    StringToBool "" = false ∧ StringToBool "True" = false ∧ StringToBool "0" = false ∧
    StringToBool " true" = false ∧ StringToBool "true " = false ∧
    StringToBool "Y" = false := by
  refine ⟨?_, by decide, by decide, by decide, by decide, by decide, by decide, by decide,
    by decide, by decide, by decide, by decide⟩
  simp only [StringToBool, Bool.or_eq_true, beq_iff_eq, or_assoc]

end sgnmi_cli

namespace ovs_p4rt

/-! ### The L2-to-tunnel entries -/

/-- C27 (behaviour of the code): with insert intent the four address
parameters of the entry built by `PrepareL2ToTunnelV6` are `CanonicalizeIp` of
the words 0, 1, 0 and 0 of the remote address: the third and fourth parameter
repeat the first word, and words 2 and 3 of the address appear nowhere. For the
remote address with bytes 0x20 .. 0x2f the parameters are 20212223, 24252627,
20212223, 20212223, while words 2 and 3 encode as 28292a2b and 2c2d2e2f. -/
theorem C27_l2_to_tunnel_v6_repeats_first_word (env : Env) (learn_info : mac_learning_info)
    (p4info : P4Info) :
    param_values (PrepareL2ToTunnelV6 env TableEntry.fresh learn_info p4info true) =
      [CanonicalizeIp (learn_info.tnl_info.remote_ip.ip.v6addr.u6_addr32 0),
        CanonicalizeIp (learn_info.tnl_info.remote_ip.ip.v6addr.u6_addr32 1),
        CanonicalizeIp (learn_info.tnl_info.remote_ip.ip.v6addr.u6_addr32 0),
        CanonicalizeIp (learn_info.tnl_info.remote_ip.ip.v6addr.u6_addr32 0)] ∧
    param_values (PrepareL2ToTunnelV6 sample_env TableEntry.fresh sample_learn_v6_counting
      sample_p4info true) =
      [[32, 33, 34, 35], [36, 37, 38, 39], [32, 33, 34, 35], [32, 33, 34, 35]] ∧
    CanonicalizeIp (sample_in6_counting.u6_addr32 2) = [40, 41, 42, 43] ∧
    CanonicalizeIp (sample_in6_counting.u6_addr32 3) = [44, 45, 46, 47] :=
  ⟨rfl, by decide, by decide, by decide⟩

section
variable {σ : Type}

/-- C28 (behaviour of the code): on ES2K, for a delete whose `l2_to_tunnel_v6`
read succeeded, with families that are not both `AF_INET6`, the L2-to-tunnel
delete written by `ConfigFdbTableEntry` is the entry of `PrepareL2ToTunnelV4`,
whose table is `l2_to_tunnel_v4`: the table is chosen by the families of the
event record, not by the read that succeeded. -/
theorem C28_l2_delete_table_follows_families (env : Env) (tr : Transport σ) (d : σ)
    (learn_info : mac_learning_info) (hconn : connects tr d)
    (h6 : (GetL2ToTunnelV6TableEntry env tr
            (GetL2ToTunnelV4TableEntry env tr (connected tr d) learn_info (schema tr d)).2
            learn_info (schema tr d)).1.isSome = true)
    (hfam : ¬ (learn_info.tnl_info.local_ip.family = AF_INET6 ∧
      learn_info.tnl_info.remote_ip.family = AF_INET6)) :
    (ConfigFdbTableEntry env Target.ES2K tr d learn_info false).map (fun s => writes s.log) =
      some [⟨UpdateType.DELETE,
          PrepareFdbTableEntryforV4Tunnel env Target.ES2K TableEntry.fresh learn_info
            (schema tr d) false⟩,
        ⟨UpdateType.DELETE,
          PrepareL2ToTunnelV4 env TableEntry.fresh learn_info (schema tr d) false⟩,
        ⟨UpdateType.DELETE,
          PrepareFdbSmacTableEntry env TableEntry.fresh learn_info (schema tr d) false⟩] ∧
    (PrepareL2ToTunnelV4 env TableEntry.fresh learn_info (schema tr d) false).table_id =
      toU32 (GetTableId (schema tr d) (env.nm Name.L2_TO_TUNNEL_V4_TABLE)) := by
  refine ⟨?_, rfl⟩
  rw [ConfigFdbTableEntry_connected env tr d learn_info false hconn]
  have ht : (ConfigFdbTableEntry.classify env tr (connected tr d) learn_info (schema tr d)
      false).1.is_tunnel = true := by
    rw [classify_delete_fst]
    simp [h6]
  simp only [ConfigFdbTableEntry.program, ht, if_true, Bool.false_eq_true, if_false,
    Option.map_some', tunnel_writes_log, classify_delete_log, connected_log, writes_append]
  rw [classify_delete_fst]
  simp [writes, SetupType, hfam]
  exact ⟨rfl, rfl, rfl⟩

/-- Witness for C28: the sample event (IPv4 families, `is_tunnel = false`)
over a transport whose reads succeed on table 1007 (`l2_to_tunnel_v6`) only;
the L2-to-tunnel delete goes to table 1006 (`l2_to_tunnel_v4`). -/
theorem C28_l2_delete_table_follows_families_witness :
    connects transport_v6_only () ∧
    (GetL2ToTunnelV4TableEntry sample_env transport_v6_only (connected transport_v6_only ())
      (sample_learn false) (schema transport_v6_only ())).1.isSome = false ∧
    (GetL2ToTunnelV6TableEntry sample_env transport_v6_only
      (GetL2ToTunnelV4TableEntry sample_env transport_v6_only
        (connected transport_v6_only ()) (sample_learn false)
        (schema transport_v6_only ())).2
      (sample_learn false) (schema transport_v6_only ())).1.isSome = true ∧
    (ConfigFdbTableEntry sample_env Target.ES2K transport_v6_only () (sample_learn false)
      false).map (fun s => writes s.log) =
      some [⟨UpdateType.DELETE,
          ⟨1001, [⟨1, FieldMatchType.exact [0, 17, 34, 51, 68, 85]⟩,
            ⟨2, FieldMatchType.exact [1]⟩, ⟨3, FieldMatchType.exact [1]⟩], none, 0⟩⟩,
        ⟨UpdateType.DELETE,
          ⟨1006, [⟨1, FieldMatchType.exact [0, 17, 34, 51, 68, 85]⟩], none, 0⟩⟩,
        ⟨UpdateType.DELETE,
          ⟨1003, [⟨1, FieldMatchType.ternary [0, 17, 34, 51, 68, 85]
            [255, 255, 255, 255, 255, 255]⟩], none, 1⟩⟩] :=
  ⟨⟨rfl, rfl⟩, rfl, rfl,
    (C28_l2_delete_table_follows_families sample_env transport_v6_only () (sample_learn false)
      ⟨rfl, rfl⟩ rfl (by decide)).1⟩

end

/-! ### VLAN handling of the tunnel entries -/

/-- C29: on ES2K, for a tunnel record whose families are both `AF_INET` or
both `AF_INET6`, the entry of `ConfigEncapTableEntry` is built by exactly one
of four builders, chosen by the family and by whether the mode is
`NATIVE_UNTAGGED`; each builder targets its own table, and with insert intent
its action parameters are, in order, those named source address, destination
address, source port, destination port and VNI. The values are the local
address, the remote address, twice the byte-swapped destination port, the
byte-swapped destination port, and the VNI in one byte. -/
theorem C29_encap_builder_selection (env : Env) (tunnel_info : tunnel_info) (p4info : P4Info)
    (insert_entry : Bool)
    (hfam : (tunnel_info.local_ip.family = AF_INET ∧ tunnel_info.remote_ip.family = AF_INET) ∨
      (tunnel_info.local_ip.family = AF_INET6 ∧ tunnel_info.remote_ip.family = AF_INET6)) :
    ConfigEncapTableEntry.entry env Target.ES2K tunnel_info p4info insert_entry =
      (if tunnel_info.local_ip.family = AF_INET then
        if tunnel_info.vlan_info.port_vlan_mode = env.P4_PORT_VLAN_NATIVE_UNTAGGED then
          PrepareEncapAndVlanPopTableEntry env TableEntry.fresh tunnel_info p4info insert_entry
        else
          PrepareEncapTableEntry env Target.ES2K TableEntry.fresh tunnel_info p4info
            insert_entry
      else
        if tunnel_info.vlan_info.port_vlan_mode = env.P4_PORT_VLAN_NATIVE_UNTAGGED then
          PrepareV6EncapAndVlanPopTableEntry env TableEntry.fresh tunnel_info p4info
            insert_entry
        else
          PrepareV6EncapTableEntry env TableEntry.fresh tunnel_info p4info insert_entry) ∧
    (PrepareEncapAndVlanPopTableEntry env TableEntry.fresh tunnel_info p4info
        insert_entry).table_id =
      toU32 (GetTableId p4info (env.nm Name.VXLAN_ENCAP_VLAN_POP_MOD_TABLE)) ∧
    (PrepareEncapTableEntry env Target.ES2K TableEntry.fresh tunnel_info p4info
        insert_entry).table_id =
      toU32 (GetTableId p4info (env.nm Name.VXLAN_ENCAP_MOD_TABLE)) ∧
    (PrepareV6EncapAndVlanPopTableEntry env TableEntry.fresh tunnel_info p4info
        insert_entry).table_id =
      toU32 (GetTableId p4info (env.nm Name.VXLAN_ENCAP_V6_VLAN_POP_MOD_TABLE)) ∧
    (PrepareV6EncapTableEntry env TableEntry.fresh tunnel_info p4info insert_entry).table_id =
      toU32 (GetTableId p4info (env.nm Name.VXLAN_ENCAP_V6_MOD_TABLE)) ∧
    param_ids (PrepareEncapAndVlanPopTableEntry env TableEntry.fresh tunnel_info p4info true) =
      [toU32 (GetParamId p4info (env.nm Name.ACTION_VXLAN_ENCAP_VLAN_POP)
          (env.nm Name.ACTION_VXLAN_ENCAP_VLAN_POP_PARAM_SRC_ADDR)),
        toU32 (GetParamId p4info (env.nm Name.ACTION_VXLAN_ENCAP_VLAN_POP)
          (env.nm Name.ACTION_VXLAN_ENCAP_VLAN_POP_PARAM_DST_ADDR)),
        toU32 (GetParamId p4info (env.nm Name.ACTION_VXLAN_ENCAP_VLAN_POP)
          (env.nm Name.ACTION_VXLAN_ENCAP_VLAN_POP_PARAM_SRC_PORT)),
        toU32 (GetParamId p4info (env.nm Name.ACTION_VXLAN_ENCAP_VLAN_POP)
          (env.nm Name.ACTION_VXLAN_ENCAP_VLAN_POP_PARAM_DST_PORT)),
        toU32 (GetParamId p4info (env.nm Name.ACTION_VXLAN_ENCAP_VLAN_POP)
          (env.nm Name.ACTION_VXLAN_ENCAP_VLAN_POP_PARAM_VNI))] ∧
    param_ids (PrepareEncapTableEntry env Target.ES2K TableEntry.fresh tunnel_info p4info
        true) =
      [toU32 (GetParamId p4info (env.nm Name.ACTION_VXLAN_ENCAP)
          (env.nm Name.ACTION_VXLAN_ENCAP_PARAM_SRC_ADDR)),
        toU32 (GetParamId p4info (env.nm Name.ACTION_VXLAN_ENCAP)
          (env.nm Name.ACTION_VXLAN_ENCAP_PARAM_DST_ADDR)),
        toU32 (GetParamId p4info (env.nm Name.ACTION_VXLAN_ENCAP)
          (env.nm Name.ACTION_VXLAN_ENCAP_PARAM_SRC_PORT)),
        toU32 (GetParamId p4info (env.nm Name.ACTION_VXLAN_ENCAP)
          (env.nm Name.ACTION_VXLAN_ENCAP_PARAM_DST_PORT)),
        toU32 (GetParamId p4info (env.nm Name.ACTION_VXLAN_ENCAP)
          (env.nm Name.ACTION_VXLAN_ENCAP_PARAM_VNI))] ∧
    param_ids (PrepareV6EncapAndVlanPopTableEntry env TableEntry.fresh tunnel_info p4info
        true) =
      [toU32 (GetParamId p4info (env.nm Name.ACTION_VXLAN_ENCAP_V6_VLAN_POP)
          (env.nm Name.ACTION_VXLAN_ENCAP_V6_VLAN_POP_PARAM_SRC_ADDR)),
        toU32 (GetParamId p4info (env.nm Name.ACTION_VXLAN_ENCAP_V6_VLAN_POP)
          (env.nm Name.ACTION_VXLAN_ENCAP_V6_VLAN_POP_PARAM_DST_ADDR)),
        toU32 (GetParamId p4info (env.nm Name.ACTION_VXLAN_ENCAP_V6_VLAN_POP)
          (env.nm Name.ACTION_VXLAN_ENCAP_V6_VLAN_POP_PARAM_SRC_PORT)),
        toU32 (GetParamId p4info (env.nm Name.ACTION_VXLAN_ENCAP_V6_VLAN_POP)
          (env.nm Name.ACTION_VXLAN_ENCAP_V6_VLAN_POP_PARAM_DST_PORT)),
        toU32 (GetParamId p4info (env.nm Name.ACTION_VXLAN_ENCAP_V6_VLAN_POP)
          (env.nm Name.ACTION_VXLAN_ENCAP_V6_VLAN_POP_PARAM_VNI))] ∧
    param_ids (PrepareV6EncapTableEntry env TableEntry.fresh tunnel_info p4info true) =
      [toU32 (GetParamId p4info (env.nm Name.ACTION_VXLAN_ENCAP_V6)
          (env.nm Name.ACTION_VXLAN_ENCAP_V6_PARAM_SRC_ADDR)),
        toU32 (GetParamId p4info (env.nm Name.ACTION_VXLAN_ENCAP_V6)
          (env.nm Name.ACTION_VXLAN_ENCAP_V6_PARAM_DST_ADDR)),
        toU32 (GetParamId p4info (env.nm Name.ACTION_VXLAN_ENCAP_V6)
          (env.nm Name.ACTION_VXLAN_ENCAP_V6_PARAM_SRC_PORT)),
        toU32 (GetParamId p4info (env.nm Name.ACTION_VXLAN_ENCAP_V6)
          (env.nm Name.ACTION_VXLAN_ENCAP_V6_PARAM_DST_PORT)),
        toU32 (GetParamId p4info (env.nm Name.ACTION_VXLAN_ENCAP_V6)
          (env.nm Name.ACTION_VXLAN_ENCAP_V6_PARAM_VNI))] ∧
    param_values (PrepareEncapTableEntry env Target.ES2K TableEntry.fresh tunnel_info p4info
        true) =
      [CanonicalizeIp tunnel_info.local_ip.ip.v4addr.s_addr,
        CanonicalizeIp tunnel_info.remote_ip.ip.v4addr.s_addr,
        EncodeByteValue 2 [((((htons tunnel_info.dst_port * 2) >>> 8) &&& 0xff : Nat) : Int),
          (((htons tunnel_info.dst_port * 2) &&& 0xff : Nat) : Int)],
        EncodeByteValue 2 [(((htons tunnel_info.dst_port >>> 8) &&& 0xff : Nat) : Int),
          ((htons tunnel_info.dst_port &&& 0xff : Nat) : Int)],
        EncodeByteValue 1 [(tunnel_info.vni : Int)]] ∧
    param_values (PrepareV6EncapTableEntry env TableEntry.fresh tunnel_info p4info true) =
      [CanonicalizeIpv6 tunnel_info.local_ip.ip.v6addr,
        CanonicalizeIpv6 tunnel_info.remote_ip.ip.v6addr,
        EncodeByteValue 2 [((((htons tunnel_info.dst_port * 2) >>> 8) &&& 0xff : Nat) : Int),
          (((htons tunnel_info.dst_port * 2) &&& 0xff : Nat) : Int)],
        EncodeByteValue 2 [(((htons tunnel_info.dst_port >>> 8) &&& 0xff : Nat) : Int),
          ((htons tunnel_info.dst_port &&& 0xff : Nat) : Int)],
        EncodeByteValue 1 [(tunnel_info.vni : Int)]] := by
  refine ⟨?_, ?_, ?_, ?_, ?_, rfl, rfl, rfl, rfl, rfl, rfl⟩
  · rcases hfam with ⟨hl, hr⟩ | ⟨hl, hr⟩
    · simp only [ConfigEncapTableEntry.entry, hl, hr, and_self, if_true]
    · have h4 : ¬ (AF_INET6 = AF_INET) := by decide
      simp only [ConfigEncapTableEntry.entry, hl, hr, and_self, if_true, h4, false_and,
        if_false]
  all_goals cases insert_entry <;> rfl

/-- Witness for C29: the sample IPv4 tunnel in native-untagged mode over the
tunnel schema, with insert intent: table 1102, action 2102, parameters 1 to 5
in order. -/
theorem C29_encap_builder_selection_witness :
    sample_untagged_tunnel.local_ip.family = AF_INET ∧
    sample_untagged_tunnel.remote_ip.family = AF_INET ∧
    sample_untagged_tunnel.vlan_info.port_vlan_mode = sample_env.P4_PORT_VLAN_NATIVE_UNTAGGED ∧
    ConfigEncapTableEntry.entry sample_env Target.ES2K sample_untagged_tunnel
        sample_p4info_vxlan true =
      ⟨1102, [⟨1, FieldMatchType.exact [100]⟩],
        some ⟨2102, [⟨1, [10, 0, 0, 1]⟩, ⟨2, [10, 0, 0, 2]⟩, ⟨3, [106, 36]⟩, ⟨4, [181, 18]⟩,
          ⟨5, [100]⟩]⟩, 0⟩ :=
  ⟨rfl, rfl, rfl,
    (C29_encap_builder_selection sample_env sample_untagged_tunnel sample_p4info_vxlan true
      (Or.inl ⟨rfl, rfl⟩)).1⟩

/-- C30 counterexample: the sample tunnel with an IPv4 local and an IPv6
remote address in native-untagged mode, on ES2K with insert intent.
`ConfigDecapTableEntry` builds the decap-and-VLAN-push entry (table 1106,
action 2106), while `ConfigEncapTableEntry` runs no builder, so its entry is
neither VLAN-pop variant, and the termination entry has no action. -/
theorem C30_counterexample :
    sample_mixed_untagged_tunnel.vlan_info.port_vlan_mode =
      sample_env.P4_PORT_VLAN_NATIVE_UNTAGGED ∧
    ConfigDecapTableEntry.entry sample_env sample_mixed_untagged_tunnel sample_p4info_vxlan
        true =
      PrepareDecapModAndVlanPushTableEntry sample_env TableEntry.fresh
        sample_mixed_untagged_tunnel sample_p4info_vxlan true ∧
    (ConfigDecapTableEntry.entry sample_env sample_mixed_untagged_tunnel sample_p4info_vxlan
        true).table_id = 1106 ∧
    ConfigEncapTableEntry.entry sample_env Target.ES2K sample_mixed_untagged_tunnel
        sample_p4info_vxlan true = TableEntry.fresh ∧
    ConfigEncapTableEntry.entry sample_env Target.ES2K sample_mixed_untagged_tunnel
        sample_p4info_vxlan true ≠
      PrepareEncapAndVlanPopTableEntry sample_env TableEntry.fresh
        sample_mixed_untagged_tunnel sample_p4info_vxlan true ∧
    ConfigEncapTableEntry.entry sample_env Target.ES2K sample_mixed_untagged_tunnel
        sample_p4info_vxlan true ≠
      PrepareV6EncapAndVlanPopTableEntry sample_env TableEntry.fresh
        sample_mixed_untagged_tunnel sample_p4info_vxlan true ∧
    (ConfigTunnelTermTableEntry.entry sample_env Target.ES2K sample_mixed_untagged_tunnel
        sample_p4info_vxlan true).action = none := by
  decide

/-- C30 (amended): on ES2K, with insert intent, for a tunnel record whose
families are both `AF_INET` or both `AF_INET6`, `NATIVE_TAGGED` and
`NATIVE_UNTAGGED` being distinct enumerators, the three tunnel entries agree
on the VLAN handling. In `NATIVE_UNTAGGED` mode the
encapsulation entry is built by the VLAN-pop builder of the family, the
decapsulation entry by the decap-and-VLAN-push builder, and the termination
action is decap-and-push-VLAN; in `NATIVE_TAGGED` mode the three are the plain
encap builder of the family, the plain decap builder and the plain decap
action. -/
theorem C30_vlan_handling_consistent (env : Env) (tunnel_info : tunnel_info)
    (p4info : P4Info)
    (hne : env.P4_PORT_VLAN_NATIVE_TAGGED ≠ env.P4_PORT_VLAN_NATIVE_UNTAGGED)
    (hfam : (tunnel_info.local_ip.family = AF_INET ∧ tunnel_info.remote_ip.family = AF_INET) ∨
      (tunnel_info.local_ip.family = AF_INET6 ∧ tunnel_info.remote_ip.family = AF_INET6)) :
    (tunnel_info.vlan_info.port_vlan_mode = env.P4_PORT_VLAN_NATIVE_UNTAGGED →
      ConfigEncapTableEntry.entry env Target.ES2K tunnel_info p4info true =
        (if tunnel_info.local_ip.family = AF_INET then
          PrepareEncapAndVlanPopTableEntry env TableEntry.fresh tunnel_info p4info true
        else PrepareV6EncapAndVlanPopTableEntry env TableEntry.fresh tunnel_info p4info true) ∧
      ConfigDecapTableEntry.entry env tunnel_info p4info true =
        PrepareDecapModAndVlanPushTableEntry env TableEntry.fresh tunnel_info p4info true ∧
      (ConfigTunnelTermTableEntry.entry env Target.ES2K tunnel_info p4info true).action =
        some ⟨toU32 (GetActionId p4info (env.nm Name.ACTION_DECAP_OUTER_HDR_AND_PUSH_VLAN)),
          [⟨toU32 (GetParamId p4info (env.nm Name.ACTION_DECAP_OUTER_HDR_AND_PUSH_VLAN)
              (env.nm Name.ACTION_DECAP_OUTER_HDR_AND_PUSH_VLAN_PARAM_TUNNEL_ID)),
            EncodeByteValue 1 [(tunnel_info.vni : Int)]⟩]⟩) ∧
    (tunnel_info.vlan_info.port_vlan_mode = env.P4_PORT_VLAN_NATIVE_TAGGED →
      ConfigEncapTableEntry.entry env Target.ES2K tunnel_info p4info true =
        (if tunnel_info.local_ip.family = AF_INET then
          PrepareEncapTableEntry env Target.ES2K TableEntry.fresh tunnel_info p4info true
        else PrepareV6EncapTableEntry env TableEntry.fresh tunnel_info p4info true) ∧
      ConfigDecapTableEntry.entry env tunnel_info p4info true =
        PrepareDecapModTableEntry env TableEntry.fresh tunnel_info p4info true ∧
      (ConfigTunnelTermTableEntry.entry env Target.ES2K tunnel_info p4info true).action =
        some ⟨toU32 (GetActionId p4info (env.nm Name.ACTION_DECAP_OUTER_HDR)),
          [⟨toU32 (GetParamId p4info (env.nm Name.ACTION_DECAP_OUTER_HDR)
              (env.nm Name.ACTION_DECAP_OUTER_HDR_PARAM_TUNNEL_ID)),
            EncodeByteValue 1 [(tunnel_info.vni : Int)]⟩]⟩) := by
  have h4 : ¬ (AF_INET6 = AF_INET) := by decide
  have hne' : ¬ (env.P4_PORT_VLAN_NATIVE_UNTAGGED = env.P4_PORT_VLAN_NATIVE_TAGGED) :=
    fun h => hne h.symm
  constructor
  · intro hu
    rcases hfam with ⟨hl, hr⟩ | ⟨hl, hr⟩
    · simp only [ConfigEncapTableEntry.entry, ConfigDecapTableEntry.entry,
        ConfigTunnelTermTableEntry.entry, PrepareTunnelTermTableEntry, hl, hr, hu, hne',
        and_self, if_true, if_false, true_and]
      rfl
    · simp only [ConfigEncapTableEntry.entry, ConfigDecapTableEntry.entry,
        ConfigTunnelTermTableEntry.entry, PrepareV6TunnelTermTableEntry, hl, hr, hu, hne', h4,
        false_and, and_self, if_true, if_false, true_and]
      rfl
  · intro ht
    rcases hfam with ⟨hl, hr⟩ | ⟨hl, hr⟩
    · simp only [ConfigEncapTableEntry.entry, ConfigDecapTableEntry.entry,
        ConfigTunnelTermTableEntry.entry, PrepareTunnelTermTableEntry, hl, hr, ht, hne,
        and_self, if_true, if_false, true_and]
      rfl
    · simp only [ConfigEncapTableEntry.entry, ConfigDecapTableEntry.entry,
        ConfigTunnelTermTableEntry.entry, PrepareV6TunnelTermTableEntry, hl, hr, ht, hne, h4,
        false_and, and_self, if_true, if_false, true_and]
      rfl

/-- Witness for C30: the sample IPv4 tunnel in native-untagged mode over the
tunnel schema: encapsulation table 1102 (VLAN pop), decapsulation table 1106
(VLAN push), termination action 2108 (decap and push VLAN). -/
theorem C30_vlan_handling_consistent_witness :
    sample_env.P4_PORT_VLAN_NATIVE_TAGGED ≠ sample_env.P4_PORT_VLAN_NATIVE_UNTAGGED ∧
    sample_untagged_tunnel.vlan_info.port_vlan_mode = sample_env.P4_PORT_VLAN_NATIVE_UNTAGGED ∧
    (ConfigEncapTableEntry.entry sample_env Target.ES2K sample_untagged_tunnel
      sample_p4info_vxlan true).table_id = 1102 ∧
    (ConfigDecapTableEntry.entry sample_env sample_untagged_tunnel sample_p4info_vxlan
      true).table_id = 1106 ∧
    (ConfigTunnelTermTableEntry.entry sample_env Target.ES2K sample_untagged_tunnel
      sample_p4info_vxlan true).action = some ⟨2108, [⟨1, [100]⟩]⟩ :=
  ⟨by decide, rfl, by decide, by decide,
    ((C30_vlan_handling_consistent sample_env sample_untagged_tunnel sample_p4info_vxlan
      (by decide) (Or.inl ⟨rfl, rfl⟩)).1 rfl).2.2⟩

/-! ### Port encodings -/

theorem be16_eq (v : Nat) : be16 v = [v / 256 % 256, v % 256] := by
  have h : ∀ x : Nat, x &&& 0xff = x % 256 := fun x => Nat.and_pow_two_sub_one_eq_mod x 8
  simp only [be16, EncodeByteValue, toU8_natCast, h, Nat.shiftRight_eq_div_pow, Nat.mod_mod]

theorem be_decode_be16 (v : Nat) : be_decode (be16 v) = v % 65536 := by
  rw [be16_eq]
  simp only [be_decode, List.foldl]
  omega

theorem htons_lt (x : Nat) : htons x < 65536 := by
  unfold htons
  omega

theorem doubled_port_bytes (h : Nat) :
    EncodeByteValue 2 [((((h * 2) >>> 8) &&& 0xff : Nat) : Int), (((h * 2) &&& 0xff : Nat) : Int)]
      = be16 (2 * h % 65536) := by
  have e : ∀ x : Nat, x &&& 0xff = x % 256 := fun x => Nat.and_pow_two_sub_one_eq_mod x 8
  rw [be16_eq]
  simp only [EncodeByteValue, toU8_natCast, e, Nat.shiftRight_eq_div_pow, Nat.mod_mod]
  have h1 : h * 2 / 2 ^ 8 % 256 = 2 * h % 65536 / 256 % 256 := by omega
  have h2 : h * 2 % 256 = 2 * h % 65536 % 256 := by omega
  rw [h1, h2]

/-- C31: on ES2K, in each of the four encapsulation builders, with insert
intent, the source-port parameter (third) is the two-byte big-endian encoding
of `2 * htons(dst_port)` modulo 2^16 and the destination-port parameter
(fourth) is the two-byte big-endian encoding of `htons(dst_port)`; both read
back, big-endian, as these values. The builders do not read `src_port`: a
record with any other `src_port` gives the same entry, for either intent. -/
theorem C31_encap_port_parameters (env : Env) (tunnel_info : tunnel_info) (p4info : P4Info)
    (insert_entry : Bool) (src_port : Nat) :
    (param_values (PrepareEncapTableEntry env Target.ES2K TableEntry.fresh tunnel_info p4info
        true))[2]? = some (be16 (2 * htons tunnel_info.dst_port % 65536)) ∧
    (param_values (PrepareEncapTableEntry env Target.ES2K TableEntry.fresh tunnel_info p4info
        true))[3]? = some (be16 (htons tunnel_info.dst_port)) ∧
    (param_values (PrepareV6EncapTableEntry env TableEntry.fresh tunnel_info p4info
        true))[2]? = some (be16 (2 * htons tunnel_info.dst_port % 65536)) ∧
    (param_values (PrepareV6EncapTableEntry env TableEntry.fresh tunnel_info p4info
        true))[3]? = some (be16 (htons tunnel_info.dst_port)) ∧
    (param_values (PrepareEncapAndVlanPopTableEntry env TableEntry.fresh tunnel_info p4info
        true))[2]? = some (be16 (2 * htons tunnel_info.dst_port % 65536)) ∧
    (param_values (PrepareEncapAndVlanPopTableEntry env TableEntry.fresh tunnel_info p4info
        true))[3]? = some (be16 (htons tunnel_info.dst_port)) ∧
    (param_values (PrepareV6EncapAndVlanPopTableEntry env TableEntry.fresh tunnel_info p4info
        true))[2]? = some (be16 (2 * htons tunnel_info.dst_port % 65536)) ∧
    (param_values (PrepareV6EncapAndVlanPopTableEntry env TableEntry.fresh tunnel_info p4info
        true))[3]? = some (be16 (htons tunnel_info.dst_port)) ∧
    be_decode (be16 (2 * htons tunnel_info.dst_port % 65536)) =
      2 * htons tunnel_info.dst_port % 65536 ∧
    be_decode (be16 (htons tunnel_info.dst_port)) = htons tunnel_info.dst_port ∧
    PrepareEncapTableEntry env Target.ES2K TableEntry.fresh
        { tunnel_info with src_port := src_port } p4info insert_entry =
      PrepareEncapTableEntry env Target.ES2K TableEntry.fresh tunnel_info p4info
        insert_entry ∧
    PrepareV6EncapTableEntry env TableEntry.fresh
        { tunnel_info with src_port := src_port } p4info insert_entry =
      PrepareV6EncapTableEntry env TableEntry.fresh tunnel_info p4info insert_entry ∧
    PrepareEncapAndVlanPopTableEntry env TableEntry.fresh
        { tunnel_info with src_port := src_port } p4info insert_entry =
      PrepareEncapAndVlanPopTableEntry env TableEntry.fresh tunnel_info p4info insert_entry ∧
    PrepareV6EncapAndVlanPopTableEntry env TableEntry.fresh
        { tunnel_info with src_port := src_port } p4info insert_entry =
      PrepareV6EncapAndVlanPopTableEntry env TableEntry.fresh tunnel_info p4info
        insert_entry := by
  have hs := doubled_port_bytes (htons tunnel_info.dst_port)
  have hd : EncodeByteValue 2 [(((htons tunnel_info.dst_port >>> 8) &&& 0xff : Nat) : Int),
      ((htons tunnel_info.dst_port &&& 0xff : Nat) : Int)] = be16 (htons tunnel_info.dst_port) :=
    rfl
  have hb1 : be_decode (be16 (2 * htons tunnel_info.dst_port % 65536)) =
      2 * htons tunnel_info.dst_port % 65536 := by
    rw [be_decode_be16]
    omega
  have hb2 : be_decode (be16 (htons tunnel_info.dst_port)) = htons tunnel_info.dst_port := by
    rw [be_decode_be16]
    exact Nat.mod_eq_of_lt (htons_lt _)
  refine ⟨?_, ?_, ?_, ?_, ?_, ?_, ?_, ?_, hb1, hb2, rfl, rfl, rfl, rfl⟩
  all_goals
    first
    | exact congrArg some hs
    | exact congrArg some hd

/-! ### Ternary match fields -/

theorem byte_and_not_ff (x : Nat) : x % 256 &&& (0xff ^^^ 0xff) = 0 := by
  have h : (0xff ^^^ 0xff : Nat) = 0 := by decide
  rw [h, Nat.and_zero]

theorem nibble_and_not_0f (x : Nat) : x % 16 &&& (0x0f ^^^ 0xff) = 0 := by
  have h : (0x0f ^^^ 0xff : Nat) = 240 := by decide
  have e : x % 16 = x &&& 15 := (Nat.and_pow_two_sub_one_eq_mod x 4).symm
  have z : (15 &&& 240 : Nat) = 0 := by decide
  rw [h, e, Nat.and_assoc, z, Nat.and_zero]

theorem src_port_entry_ternary_fields (env : Env) (sp : src_port_info) (p4info : P4Info)
    (insert_entry : Bool) :
    ternary_fields (PrepareSrcPortTableEntry env TableEntry.fresh sp p4info insert_entry) =
      [([sp.src_port / 256 % 256, sp.src_port % 256], [0xff, 0xff]),
        ([sp.vlan_id / 256 % 16, sp.vlan_id % 256], [0x0f, 0xff])] := by
  have e : ∀ x : Nat, x &&& 0xff = x % 256 := fun x => Nat.and_pow_two_sub_one_eq_mod x 8
  have e4 : ∀ x : Nat, x &&& 0x0f = x % 16 := fun x => Nat.and_pow_two_sub_one_eq_mod x 4
  have m16 : ∀ x : Nat, x % 16 % 256 = x % 16 := fun x => by omega
  cases insert_entry <;>
    simp [ternary_fields, PrepareSrcPortTableEntry, set_table_id, set_priority, add_ternary,
      mutable_action, set_action_id, add_param, TableEntry.fresh, EncodeByteValue,
      toU8_natCast, e, e4, m16, Nat.shiftRight_eq_div_pow] <;>
    (unfold toU8; omega)

/-- C32: for every record and either intent, the match fields built by
`PrepareSrcPortTableEntry` and `PrepareFdbSmacTableEntry` are all ternary and
in canonical form: value and mask have the same length and the value has no
bit outside the mask. The source-port key is the two-byte big-endian encoding
of the low 16 bits of `src_port` under mask ffff, the VLAN key holds the low
12 bits of `vlan_id` under mask 0fff, and the source-MAC key holds the six
bytes of the address under mask ffffffffffff. -/
theorem C32_ternary_fields_canonical (env : Env) (sp : src_port_info)
    (learn_info : mac_learning_info) (p4info : P4Info) (insert_entry : Bool) :
    ternary_fields (PrepareSrcPortTableEntry env TableEntry.fresh sp p4info insert_entry) =
      [([sp.src_port / 256 % 256, sp.src_port % 256], [0xff, 0xff]),
        ([sp.vlan_id / 256 % 16, sp.vlan_id % 256], [0x0f, 0xff])] ∧
    (PrepareSrcPortTableEntry env TableEntry.fresh sp p4info insert_entry).match_.length = 2 ∧
    ternary_fields (PrepareFdbSmacTableEntry env TableEntry.fresh learn_info p4info
        insert_entry) =
      [([learn_info.mac_addr 0 % 256, learn_info.mac_addr 1 % 256,
          learn_info.mac_addr 2 % 256, learn_info.mac_addr 3 % 256,
          learn_info.mac_addr 4 % 256, learn_info.mac_addr 5 % 256],
        [0xff, 0xff, 0xff, 0xff, 0xff, 0xff])] ∧
    (PrepareFdbSmacTableEntry env TableEntry.fresh learn_info p4info
        insert_entry).match_.length = 1 ∧
    (∀ vm ∈ ternary_fields
        (PrepareSrcPortTableEntry env TableEntry.fresh sp p4info insert_entry),
      canonical_ternary vm.1 vm.2) ∧
    (∀ vm ∈ ternary_fields
        (PrepareFdbSmacTableEntry env TableEntry.fresh learn_info p4info insert_entry),
      canonical_ternary vm.1 vm.2) ∧
    be_decode [sp.src_port / 256 % 256, sp.src_port % 256] = sp.src_port % 65536 ∧
    be_decode [sp.vlan_id / 256 % 16, sp.vlan_id % 256] = sp.vlan_id % 4096 := by
  have e : ∀ x : Nat, x &&& 0xff = x % 256 := fun x => Nat.and_pow_two_sub_one_eq_mod x 8
  have hsp := src_port_entry_ternary_fields env sp p4info insert_entry
  have hsm : ternary_fields
      (PrepareFdbSmacTableEntry env TableEntry.fresh learn_info p4info insert_entry) =
      [([learn_info.mac_addr 0 % 256, learn_info.mac_addr 1 % 256,
          learn_info.mac_addr 2 % 256, learn_info.mac_addr 3 % 256,
          learn_info.mac_addr 4 % 256, learn_info.mac_addr 5 % 256],
        [0xff, 0xff, 0xff, 0xff, 0xff, 0xff])] := by
    cases insert_entry <;>
      simp [ternary_fields, PrepareFdbSmacTableEntry, set_table_id, set_priority, add_ternary,
        mutable_action, set_action_id, TableEntry.fresh, CanonicalizeMac, EncodeByteValue,
        toU8_natCast, e] <;>
      (unfold toU8; omega)
  refine ⟨hsp, ?_, hsm, ?_, ?_, ?_, ?_, ?_⟩
  · cases insert_entry <;> rfl
  · cases insert_entry <;> rfl
  · rw [hsp]
    intro vm hvm
    simp only [List.mem_cons, List.mem_singleton, List.not_mem_nil, or_false] at hvm
    rcases hvm with rfl | rfl
    · refine ⟨rfl, ?_⟩
      intro b hb
      simp only [outside_mask, List.zipWith, List.mem_cons, List.not_mem_nil, or_false] at hb
      rcases hb with rfl | rfl <;> exact byte_and_not_ff _
    · refine ⟨rfl, ?_⟩
      intro b hb
      simp only [outside_mask, List.zipWith, List.mem_cons, List.not_mem_nil, or_false] at hb
      rcases hb with rfl | rfl
      · exact nibble_and_not_0f _
      · exact byte_and_not_ff _
  · rw [hsm]
    intro vm hvm
    simp only [List.mem_singleton] at hvm
    subst hvm
    refine ⟨rfl, ?_⟩
    intro b hb
    simp only [outside_mask, List.zipWith, List.mem_cons, List.not_mem_nil, or_false] at hb
    rcases hb with rfl | rfl | rfl | rfl | rfl | rfl <;> exact byte_and_not_ff _
  · simp only [be_decode, List.foldl]
    omega
  · simp only [be_decode, List.foldl]
    omega

/-- C33 (behaviour of the code): with insert intent the set-source-port
parameter of `PrepareRxTunnelTableEntry` is the two-byte big-endian encoding
of `src_port`, while that of `PrepareV6RxTunnelTableEntry` is the single byte
`src_port mod 256`: the two encodings never have the same length, and for
`src_port = 300` the IPv4 parameter is 012c and the IPv6 parameter is 2c,
which reads back as 44. -/
theorem C33_v6_rx_port_is_one_byte (env : Env) (tunnel_info : tunnel_info) (p4info : P4Info) :
    param_values (PrepareRxTunnelTableEntry env TableEntry.fresh tunnel_info p4info true) =
      [be16 tunnel_info.src_port] ∧
    param_values (PrepareV6RxTunnelTableEntry env TableEntry.fresh tunnel_info p4info true) =
      [[tunnel_info.src_port % 256]] ∧
    be_decode (be16 tunnel_info.src_port) = tunnel_info.src_port % 65536 ∧
    be_decode [tunnel_info.src_port % 256] = tunnel_info.src_port % 256 ∧
    param_values (PrepareRxTunnelTableEntry sample_env TableEntry.fresh sample_port300_tunnel
      sample_p4info true) = [[1, 44]] ∧
    param_values (PrepareV6RxTunnelTableEntry sample_env TableEntry.fresh
      sample_port300_tunnel sample_p4info true) = [[44]] := by
  refine ⟨rfl, ?_, be_decode_be16 _, ?_, by decide, by decide⟩
  · simp [param_values, PrepareV6RxTunnelTableEntry, set_table_id, add_exact, mutable_action,
      set_action_id, add_param, the_action, TableEntry.fresh, EncodeByteValue, toU8_natCast]
  · simp [be_decode]

/-! ### The port-recovery loop -/

theorem or_mod_two_pow (a b n : Nat) : (a ||| b) % 2 ^ n = a % 2 ^ n ||| b % 2 ^ n := by
  apply Nat.eq_of_testBit_eq
  intro i
  simp only [Nat.testBit_mod_two_pow, Nat.testBit_or]
  by_cases hi : i < n <;> simp [hi]

theorem host_sp_round_congr_8 (c h h' : Nat) :
    ((h <<< 8) % 4294967296 ||| c) % 2 ^ 8 = ((h' <<< 8) % 4294967296 ||| c) % 2 ^ 8 := by
  rw [or_mod_two_pow, or_mod_two_pow, Nat.shiftLeft_eq, Nat.shiftLeft_eq]
  have e : h * 2 ^ 8 % 4294967296 % 2 ^ 8 = h' * 2 ^ 8 % 4294967296 % 2 ^ 8 := by omega
  rw [e]

theorem host_sp_round_congr_16 (c h h' : Nat) (e : h % 2 ^ 8 = h' % 2 ^ 8) :
    ((h <<< 8) % 4294967296 ||| c) % 2 ^ 16 = ((h' <<< 8) % 4294967296 ||| c) % 2 ^ 16 := by
  rw [or_mod_two_pow, or_mod_two_pow, Nat.shiftLeft_eq, Nat.shiftLeft_eq]
  have e' : h * 2 ^ 8 % 4294967296 % 2 ^ 16 = h' * 2 ^ 8 % 4294967296 % 2 ^ 16 := by omega
  rw [e']

theorem host_sp_round_congr_24 (c h h' : Nat) (e : h % 2 ^ 16 = h' % 2 ^ 16) :
    ((h <<< 8) % 4294967296 ||| c) % 2 ^ 24 = ((h' <<< 8) % 4294967296 ||| c) % 2 ^ 24 := by
  rw [or_mod_two_pow, or_mod_two_pow, Nat.shiftLeft_eq, Nat.shiftLeft_eq]
  have e' : h * 2 ^ 8 % 4294967296 % 2 ^ 24 = h' * 2 ^ 8 % 4294967296 % 2 ^ 24 := by omega
  rw [e']

theorem host_sp_round_congr_32 (c h h' : Nat) (e : h % 2 ^ 24 = h' % 2 ^ 24) :
    ((h <<< 8) % 4294967296 ||| c) = ((h' <<< 8) % 4294967296 ||| c) := by
  have e' : (h <<< 8) % 4294967296 = (h' <<< 8) % 4294967296 := by
    rw [Nat.shiftLeft_eq, Nat.shiftLeft_eq]
    omega
  rw [e']

theorem host_sp_bytes_from_zero (env : Env) (s2 : Bytes) (host_sp : Nat) :
    host_sp_bytes env s2 host_sp = host_sp_bytes env s2 0 := by
  unfold host_sp_bytes host_sp_step
  cases string_at s2 0 with
  | none => rfl
  | some c0 =>
    cases string_at s2 1 with
    | none => rfl
    | some c1 =>
      cases string_at s2 2 with
      | none => rfl
      | some c2 =>
        cases string_at s2 3 with
        | none => rfl
        | some c3 =>
          simp only [Option.some_bind]
          congr 1
          apply host_sp_round_congr_32
          apply host_sp_round_congr_24
          apply host_sp_round_congr_16
          apply host_sp_round_congr_8

theorem string_at_eq_none (s : Bytes) (pos : Nat) (h : string_at s pos = none) :
    s.length < pos := by
  unfold string_at at h
  by_cases h1 : pos < s.length
  · simp [h1, List.getElem?_eq_getElem h1] at h
  · by_cases h2 : pos = s.length
    · simp [h1, h2] at h
    · omega

theorem string_at_eq_some (s : Bytes) (pos c : Nat) (h : string_at s pos = some c) :
    pos ≤ s.length := by
  unfold string_at at h
  by_cases h1 : pos < s.length
  · omega
  · by_cases h2 : pos = s.length
    · omega
    · simp [h1, h2] at h

theorem host_sp_bytes_isSome (env : Env) (s2 : Bytes) (host_sp : Nat) :
    (host_sp_bytes env s2 host_sp).isSome = true ↔ 3 ≤ s2.length := by
  unfold host_sp_bytes host_sp_step
  cases h0 : string_at s2 0 with
  | none =>
    have := string_at_eq_none s2 0 h0
    omega
  | some c0 =>
    cases h1 : string_at s2 1 with
    | none =>
      have := string_at_eq_none s2 1 h1
      simp only [Option.some_bind, Option.none_bind, Option.isSome_none]
      exact ⟨fun h => absurd h (by decide), fun h => by omega⟩
    | some c1 =>
      cases h2 : string_at s2 2 with
      | none =>
        have := string_at_eq_none s2 2 h2
        simp only [Option.some_bind, Option.none_bind, Option.isSome_none]
        exact ⟨fun h => absurd h (by decide), fun h => by omega⟩
      | some c2 =>
        cases h3 : string_at s2 3 with
        | none =>
          have := string_at_eq_none s2 3 h3
          simp only [Option.some_bind, Option.isSome_none]
          exact ⟨fun h => absurd h (by decide), fun h => by omega⟩
        | some c3 =>
          have := string_at_eq_some s2 3 c3 h3
          simp only [Option.some_bind, Option.isSome_some]
          exact ⟨fun _ => this, fun _ => trivial⟩

theorem host_sp_params_eq (env : Env) (param_id : Int) (host_sp : Nat) (params : List Param) :
    host_sp_params env param_id host_sp params =
      match first_port_value param_id params with
      | none => some host_sp
      | some v => host_sp_bytes env v host_sp := by
  induction params with
  | nil => rfl
  | cons p rest ih =>
    by_cases h : toU32 param_id = p.param_id
    · simp only [host_sp_params, first_port_value, h, if_true]
    · simp only [host_sp_params, first_port_value, h, if_false]
      exact ih

theorem first_port_value_none (param_id : Int) (params : List Param)
    (h : ∀ p ∈ params, toU32 param_id ≠ p.param_id) :
    first_port_value param_id params = none := by
  induction params with
  | nil => rfl
  | cons p rest ih =>
    have h1 : toU32 param_id ≠ p.param_id := h p (List.mem_cons_self _ _)
    simp only [first_port_value, h1, if_false]
    exact ih fun q hq => h q (List.mem_cons_of_mem _ hq)

theorem last_port_value_none (param_id : Int) (entities : List TableEntry)
    (h : ∀ e ∈ entities, ∀ p ∈ (the_action e).params, toU32 param_id ≠ p.param_id) :
    last_port_value param_id entities = none := by
  induction entities with
  | nil => rfl
  | cons e rest ih =>
    simp only [last_port_value, ih fun e' he' => h e' (List.mem_cons_of_mem _ he'),
      first_port_value_none param_id _ (h e (List.mem_cons_self _ _))]

theorem host_sp_entities_eq (env : Env) (param_id : Int) (entities : List TableEntry)
    (hdef : ∀ e ∈ entities,
      (first_port_value param_id (the_action e).params).all
        (fun v => decide (3 ≤ v.length)) = true) (host_sp : Nat) :
    host_sp_entities env param_id host_sp entities =
      match last_port_value param_id entities with
      | none => some host_sp
      | some v => host_sp_bytes env v 0 := by
  induction entities generalizing host_sp with
  | nil => rfl
  | cons e rest ih =>
    have hrest := ih fun e' he' => hdef e' (List.mem_cons_of_mem _ he')
    have he := hdef e (List.mem_cons_self _ _)
    simp only [host_sp_entities, host_sp_params_eq, last_port_value]
    cases hf : first_port_value param_id (the_action e).params with
    | none =>
      simp only [hrest]
      cases last_port_value param_id rest <;> rfl
    | some v =>
      rw [hf] at he
      simp only [Option.all_some, decide_eq_true_eq] at he
      have hs := (host_sp_bytes_isSome env v host_sp).mpr he
      obtain ⟨r, hb⟩ := Option.isSome_iff_exists.mp hs
      cases hl : last_port_value param_id rest with
      | none =>
        simp only [hrest, hl, hb]
        exact hb.symm.trans (host_sp_bytes_from_zero env v host_sp)
      | some w => simp only [hrest, hl, hb]

/-- C34: the value of `host_sp` after the recovery loop, for a read response
in which every matched parameter value has at least three bytes (so that the
four accesses are defined). It is 0 when no entity has a parameter with the
port parameter id; otherwise it is what the four rounds compute, starting
from 0, from the first matching parameter of the last entity that has one.
Whatever `host_sp` held before the four rounds is shifted out. -/
theorem C34_host_sp_from_last_match (env : Env) (p4info : P4Info)
    (read_response : ReadResponse)
    (hdef : ∀ e ∈ read_response.entities,
      (first_port_value (port_param_id env p4info) (the_action e).params).all
        (fun v => decide (3 ≤ v.length)) = true) :
    host_sp_of env p4info read_response =
      (match last_port_value (port_param_id env p4info) read_response.entities with
      | none => some 0
      | some v => host_sp_bytes env v 0) ∧
    ((∀ e ∈ read_response.entities, ∀ p ∈ (the_action e).params,
        toU32 (port_param_id env p4info) ≠ p.param_id) →
      host_sp_of env p4info read_response = some 0) ∧
    (∀ (s2 : Bytes) (host_sp : Nat),
      host_sp_bytes env s2 host_sp = host_sp_bytes env s2 0) := by
  have h := host_sp_entities_eq env (port_param_id env p4info) read_response.entities hdef 0
  refine ⟨h, ?_, host_sp_bytes_from_zero env⟩
  intro hno
  have hn := last_port_value_none (port_param_id env p4info) read_response.entities hno
  rw [hn] at h
  exact h

/-- Witness for C34: a response with two entries whose port parameters hold 9
and 7; the recovered port is 7. -/
theorem C34_host_sp_from_last_match_witness :
    last_port_value (port_param_id sample_env sample_p4info)
      sample_two_entry_response.entities = some [0, 0, 0, 7] ∧
    host_sp_bytes sample_env [0, 0, 0, 7] 0 = some 7 ∧
    host_sp_of sample_env sample_p4info sample_two_entry_response = some 7 :=
  ⟨by decide, by decide,
    (C34_host_sp_from_last_match sample_env sample_p4info sample_two_entry_response
      (by decide)).1⟩

/-- C35 (behaviour of the code): the four accesses `s2[0..3]` of the recovery
loop are defined exactly when the matched parameter value has at least three
bytes (the fourth access may read the terminating zero). For a value of one
or two bytes the access `s2[3]` is past the end: with the port parameter 7
held in one byte the loop has no defined result, and neither has
`ConfigSrcPortTableEntry` over a transport that returns this response. -/
theorem C35_short_value_read_past_end (env : Env) (s2 : Bytes) (host_sp : Nat) :
    ((host_sp_bytes env s2 host_sp).isSome = true ↔ 3 ≤ s2.length) ∧
    string_at [7] 1 = some 0 ∧ string_at [7] 2 = none ∧ string_at [7] 3 = none ∧
    host_sp_of sample_env sample_p4info sample_short_response = none ∧
    (ConfigSrcPortTableEntry sample_env Target.ES2K transport_short_mapping ()
      ⟨1, 5, 20⟩ true).isNone = true ∧
    (ConfigFdbTableEntry sample_env Target.ES2K transport_short_mapping ()
      (sample_learn false) true).isNone = true :=
  ⟨host_sp_bytes_isSome env s2 host_sp, by decide, by decide, by decide, by decide, by decide,
    by decide⟩

/-! ### The entry points without a session, the DPDK forwarding path and the
source-port mapping -/

section
variable {σ : Type}

/-- C36: for each of the seven entry points, on either profile and for every
event and intent, if session creation fails or the schema fetch fails the
call returns and has issued no request, neither read nor write. -/
theorem C36_no_request_without_session (env : Env) (t : Target) (tr : Transport σ) (d : σ)
    (learn_info : mac_learning_info) (tunnel_info : tunnel_info) (sp : src_port_info)
    (vlan_id : Nat) (insert_entry : Bool) (h : ¬ connects tr d) :
    (ConfigFdbTableEntry env t tr d learn_info insert_entry).map (fun s => s.log) = some [] ∧
    (ConfigTunnelTableEntry env t tr d tunnel_info insert_entry).log = [] ∧
    (ConfigIpTunnelTermTableEntry env t tr d tunnel_info insert_entry).log = [] ∧
    (ConfigRxTunnelSrcTableEntry env t tr d tunnel_info insert_entry).log = [] ∧
    (ConfigTunnelSrcPortTableEntry env t tr d sp insert_entry).log = [] ∧
    (ConfigSrcPortTableEntry env t tr d sp insert_entry).map (fun s => s.log) = some [] ∧
    (ConfigVlanTableEntry env t tr d vlan_id insert_entry).log = [] := by
  unfold connects at h
  by_cases hc : (OvsP4rtSession.Create tr d).1.ok = true
  · have hp : ¬ (GetForwardingPipelineConfig tr (OvsP4rtSession.Create tr d).2).1.ok = true :=
      fun h' => h ⟨hc, h'⟩
    refine ⟨?_, ?_, ?_, ?_, ?_, ?_, ?_⟩ <;> cases t <;>
      simp only [ConfigFdbTableEntry, ConfigFdbTableEntry.es2k, ConfigFdbTableEntry.dpdk,
        ConfigTunnelTableEntry, ConfigIpTunnelTermTableEntry, ConfigRxTunnelSrcTableEntry,
        ConfigTunnelSrcPortTableEntry, ConfigSrcPortTableEntry, ConfigVlanTableEntry, hc, hp,
        not_true_eq_false, not_false_eq_true, if_false, if_true, Option.map_some'] <;>
      rfl
  · refine ⟨?_, ?_, ?_, ?_, ?_, ?_, ?_⟩ <;> cases t <;>
      simp only [ConfigFdbTableEntry, ConfigFdbTableEntry.es2k, ConfigFdbTableEntry.dpdk,
        ConfigTunnelTableEntry, ConfigIpTunnelTermTableEntry, ConfigRxTunnelSrcTableEntry,
        ConfigTunnelSrcPortTableEntry, ConfigSrcPortTableEntry, ConfigVlanTableEntry, hc,
        not_false_eq_true, if_true, Option.map_some'] <;>
      rfl

/-- Witness for C36: a transport on which session creation fails; the ES2K
insert of the sample event and the ES2K insert of the sample tunnel issue no
request. -/
theorem C36_no_request_without_session_witness :
    ¬ connects transport_no_session () ∧
    (ConfigFdbTableEntry sample_env Target.ES2K transport_no_session () (sample_learn false)
      true).map (fun s => s.log) = some [] ∧
    (ConfigTunnelTableEntry sample_env Target.ES2K transport_no_session () sample_tunnel
      true).log = [] :=
  ⟨fun h => absurd h.1 (by decide),
    (C36_no_request_without_session sample_env Target.ES2K transport_no_session ()
      (sample_learn false) sample_tunnel ⟨1, 5, 20⟩ 5 true
      (fun h => absurd h.1 (by decide))).1,
    (C36_no_request_without_session sample_env Target.ES2K transport_no_session ()
      (sample_learn false) sample_tunnel ⟨1, 5, 20⟩ 5 true
      (fun h => absurd h.1 (by decide))).2.1⟩

theorem byte_of_u32 (x : Int) :
    EncodeByteValue 1 [((toU32 x : Nat) : Int)] = EncodeByteValue 1 [x] := by
  simp only [EncodeByteValue, List.cons.injEq, and_true]
  unfold toU8 toU32
  omega

/-- C37: on DPDK, with session and schema obtained, the requests of
`ConfigFdbTableEntry` are: one write, of the tunnel forwarding entry, when
`is_tunnel` is set; otherwise, when `is_vlan` is set, the TX forwarding write
followed, if that write succeeded, by the RX forwarding write; otherwise
nothing. No read is issued. With insert intent the port parameter of the TX
and of the RX entry is the one-byte encoding of `vlan_id - 1`. -/
theorem C37_dpdk_fdb_requests (env : Env) (tr : Transport σ) (d : σ)
    (learn_info : mac_learning_info) (p4info : P4Info) (insert_entry : Bool)
    (hconn : connects tr d) :
    (ConfigFdbTableEntry env Target.DPDK tr d learn_info insert_entry).map (fun s => s.log) =
      some (if learn_info.is_tunnel = true then
          [Request.write ⟨SetupType insert_entry,
            PrepareFdbTableEntryforV4Tunnel env Target.DPDK TableEntry.fresh learn_info
              (schema tr d) insert_entry⟩]
        else if learn_info.is_vlan = true then
          Request.write ⟨SetupType insert_entry,
              PrepareFdbTxVlanTableEntry env Target.DPDK TableEntry.fresh learn_info
                (schema tr d) insert_entry⟩ ::
            (if (ConfigFdbTxVlanTableEntry env Target.DPDK tr (connected tr d) learn_info
                (schema tr d) insert_entry).1.ok = true then
              [Request.write ⟨SetupType insert_entry,
                PrepareFdbRxVlanTableEntry env Target.DPDK TableEntry.fresh learn_info
                  (schema tr d) insert_entry⟩]
            else [])
        else []) ∧
    param_values (PrepareFdbTxVlanTableEntry env Target.DPDK TableEntry.fresh learn_info p4info
      true) = [EncodeByteValue 1 [(learn_info.vln_info.vlan_id : Int) - 1]] ∧
    param_values (PrepareFdbRxVlanTableEntry env Target.DPDK TableEntry.fresh learn_info p4info
      true) = [EncodeByteValue 1 [(learn_info.vln_info.vlan_id : Int) - 1]] := by
  obtain ⟨hc, hp⟩ := hconn
  refine ⟨?_, ?_, ?_⟩
  · simp only [ConfigFdbTableEntry, ConfigFdbTableEntry.dpdk, hc, hp, not_true_eq_false,
      if_false, Option.map_some', Option.some.injEq]
    by_cases ht : learn_info.is_tunnel = true
    · simp only [ht, if_true]
      rfl
    · by_cases hv : learn_info.is_vlan = true
      · simp only [ht, hv, if_true, if_false]
        by_cases hw : (ConfigFdbTxVlanTableEntry env Target.DPDK tr
            (GetForwardingPipelineConfig tr (OvsP4rtSession.Create tr d).2).2.2 learn_info
            (GetForwardingPipelineConfig tr (OvsP4rtSession.Create tr d).2).2.1
            insert_entry).1.ok = true
        · have hw' : (ConfigFdbTxVlanTableEntry env Target.DPDK tr (connected tr d)
              learn_info (schema tr d) insert_entry).1.ok = true := hw
          simp only [hw, hw', not_true_eq_false, if_false, if_true]
          rfl
        · have hw' : ¬ (ConfigFdbTxVlanTableEntry env Target.DPDK tr (connected tr d)
              learn_info (schema tr d) insert_entry).1.ok = true := hw
          simp only [hw, hw', not_false_eq_true, if_true, if_false]
          rfl
      · simp only [ht, hv, if_false]
        rfl
  · exact congrArg (fun x => [x]) (byte_of_u32 _)
  · exact congrArg (fun x => [x]) (byte_of_u32 _)

/-- Witness for C37: the DPDK insert of a VLAN event with VLAN id 5 over a
transport on which every write succeeds: a TX write and an RX write, the port
parameter being 4. -/
theorem C37_dpdk_fdb_requests_witness :
    connects transport_absent () ∧
    (ConfigFdbTableEntry sample_env Target.DPDK transport_absent () sample_vlan_learn
      true).map (fun s => s.log) =
      some [Request.write ⟨UpdateType.INSERT,
          PrepareFdbTxVlanTableEntry sample_env Target.DPDK TableEntry.fresh sample_vlan_learn
            sample_p4info true⟩,
        Request.write ⟨UpdateType.INSERT,
          PrepareFdbRxVlanTableEntry sample_env Target.DPDK TableEntry.fresh sample_vlan_learn
            sample_p4info true⟩] ∧
    param_values (PrepareFdbTxVlanTableEntry sample_env Target.DPDK TableEntry.fresh
      sample_vlan_learn sample_p4info true) = [[4]] :=
  ⟨⟨rfl, rfl⟩,
    (C37_dpdk_fdb_requests sample_env transport_absent () sample_vlan_learn sample_p4info true
      ⟨rfl, rfl⟩).1,
    (C37_dpdk_fdb_requests sample_env transport_absent () sample_vlan_learn sample_p4info true
      ⟨rfl, rfl⟩).2.1⟩

/-- C38: on ES2K, with session and schema obtained, for either intent,
`ConfigSrcPortTableEntry` first reads the port-mapping table with the key
`EncodeByteValue(1, src_port - ES2K_VPORT_ID_OFFSET)`. If the read fails this
read is its only request. If it succeeds and the recovery loop is defined,
one write follows, of the entry that `PrepareSrcPortTableEntry` builds from
the record with `src_port` replaced by the recovered port: its source-port
key is the two-byte encoding of the recovered port, its VLAN key and, on
insert, its bridge id parameter are those of the record. -/
theorem C38_src_port_read_then_write (env : Env) (tr : Transport σ) (d : σ)
    (vsi_sp : src_port_info) (insert_entry : Bool) (host_sp : Nat) (p4info : P4Info)
    (hconn : connects tr d) :
    (ConfigSrcPortTableEntry env Target.ES2K tr d vsi_sp insert_entry).map (fun s => s.log) =
      (match (GetTxAccVsiTableEntry env tr (connected tr d) vsi_sp.src_port
          (schema tr d)).1 with
      | none =>
        some [Request.read
          ⟨PrepareTxAccVsiTableEntry env TableEntry.fresh vsi_sp.src_port (schema tr d)⟩]
      | some read_response =>
        (host_sp_of env (schema tr d) read_response).map fun recovered =>
          [Request.read
            ⟨PrepareTxAccVsiTableEntry env TableEntry.fresh vsi_sp.src_port (schema tr d)⟩,
            Request.write ⟨SetupType insert_entry,
              PrepareSrcPortTableEntry env TableEntry.fresh
                { vsi_sp with src_port := recovered } (schema tr d) insert_entry⟩]) ∧
    exact_values (PrepareTxAccVsiTableEntry env TableEntry.fresh vsi_sp.src_port p4info) =
      [EncodeByteValue 1 [(vsi_sp.src_port : Int) - (env.ES2K_VPORT_ID_OFFSET : Int)]] ∧
    ternary_fields (PrepareSrcPortTableEntry env TableEntry.fresh
        { vsi_sp with src_port := host_sp } p4info insert_entry) =
      [([host_sp / 256 % 256, host_sp % 256], [0xff, 0xff]),
        ([vsi_sp.vlan_id / 256 % 16, vsi_sp.vlan_id % 256], [0x0f, 0xff])] ∧
    param_values (PrepareSrcPortTableEntry env TableEntry.fresh
        { vsi_sp with src_port := host_sp } p4info true) =
      [EncodeByteValue 1 [(vsi_sp.bridge_id : Int)]] := by
  obtain ⟨hc, hp⟩ := hconn
  refine ⟨?_, ?_, src_port_entry_ternary_fields env _ p4info insert_entry, rfl⟩
  · simp only [ConfigSrcPortTableEntry, hc, hp, not_true_eq_false, if_false, connected, schema]
    cases hm : (GetTxAccVsiTableEntry env tr
        (GetForwardingPipelineConfig tr (OvsP4rtSession.Create tr d).2).2.2 vsi_sp.src_port
        (GetForwardingPipelineConfig tr (OvsP4rtSession.Create tr d).2).2.1).1 with
    | none =>
      simp only [Option.map_some']
      rfl
    | some read_response =>
      simp only []
      cases hh : host_sp_of env
          (GetForwardingPipelineConfig tr (OvsP4rtSession.Create tr d).2).2.1
          read_response with
      | none => rfl
      | some recovered =>
        simp only [Option.map_some']
        rfl
  · exact congrArg (fun x => [x]) (byte_of_u32 _)

/-- Witness for C38: the record with port 20, VLAN 5, bridge 1 over a
transport whose mapping read returns port 7; the key of the read is 4 and the
write carries the entry built for port 7. -/
theorem C38_src_port_read_then_write_witness :
    connects transport_mapping () ∧
    (ConfigSrcPortTableEntry sample_env Target.ES2K transport_mapping () ⟨1, 5, 20⟩
      true).map (fun s => s.log) =
      some [Request.read ⟨PrepareTxAccVsiTableEntry sample_env TableEntry.fresh 20 sample_p4info⟩,
        Request.write ⟨UpdateType.INSERT,
          PrepareSrcPortTableEntry sample_env TableEntry.fresh ⟨1, 5, 7⟩ sample_p4info true⟩] ∧
    exact_values (PrepareTxAccVsiTableEntry sample_env TableEntry.fresh 20 sample_p4info) =
      [[4]] :=
  ⟨⟨rfl, rfl⟩,
    (C38_src_port_read_then_write sample_env transport_mapping () ⟨1, 5, 20⟩ true 7
      sample_p4info ⟨rfl, rfl⟩).1,
    (C38_src_port_read_then_write sample_env transport_mapping () ⟨1, 5, 20⟩ true 7
      sample_p4info ⟨rfl, rfl⟩).2.1⟩

end

end ovs_p4rt
